import Mathlib

/-!
Shallow embedding of the typed settings-synchronization layer of the
`python-lab-control` repository (TDS2024B oscilloscope driver, QL335P power
supply driver, AFG3000 function-generator driver), together with theorems
settling the frozen claims about it.

Device interaction is modelled by explicit transcripts: every operation that
talks to the instrument returns the list of command/query strings it emitted,
in order.  Responses are supplied by an oracle `resp : String → String`
mapping each query string to the device's reply.  Python exceptions are
modelled as `Option String` error results, with the partial mutations that
happened before the exception preserved (Python mutates fields in place).
Python floats are modelled as rationals.
-/

/- The rational arithmetic of Batteries is marked irreducible, which would
block `decide`/`rfl` evaluation of the embedded numeric code; restore the
default transparency for it. -/
attribute [local semireducible] Rat.mul Rat.add Rat.sub Rat.inv

/-! ## Python-style numeric parsing and formatting helpers -/

/-- Value of a list of decimal digit characters. -/
def digitsVal (cs : List Char) : ℕ :=
  cs.foldl (fun a c => a * 10 + (c.toNat - 48)) 0

/-- Python's `str.strip()` on a character list (leading and trailing
whitespace removed). -/
def pyStripChars (cs : List Char) : List Char :=
  ((cs.dropWhile Char.isWhitespace).reverse.dropWhile Char.isWhitespace).reverse

/-- Python's `str.split(" ")` on a character list: split at every single
space, preserving empty fields. -/
def splitChar (cs : List Char) : List (List Char) :=
  match cs with
  | [] => [[]]
  | c :: r =>
    let t := splitChar r
    if c == ' ' then [] :: t
    else
      match t with
      | [] => [[c]]
      | h :: ts => (c :: h) :: ts

/-- `rx.strip().split(" ")` of the QL335P `__read` helper. -/
def pyStripSplit (s : String) : List String :=
  (splitChar (pyStripChars s.toList)).map String.mk

/-- Exponent-part helper of `parseFloat?`. -/
def parseExp (base : ℚ) (cs : List Char) : Option ℚ :=
  let p :=
    match cs with
    | '-' :: r => ((-1 : ℤ), r)
    | '+' :: r => ((1 : ℤ), r)
    | r => ((1 : ℤ), r)
  let ed := p.2.takeWhile Char.isDigit
  let r := p.2.dropWhile Char.isDigit
  if ed.isEmpty ∨ ¬ r.isEmpty then Option.none
  else some (base * (10 : ℚ) ^ (p.1 * (digitsVal ed : ℤ)))

/-- Decimal model of Python's `float(s)` conversion: optional sign, digits
with an optional fractional part, optional exponent.  Returns `none` where
Python raises `ValueError`. -/
def parseFloat? (s : String) : Option ℚ :=
  let cs := pyStripChars s.toList
  let p :=
    match cs with
    | '-' :: r => ((-1 : ℚ), r)
    | '+' :: r => ((1 : ℚ), r)
    | r => ((1 : ℚ), r)
  let ip := p.2.takeWhile Char.isDigit
  let r1 := p.2.dropWhile Char.isDigit
  let q :=
    match r1 with
    | '.' :: rr => (rr.takeWhile Char.isDigit, rr.dropWhile Char.isDigit)
    | _ => (([] : List Char), r1)
  if ip.isEmpty ∧ q.1.isEmpty then Option.none
  else
    let base : ℚ := p.1 * ((digitsVal ip : ℚ) + (digitsVal q.1 : ℚ) / (10 : ℚ) ^ q.1.length)
    match q.2 with
    | [] => some base
    | 'e' :: r3 => parseExp base r3
    | 'E' :: r3 => parseExp base r3
    | _ => Option.none

/-- Model of Python's `int(s)` conversion: optional sign then decimal digits
only.  Returns `none` where Python raises `ValueError`. -/
def parseInt? (s : String) : Option ℤ :=
  let cs := pyStripChars s.toList
  let p :=
    match cs with
    | '-' :: r => ((-1 : ℤ), r)
    | '+' :: r => ((1 : ℤ), r)
    | r => ((1 : ℤ), r)
  if p.2.isEmpty ∨ ¬ (p.2.all Char.isDigit) then Option.none
  else some (p.1 * (digitsVal p.2 : ℤ))

/-- Floor of a rational, computed by floor division of numerator by
denominator (kernel-reduction friendly). -/
def ratFloor (q : ℚ) : ℤ := Int.fdiv q.num (q.den : ℤ)

/-- Absolute value of a rational (kernel-reduction friendly). -/
def ratAbs (q : ℚ) : ℚ := if q < 0 then -q else q

/-- Truncation toward zero, Python's `int(float)` behaviour. -/
def ratTrunc (q : ℚ) : ℤ :=
  if 0 ≤ q then ratFloor q else -(ratFloor (-q))

/-- Round to the nearest integer (half up) — decimal model of Python's
float formatting rounding. -/
def roundQ (q : ℚ) : ℤ := ratFloor (q + 1 / 2)

/-- Left-pad the decimal rendering of `n` with zeros to `width` characters. -/
def natPad (width : ℕ) (n : ℕ) : String :=
  let s := toString n
  String.mk (List.replicate (width - s.length) '0') ++ s

/-- Largest `e` with `10 ^ e ≤ q`, for `q > 0`. -/
def ratExp10 (q : ℚ) : ℤ :=
  let a := (Nat.toDigits 10 q.num.natAbs).length
  let b := (Nat.toDigits 10 q.den).length
  let e0 : ℤ := (a : ℤ) - (b : ℤ)
  if q < (10 : ℚ) ^ e0 then e0 - 1 else e0

/-- Decimal model of Python's fixed-point `f"{v:.3f}"` formatting. -/
def format3 (q : ℚ) : String :=
  let m : ℕ := (roundQ (ratAbs q * 1000)).toNat
  (if q < 0 then "-" else "") ++ toString (m / 1000) ++ "." ++ natPad 3 (m % 1000)

/-- Decimal model of Python's scientific `f"{v:E}"` formatting
(six fractional digits, two-digit signed exponent). -/
def formatE (q : ℚ) : String :=
  if q = 0 then "0.000000E+00"
  else
    let sgn := if q < 0 then "-" else ""
    let n := ratAbs q
    let e := ratExp10 n
    let r0 := (roundQ (n / (10 : ℚ) ^ e * 1000000)).toNat
    let r := if r0 = 10000000 then 1000000 else r0
    let e1 := if r0 = 10000000 then e + 1 else e
    sgn ++ toString (r / 1000000) ++ "." ++ natPad 6 (r % 1000000) ++ "E" ++
      (if e1 < 0 then "-" else "+") ++ natPad 2 e1.natAbs

/-- Drop trailing `'0'` characters. -/
def stripZeros (s : String) : String :=
  String.mk ((s.toList.reverse.dropWhile (fun c => c == '0')).reverse)

/-- Decimal model of Python's general `f"{v:G}"` formatting
(six significant digits, trailing zeros stripped, scientific form for
exponents below `-4` or at least `6`). -/
def formatG (q : ℚ) : String :=
  if q = 0 then "0"
  else
    let sgn := if q < 0 then "-" else ""
    let n := ratAbs q
    let e := ratExp10 n
    let r0 := (roundQ (n / (10 : ℚ) ^ e * 100000)).toNat
    let r := if r0 = 1000000 then 100000 else r0
    let e1 := if r0 = 1000000 then e + 1 else e
    if e1 < -4 ∨ 6 ≤ e1 then
      let frac := stripZeros (natPad 5 (r % 100000))
      sgn ++ toString (r / 100000) ++ (if frac = "" then "" else "." ++ frac) ++ "E" ++
        (if e1 < 0 then "-" else "+") ++ natPad 2 e1.natAbs
    else if 0 ≤ e1 then
      let digs := (natPad 6 r).toList
      let k := e1.toNat + 1
      let fpart := stripZeros (String.mk (digs.drop k))
      sgn ++ String.mk (digs.take k) ++ (if fpart = "" then "" else "." ++ fpart)
    else
      let zeros := String.mk (List.replicate (-(e1 + 1)).toNat '0')
      sgn ++ "0." ++ stripZeros (zeros ++ natPad 6 r)

/-! ## Wire-value enumerations of the TDS2024B driver

Each Python `str`-subclassed `Enum` becomes an inductive type with
`value` (the member's wire string, used on encode) and `ofWire`
(Python's by-value `Enum(wire)` lookup, `none` where Python raises
`ValueError`). -/

inductive TDS2024B_Measurement_Source
  | CH1
  | CH2
  | CH3
  | CH4
  | MATH
deriving DecidableEq

def TDS2024B_Measurement_Source.value : TDS2024B_Measurement_Source → String
  | .CH1 => "CH1"
  | .CH2 => "CH2"
  | .CH3 => "CH3"
  | .CH4 => "CH4"
  | .MATH => "MATH"

def TDS2024B_Measurement_Source.ofWire (s : String) : Option TDS2024B_Measurement_Source :=
  if s = "CH1" then some .CH1
  else if s = "CH2" then some .CH2
  else if s = "CH3" then some .CH3
  else if s = "CH4" then some .CH4
  else if s = "MATH" then some .MATH
  else Option.none

inductive TDS2024B_Measurement_Type
  | Disable
  | Cycle_RMS
  | Fall
  | Rise
  | Maxi
  | Mini
  | Maximum
  | Minimum
  | Period
  | Frequency
  | Mean
  | NWidth
  | PWidth
  | Peak2Peak
deriving DecidableEq

def TDS2024B_Measurement_Type.value : TDS2024B_Measurement_Type → String
  | .Disable => "NONE"
  | .Cycle_RMS => "CRMS"
  | .Fall => "FALL"
  | .Rise => "RISE"
  | .Maxi => "MAXI"
  | .Mini => "MINI"
  | .Maximum => "MAXIMUM"
  | .Minimum => "MINIMUM"
  | .Period => "PERIOD"
  | .Frequency => "FREQUENCY"
  | .Mean => "MEAN"
  | .NWidth => "NWIDTH"
  | .PWidth => "PWIDTH"
  | .Peak2Peak => "PK2PK"

def TDS2024B_Measurement_Type.ofWire (s : String) : Option TDS2024B_Measurement_Type :=
  if s = "NONE" then some .Disable
  else if s = "CRMS" then some .Cycle_RMS
  else if s = "FALL" then some .Fall
  else if s = "RISE" then some .Rise
  else if s = "MAXI" then some .Maxi
  else if s = "MINI" then some .Mini
  else if s = "MAXIMUM" then some .Maximum
  else if s = "MINIMUM" then some .Minimum
  else if s = "PERIOD" then some .Period
  else if s = "FREQUENCY" then some .Frequency
  else if s = "MEAN" then some .Mean
  else if s = "NWIDTH" then some .NWidth
  else if s = "PWIDTH" then some .PWidth
  else if s = "PK2PK" then some .Peak2Peak
  else Option.none

inductive TDS2024B_Channel_Coupling
  | AC
  | DC
  | GND
deriving DecidableEq

def TDS2024B_Channel_Coupling.value : TDS2024B_Channel_Coupling → String
  | .AC => "AC"
  | .DC => "DC"
  | .GND => "GND"

def TDS2024B_Channel_Coupling.ofWire (s : String) : Option TDS2024B_Channel_Coupling :=
  if s = "AC" then some .AC
  else if s = "DC" then some .DC
  else if s = "GND" then some .GND
  else Option.none

inductive TDS2024B_Trigger_Type
  | Edge
  | Video
  | Pulse
deriving DecidableEq

def TDS2024B_Trigger_Type.value : TDS2024B_Trigger_Type → String
  | .Edge => "EDGE"
  | .Video => "VID"
  | .Pulse => "PUL"

def TDS2024B_Trigger_Type.ofWire (s : String) : Option TDS2024B_Trigger_Type :=
  if s = "EDGE" then some .Edge
  else if s = "VID" then some .Video
  else if s = "PUL" then some .Pulse
  else Option.none

inductive TDS2024B_Trigger_Mode
  | Auto
  | Normal
deriving DecidableEq

def TDS2024B_Trigger_Mode.value : TDS2024B_Trigger_Mode → String
  | .Auto => "AUTO"
  | .Normal => "NORMAL"

def TDS2024B_Trigger_Mode.ofWire (s : String) : Option TDS2024B_Trigger_Mode :=
  if s = "AUTO" then some .Auto
  else if s = "NORMAL" then some .Normal
  else Option.none

inductive TDS2024B_Trigger_Edge_Coupling
  | AC
  | DC
  | HF_Reject
  | LF_Reject
  | Noise_Reject
deriving DecidableEq

def TDS2024B_Trigger_Edge_Coupling.value : TDS2024B_Trigger_Edge_Coupling → String
  | .AC => "AC"
  | .DC => "DC"
  | .HF_Reject => "HFREJ"
  | .LF_Reject => "LFREJ"
  | .Noise_Reject => "NOISEREJ"

def TDS2024B_Trigger_Edge_Coupling.ofWire (s : String) : Option TDS2024B_Trigger_Edge_Coupling :=
  if s = "AC" then some .AC
  else if s = "DC" then some .DC
  else if s = "HFREJ" then some .HF_Reject
  else if s = "LFREJ" then some .LF_Reject
  else if s = "NOISEREJ" then some .Noise_Reject
  else Option.none

inductive TDS2024B_Trigger_Edge_Slope
  | Fall
  | Rise
deriving DecidableEq

def TDS2024B_Trigger_Edge_Slope.value : TDS2024B_Trigger_Edge_Slope → String
  | .Fall => "FALL"
  | .Rise => "RISE"

def TDS2024B_Trigger_Edge_Slope.ofWire (s : String) : Option TDS2024B_Trigger_Edge_Slope :=
  if s = "FALL" then some .Fall
  else if s = "RISE" then some .Rise
  else Option.none

inductive TDS2024B_Trigger_Edge_Source
  | CH1
  | CH2
  | CH3
  | CH4
  | Ext
  | Ext5
  | Ext10
  | Line
deriving DecidableEq

def TDS2024B_Trigger_Edge_Source.value : TDS2024B_Trigger_Edge_Source → String
  | .CH1 => "CH1"
  | .CH2 => "CH2"
  | .CH3 => "CH3"
  | .CH4 => "CH4"
  | .Ext => "EXT"
  | .Ext5 => "EXT5"
  | .Ext10 => "EXT10"
  | .Line => "LINE"

def TDS2024B_Trigger_Edge_Source.ofWire (s : String) : Option TDS2024B_Trigger_Edge_Source :=
  if s = "CH1" then some .CH1
  else if s = "CH2" then some .CH2
  else if s = "CH3" then some .CH3
  else if s = "CH4" then some .CH4
  else if s = "EXT" then some .Ext
  else if s = "EXT5" then some .Ext5
  else if s = "EXT10" then some .Ext10
  else if s = "LINE" then some .Line
  else Option.none

@[simp]
theorem TDS2024B_Measurement_Source.ofWire_value_msrc (v : TDS2024B_Measurement_Source) :
    TDS2024B_Measurement_Source.ofWire v.value = some v := by
  cases v <;> rfl

@[simp]
theorem TDS2024B_Measurement_Type.ofWire_value_mtyp (v : TDS2024B_Measurement_Type) :
    TDS2024B_Measurement_Type.ofWire v.value = some v := by
  cases v <;> rfl

@[simp]
theorem TDS2024B_Channel_Coupling.ofWire_value_ccpl (v : TDS2024B_Channel_Coupling) :
    TDS2024B_Channel_Coupling.ofWire v.value = some v := by
  cases v <;> rfl

@[simp]
theorem TDS2024B_Trigger_Type.ofWire_value_ttyp (v : TDS2024B_Trigger_Type) :
    TDS2024B_Trigger_Type.ofWire v.value = some v := by
  cases v <;> rfl

@[simp]
theorem TDS2024B_Trigger_Mode.ofWire_value_tmod (v : TDS2024B_Trigger_Mode) :
    TDS2024B_Trigger_Mode.ofWire v.value = some v := by
  cases v <;> rfl

@[simp]
theorem TDS2024B_Trigger_Edge_Coupling.ofWire_value_tecp (v : TDS2024B_Trigger_Edge_Coupling) :
    TDS2024B_Trigger_Edge_Coupling.ofWire v.value = some v := by
  cases v <;> rfl

@[simp]
theorem TDS2024B_Trigger_Edge_Slope.ofWire_value_tesl (v : TDS2024B_Trigger_Edge_Slope) :
    TDS2024B_Trigger_Edge_Slope.ofWire v.value = some v := by
  cases v <;> rfl

@[simp]
theorem TDS2024B_Trigger_Edge_Source.ofWire_value_tesr (v : TDS2024B_Trigger_Edge_Source) :
    TDS2024B_Trigger_Edge_Source.ofWire v.value = some v := by
  cases v <;> rfl

/-! ## Configuration mappings

A configuration mapping is an association list from string keys to primitive
values; `PrimVal.none` models Python `None` inside a mapping. -/

inductive PrimVal
  | none
  | bool (b : Bool)
  | int (n : ℤ)
  | float (q : ℚ)
  | str (s : String)
deriving DecidableEq

abbrev ConfigMapping := List (String × PrimVal)

/-- Python's `bool(x)` truthiness coercion. -/
def PrimVal.toBool : PrimVal → Bool
  | .none => false
  | .bool b => b
  | .int n => n != 0
  | .float q => q != 0
  | .str s => s != ""

/-- Python's `float(x)` coercion; `none` where Python raises. -/
def PrimVal.toFloat? : PrimVal → Option ℚ
  | .none => Option.none
  | .bool b => some (if b then 1 else 0)
  | .int n => some (n : ℚ)
  | .float q => some q
  | .str s => parseFloat? s

/-- Python's `int(x)` coercion; `none` where Python raises. -/
def PrimVal.toInt? : PrimVal → Option ℤ
  | .none => Option.none
  | .bool b => some (if b then 1 else 0)
  | .int n => some n
  | .float q => some (ratTrunc q)
  | .str s => parseInt? s

/-- Python's by-value `Enum(x)` lookup applied to a mapping value. -/
def decodeVia {α : Type} (dec : String → Option α) : PrimVal → Option α
  | .str s => dec s
  | _ => Option.none

/-- `data.get(k, None) is not None`: the value stored under `k`, unless it is
absent or null. -/
def lookupNonNull (data : ConfigMapping) (k : String) : Option PrimVal :=
  match data.lookup k with
  | some PrimVal.none => Option.none
  | some v => some v
  | Option.none => Option.none

/-- One guarded field assignment of a `settings_load` body:
`if data.get(k, None) is not None: self.fld = coerce(data[k])`.
Earlier failures pass through; a failed coercion stops the chain with the
mutations made so far kept (Python raises mid-method). -/
def loadField {σ α : Type} (st : σ × Option String) (data : ConfigMapping) (k : String)
    (dec : PrimVal → Option α) (set : σ → α → σ) : σ × Option String :=
  match st with
  | (s, some e) => (s, some e)
  | (s, Option.none) =>
    match lookupNonNull data k with
    | Option.none => (s, Option.none)
    | some v =>
      match dec v with
      | Option.none => (s, some ("ValueError: could not convert value for " ++ k))
      | some a => (set s a, Option.none)

/-- One query/decode/assign step of a `settings_read` body:
`self.fld = coerce(self.dev.ask(q))`.  The query string is appended to the
transcript before the decode is attempted (the device was already asked). -/
def readField {σ α : Type} (st : List String × σ × Option String) (resp : String → String)
    (q : String) (dec : String → Option α) (set : σ → α → σ) :
    List String × σ × Option String :=
  match st with
  | (tr, s, some e) => (tr, s, some e)
  | (tr, s, Option.none) =>
    match dec (resp q) with
    | Option.none => (tr ++ [q], s, some ("DecodeError at " ++ q))
    | some a => (tr ++ [q], set s a, Option.none)

/-- One guarded set-command emission of a `settings_write` body:
`if self.fld is not None: self.dev.write(mk(self.fld))`. -/
def writeField {α : Type} (cmds : List String) (v : Option α) (mk : α → String) : List String :=
  match v with
  | Option.none => cmds
  | some a => cmds ++ [mk a]

/-- Count of non-unset optional fields. -/
def optCount {α : Type} (o : Option α) : ℕ :=
  match o with
  | Option.none => 0
  | some _ => 1

/-- Dump of an optional field into a mapping value (`asdict` keeps `None`). -/
def optPrim {α : Type} (f : α → PrimVal) : Option α → PrimVal
  | Option.none => PrimVal.none
  | some a => f a

/-! ## Measurement entity (`TDS2024B_Measurement`) -/

structure TDS2024B_Measurement where
  id : String
  source : Option TDS2024B_Measurement_Source
  type : Option TDS2024B_Measurement_Type
deriving DecidableEq

/-- `TDS2024B_Measurement(dev, id)`: freshly constructed entity, fields unset. -/
def TDS2024B_Measurement.construct (id : String) : TDS2024B_Measurement :=
  { id := id, source := Option.none, type := Option.none }

/-- `if data.get("source", None) is not None: self.source = ...(data["source"])` -/
def TDS2024B_Measurement.load_source (st : TDS2024B_Measurement × Option String)
    (data : ConfigMapping) : TDS2024B_Measurement × Option String :=
  loadField st data "source" (decodeVia TDS2024B_Measurement_Source.ofWire)
    (fun e v => { e with source := some v })

/-- `if data.get("type", None) is not None: self.type = ...(data["type"])` -/
def TDS2024B_Measurement.load_type (st : TDS2024B_Measurement × Option String)
    (data : ConfigMapping) : TDS2024B_Measurement × Option String :=
  loadField st data "type" (decodeVia TDS2024B_Measurement_Type.ofWire)
    (fun e v => { e with type := some v })

def TDS2024B_Measurement.settings_load (m : TDS2024B_Measurement) (data : ConfigMapping) :
    TDS2024B_Measurement × Option String :=
  TDS2024B_Measurement.load_type (TDS2024B_Measurement.load_source (m, Option.none) data) data

def TDS2024B_Measurement.settings_read (m : TDS2024B_Measurement) (resp : String → String) :
    List String × TDS2024B_Measurement × Option String :=
  let s1 := readField ([], m, Option.none) resp ("MEASU:" ++ m.id ++ ":SOURCE?")
    TDS2024B_Measurement_Source.ofWire
    (fun e v => { e with source := some v })
  readField s1 resp ("MEASU:" ++ m.id ++ ":TYPE?")
    TDS2024B_Measurement_Type.ofWire
    (fun e v => { e with type := some v })

/-- `settings_write` of a measurement: the source reads `self.source.value`
and `self.type.value` with no `None` guard, so an unset field raises
`AttributeError` before that field's command is sent. -/
def TDS2024B_Measurement.settings_write (m : TDS2024B_Measurement) :
    List String × Option String :=
  match m.source with
  | Option.none => ([], some "AttributeError: NoneType has no attribute value")
  | some s =>
    let c1 := "MEASU:" ++ m.id ++ ":SOURCE " ++ s.value
    match m.type with
    | Option.none => ([c1], some "AttributeError: NoneType has no attribute value")
    | some t => ([c1, "MEASU:" ++ m.id ++ ":TYPE " ++ t.value], Option.none)

/-- `asdict` snapshot of a measurement (the `id` is an `InitVar`, not a
dataclass field, hence absent). -/
def TDS2024B_Measurement.asdict (m : TDS2024B_Measurement) : ConfigMapping :=
  [("source", optPrim (fun v => PrimVal.str v.value) m.source),
   ("type", optPrim (fun v => PrimVal.str v.value) m.type)]

/-! ## Channel entity (`TDS2024B_Channel_Parameters`)

The `attenuation` field is declared `int` in the dataclass but
`settings_read` stores a parsed float into it, so its value domain is
modelled as `ℚ`; `settings_load` applies Python's `int()` truncation. -/

structure TDS2024B_Channel_Parameters where
  chan : ℕ
  bw_filter : Option Bool
  coupling : Option TDS2024B_Channel_Coupling
  invert : Option Bool
  position : Option ℚ
  attenuation : Option ℚ
  scale : Option ℚ
  «on» : Option Bool
deriving DecidableEq

/-- `TDS2024B_Channel_Parameters(dev, chan)`: fresh entity, fields unset. -/
def TDS2024B_Channel_Parameters.construct (chan : ℕ) : TDS2024B_Channel_Parameters :=
  { chan := chan, bw_filter := Option.none, coupling := Option.none,
    invert := Option.none, position := Option.none, attenuation := Option.none,
    scale := Option.none, «on» := Option.none }

def TDS2024B_Channel_Parameters.load_bw_filter (st : TDS2024B_Channel_Parameters × Option String)
    (data : ConfigMapping) : TDS2024B_Channel_Parameters × Option String :=
  loadField st data "bw_filter" (fun v => some v.toBool)
    (fun e b => { e with bw_filter := some b })

def TDS2024B_Channel_Parameters.load_coupling (st : TDS2024B_Channel_Parameters × Option String)
    (data : ConfigMapping) : TDS2024B_Channel_Parameters × Option String :=
  loadField st data "coupling" (decodeVia TDS2024B_Channel_Coupling.ofWire)
    (fun e v => { e with coupling := some v })

def TDS2024B_Channel_Parameters.load_invert (st : TDS2024B_Channel_Parameters × Option String)
    (data : ConfigMapping) : TDS2024B_Channel_Parameters × Option String :=
  loadField st data "invert" (fun v => some v.toBool)
    (fun e b => { e with invert := some b })

def TDS2024B_Channel_Parameters.load_position (st : TDS2024B_Channel_Parameters × Option String)
    (data : ConfigMapping) : TDS2024B_Channel_Parameters × Option String :=
  loadField st data "position" PrimVal.toFloat?
    (fun e q => { e with position := some q })

def TDS2024B_Channel_Parameters.load_attenuation (st : TDS2024B_Channel_Parameters × Option String)
    (data : ConfigMapping) : TDS2024B_Channel_Parameters × Option String :=
  loadField st data "attenuation" (fun v => (PrimVal.toInt? v).map (fun n => (n : ℚ)))
    (fun e q => { e with attenuation := some q })

def TDS2024B_Channel_Parameters.load_scale (st : TDS2024B_Channel_Parameters × Option String)
    (data : ConfigMapping) : TDS2024B_Channel_Parameters × Option String :=
  loadField st data "scale" PrimVal.toFloat?
    (fun e q => { e with scale := some q })

def TDS2024B_Channel_Parameters.load_on (st : TDS2024B_Channel_Parameters × Option String)
    (data : ConfigMapping) : TDS2024B_Channel_Parameters × Option String :=
  loadField st data "on" (fun v => some v.toBool)
    (fun e b => { e with «on» := some b })

def TDS2024B_Channel_Parameters.settings_load (c : TDS2024B_Channel_Parameters)
    (data : ConfigMapping) : TDS2024B_Channel_Parameters × Option String :=
  TDS2024B_Channel_Parameters.load_on
    (TDS2024B_Channel_Parameters.load_scale
      (TDS2024B_Channel_Parameters.load_attenuation
        (TDS2024B_Channel_Parameters.load_position
          (TDS2024B_Channel_Parameters.load_invert
            (TDS2024B_Channel_Parameters.load_coupling
              (TDS2024B_Channel_Parameters.load_bw_filter (c, Option.none) data)
              data)
            data)
          data)
        data)
      data)
    data

def TDS2024B_Channel_Parameters.read_bw_filter (st : List String × TDS2024B_Channel_Parameters × Option String)
    (resp : String → String) : List String × TDS2024B_Channel_Parameters × Option String :=
  readField st resp ("CH" ++ toString st.2.1.chan ++ ":BANDWIDTH?")
    (fun s => some (s == "ON")) (fun e b => { e with bw_filter := some b })

def TDS2024B_Channel_Parameters.read_coupling (st : List String × TDS2024B_Channel_Parameters × Option String)
    (resp : String → String) : List String × TDS2024B_Channel_Parameters × Option String :=
  readField st resp ("CH" ++ toString st.2.1.chan ++ ":COUPLING?")
    TDS2024B_Channel_Coupling.ofWire (fun e v => { e with coupling := some v })

def TDS2024B_Channel_Parameters.read_invert (st : List String × TDS2024B_Channel_Parameters × Option String)
    (resp : String → String) : List String × TDS2024B_Channel_Parameters × Option String :=
  readField st resp ("CH" ++ toString st.2.1.chan ++ ":INVERT?")
    (fun s => some (s == "ON")) (fun e b => { e with invert := some b })

def TDS2024B_Channel_Parameters.read_position (st : List String × TDS2024B_Channel_Parameters × Option String)
    (resp : String → String) : List String × TDS2024B_Channel_Parameters × Option String :=
  readField st resp ("CH" ++ toString st.2.1.chan ++ ":POS?")
    parseFloat? (fun e q => { e with position := some q })

def TDS2024B_Channel_Parameters.read_attenuation (st : List String × TDS2024B_Channel_Parameters × Option String)
    (resp : String → String) : List String × TDS2024B_Channel_Parameters × Option String :=
  readField st resp ("CH" ++ toString st.2.1.chan ++ ":PROBE?")
    parseFloat? (fun e q => { e with attenuation := some q })

def TDS2024B_Channel_Parameters.read_scale (st : List String × TDS2024B_Channel_Parameters × Option String)
    (resp : String → String) : List String × TDS2024B_Channel_Parameters × Option String :=
  readField st resp ("CH" ++ toString st.2.1.chan ++ ":SCALE?")
    parseFloat? (fun e q => { e with scale := some q })

def TDS2024B_Channel_Parameters.read_on (st : List String × TDS2024B_Channel_Parameters × Option String)
    (resp : String → String) : List String × TDS2024B_Channel_Parameters × Option String :=
  readField st resp ("SELECT:CH" ++ toString st.2.1.chan ++ "?")
    (fun s => (parseInt? s).map (fun n => n != 0))
    (fun e b => { e with «on» := some b })

def TDS2024B_Channel_Parameters.settings_read (c : TDS2024B_Channel_Parameters)
    (resp : String → String) : List String × TDS2024B_Channel_Parameters × Option String :=
  TDS2024B_Channel_Parameters.read_on
    (TDS2024B_Channel_Parameters.read_scale
      (TDS2024B_Channel_Parameters.read_attenuation
        (TDS2024B_Channel_Parameters.read_position
          (TDS2024B_Channel_Parameters.read_invert
            (TDS2024B_Channel_Parameters.read_coupling
              (TDS2024B_Channel_Parameters.read_bw_filter ([], c, Option.none) resp)
              resp)
            resp)
          resp)
        resp)
      resp)
    resp

def TDS2024B_Channel_Parameters.settings_write (c : TDS2024B_Channel_Parameters) :
    List String × Option String :=
  let ch := "CH" ++ toString c.chan
  let c1 := writeField [] c.bw_filter
    (fun b => ch ++ ":BANDWIDTH " ++ (if b then "ON" else "OFF"))
  let c2 := writeField c1 c.coupling (fun v => ch ++ ":COUPLING " ++ v.value)
  let c3 := writeField c2 c.invert
    (fun b => ch ++ ":INVERT " ++ (if b then "ON" else "OFF"))
  let c4 := writeField c3 c.position (fun q => ch ++ ":POS " ++ formatE q)
  let c5 := writeField c4 c.attenuation (fun q => ch ++ ":PROBE " ++ formatE q)
  let c6 := writeField c5 c.scale (fun q => ch ++ ":SCALE " ++ formatE q)
  (writeField c6 c.«on»
    (fun b => "SELECT:" ++ ch ++ " " ++ (if b then "1" else "0")), Option.none)

def TDS2024B_Channel_Parameters.asdict (c : TDS2024B_Channel_Parameters) : ConfigMapping :=
  [("bw_filter", optPrim PrimVal.bool c.bw_filter),
   ("coupling", optPrim (fun v => PrimVal.str v.value) c.coupling),
   ("invert", optPrim PrimVal.bool c.invert),
   ("position", optPrim PrimVal.float c.position),
   ("attenuation", optPrim PrimVal.float c.attenuation),
   ("scale", optPrim PrimVal.float c.scale),
   ("on", optPrim PrimVal.bool c.«on»)]

/-! ## Horizontal entity (`TDS2024B_Horizontal_Parameters`) -/

structure TDS2024B_Horizontal_Parameters where
  id : String
  pos : Option ℚ
  scale : Option ℚ
deriving DecidableEq

/-- `TDS2024B_Horizontal_Parameters(dev, id)`: fresh entity, fields unset. -/
def TDS2024B_Horizontal_Parameters.construct (id : String) : TDS2024B_Horizontal_Parameters :=
  { id := id, pos := Option.none, scale := Option.none }

def TDS2024B_Horizontal_Parameters.load_pos (st : TDS2024B_Horizontal_Parameters × Option String)
    (data : ConfigMapping) : TDS2024B_Horizontal_Parameters × Option String :=
  loadField st data "pos" PrimVal.toFloat? (fun e q => { e with pos := some q })

def TDS2024B_Horizontal_Parameters.load_scale (st : TDS2024B_Horizontal_Parameters × Option String)
    (data : ConfigMapping) : TDS2024B_Horizontal_Parameters × Option String :=
  loadField st data "scale" PrimVal.toFloat? (fun e q => { e with scale := some q })

def TDS2024B_Horizontal_Parameters.settings_load (h : TDS2024B_Horizontal_Parameters)
    (data : ConfigMapping) : TDS2024B_Horizontal_Parameters × Option String :=
  TDS2024B_Horizontal_Parameters.load_scale
    (TDS2024B_Horizontal_Parameters.load_pos (h, Option.none) data) data

def TDS2024B_Horizontal_Parameters.settings_read (h : TDS2024B_Horizontal_Parameters)
    (resp : String → String) : List String × TDS2024B_Horizontal_Parameters × Option String :=
  let s1 := readField ([], h, Option.none) resp ("HOR:" ++ h.id ++ ":POS?")
    parseFloat? (fun e q => { e with pos := some q })
  readField s1 resp ("HOR:" ++ h.id ++ ":SCALE?")
    parseFloat? (fun e q => { e with scale := some q })

def TDS2024B_Horizontal_Parameters.settings_write (h : TDS2024B_Horizontal_Parameters) :
    List String × Option String :=
  let c1 := writeField [] h.pos (fun q => "HOR:" ++ h.id ++ ":POS " ++ formatE q)
  (writeField c1 h.scale (fun q => "HOR:" ++ h.id ++ ":SCALE " ++ formatE q), Option.none)

def TDS2024B_Horizontal_Parameters.asdict (h : TDS2024B_Horizontal_Parameters) : ConfigMapping :=
  [("pos", optPrim PrimVal.float h.pos),
   ("scale", optPrim PrimVal.float h.scale)]

/-! ## Trigger entity (`TDS2024B_Trigger_Parameters`) -/

structure TDS2024B_Trigger_Parameters where
  id : String
  type : Option TDS2024B_Trigger_Type
  mode : Option TDS2024B_Trigger_Mode
  level : Option ℚ
  edge_coupling : Option TDS2024B_Trigger_Edge_Coupling
  edge_slope : Option TDS2024B_Trigger_Edge_Slope
  edge_source : Option TDS2024B_Trigger_Edge_Source
deriving DecidableEq

/-- `TDS2024B_Trigger_Parameters(dev, id)`: fresh entity, fields unset. -/
def TDS2024B_Trigger_Parameters.construct (id : String) : TDS2024B_Trigger_Parameters :=
  { id := id, type := Option.none, mode := Option.none, level := Option.none,
    edge_coupling := Option.none, edge_slope := Option.none, edge_source := Option.none }

def TDS2024B_Trigger_Parameters.load_type (st : TDS2024B_Trigger_Parameters × Option String)
    (data : ConfigMapping) : TDS2024B_Trigger_Parameters × Option String :=
  loadField st data "type" (decodeVia TDS2024B_Trigger_Type.ofWire)
    (fun e v => { e with type := some v })

def TDS2024B_Trigger_Parameters.load_mode (st : TDS2024B_Trigger_Parameters × Option String)
    (data : ConfigMapping) : TDS2024B_Trigger_Parameters × Option String :=
  loadField st data "mode" (decodeVia TDS2024B_Trigger_Mode.ofWire)
    (fun e v => { e with mode := some v })

def TDS2024B_Trigger_Parameters.load_level (st : TDS2024B_Trigger_Parameters × Option String)
    (data : ConfigMapping) : TDS2024B_Trigger_Parameters × Option String :=
  loadField st data "level" PrimVal.toFloat? (fun e q => { e with level := some q })

def TDS2024B_Trigger_Parameters.load_edge_coupling (st : TDS2024B_Trigger_Parameters × Option String)
    (data : ConfigMapping) : TDS2024B_Trigger_Parameters × Option String :=
  loadField st data "edge_coupling" (decodeVia TDS2024B_Trigger_Edge_Coupling.ofWire)
    (fun e v => { e with edge_coupling := some v })

def TDS2024B_Trigger_Parameters.load_edge_slope (st : TDS2024B_Trigger_Parameters × Option String)
    (data : ConfigMapping) : TDS2024B_Trigger_Parameters × Option String :=
  loadField st data "edge_slope" (decodeVia TDS2024B_Trigger_Edge_Slope.ofWire)
    (fun e v => { e with edge_slope := some v })

def TDS2024B_Trigger_Parameters.load_edge_source (st : TDS2024B_Trigger_Parameters × Option String)
    (data : ConfigMapping) : TDS2024B_Trigger_Parameters × Option String :=
  loadField st data "edge_source" (decodeVia TDS2024B_Trigger_Edge_Source.ofWire)
    (fun e v => { e with edge_source := some v })

def TDS2024B_Trigger_Parameters.settings_load (t : TDS2024B_Trigger_Parameters)
    (data : ConfigMapping) : TDS2024B_Trigger_Parameters × Option String :=
  TDS2024B_Trigger_Parameters.load_edge_source
    (TDS2024B_Trigger_Parameters.load_edge_slope
      (TDS2024B_Trigger_Parameters.load_edge_coupling
        (TDS2024B_Trigger_Parameters.load_level
          (TDS2024B_Trigger_Parameters.load_mode
            (TDS2024B_Trigger_Parameters.load_type (t, Option.none) data)
            data)
          data)
        data)
      data)
    data

def TDS2024B_Trigger_Parameters.settings_read (t : TDS2024B_Trigger_Parameters)
    (resp : String → String) : List String × TDS2024B_Trigger_Parameters × Option String :=
  let pre := "TRIG:" ++ t.id
  let s1 := readField ([], t, Option.none) resp (pre ++ ":TYPE?")
    TDS2024B_Trigger_Type.ofWire (fun e v => { e with type := some v })
  let s2 := readField s1 resp (pre ++ ":MODE?")
    TDS2024B_Trigger_Mode.ofWire (fun e v => { e with mode := some v })
  let s3 := readField s2 resp (pre ++ ":LEVEL?")
    parseFloat? (fun e q => { e with level := some q })
  let s4 := readField s3 resp (pre ++ ":EDGE:COUPLING?")
    TDS2024B_Trigger_Edge_Coupling.ofWire (fun e v => { e with edge_coupling := some v })
  let s5 := readField s4 resp (pre ++ ":EDGE:SLOPE?")
    TDS2024B_Trigger_Edge_Slope.ofWire (fun e v => { e with edge_slope := some v })
  readField s5 resp (pre ++ ":EDGE:SOURCE?")
    TDS2024B_Trigger_Edge_Source.ofWire (fun e v => { e with edge_source := some v })

def TDS2024B_Trigger_Parameters.settings_write (t : TDS2024B_Trigger_Parameters) :
    List String × Option String :=
  let pre := "TRIG:" ++ t.id
  let c1 := writeField [] t.type (fun v => pre ++ ":TYPE " ++ v.value)
  let c2 := writeField c1 t.mode (fun v => pre ++ ":MODE " ++ v.value)
  let c3 := writeField c2 t.level (fun q => pre ++ ":LEVEL " ++ formatG q)
  let c4 := writeField c3 t.edge_coupling (fun v => pre ++ ":EDGE:COUPLING " ++ v.value)
  let c5 := writeField c4 t.edge_slope (fun v => pre ++ ":EDGE:SLOPE " ++ v.value)
  (writeField c5 t.edge_source (fun v => pre ++ ":EDGE:SOURCE " ++ v.value), Option.none)

def TDS2024B_Trigger_Parameters.asdict (t : TDS2024B_Trigger_Parameters) : ConfigMapping :=
  [("type", optPrim (fun v => PrimVal.str v.value) t.type),
   ("mode", optPrim (fun v => PrimVal.str v.value) t.mode),
   ("level", optPrim PrimVal.float t.level),
   ("edge_coupling", optPrim (fun v => PrimVal.str v.value) t.edge_coupling),
   ("edge_slope", optPrim (fun v => PrimVal.str v.value) t.edge_slope),
   ("edge_source", optPrim (fun v => PrimVal.str v.value) t.edge_source)]

/-! ## Instrument interface (`TDS2024B_Interface`)

The aggregate of all Settings Entities plus the `synchronized` flag
(a `threading.Event`, modelled as a `Bool`). -/

structure TDS2024B_Interface_State where
  trigger : TDS2024B_Trigger_Parameters
  horizontal_main : TDS2024B_Horizontal_Parameters
  horizontal_delay : TDS2024B_Horizontal_Parameters
  ch1 : TDS2024B_Channel_Parameters
  ch2 : TDS2024B_Channel_Parameters
  ch3 : TDS2024B_Channel_Parameters
  ch4 : TDS2024B_Channel_Parameters
  mes1 : TDS2024B_Measurement
  mes2 : TDS2024B_Measurement
  mes3 : TDS2024B_Measurement
  mes4 : TDS2024B_Measurement
  mes_imm : TDS2024B_Measurement
  synchronized : Bool
deriving DecidableEq

/-- `TDS2024B_Interface()` construction: entities with their fixed resource
identifiers, all fields unset, `synchronized` cleared. -/
def TDS2024B_Interface.construct : TDS2024B_Interface_State :=
  { trigger := TDS2024B_Trigger_Parameters.construct "MAIN",
    horizontal_main := TDS2024B_Horizontal_Parameters.construct "MAIN",
    horizontal_delay := TDS2024B_Horizontal_Parameters.construct "DELAY",
    ch1 := TDS2024B_Channel_Parameters.construct 1,
    ch2 := TDS2024B_Channel_Parameters.construct 2,
    ch3 := TDS2024B_Channel_Parameters.construct 3,
    ch4 := TDS2024B_Channel_Parameters.construct 4,
    mes1 := TDS2024B_Measurement.construct "MEAS1",
    mes2 := TDS2024B_Measurement.construct "MEAS2",
    mes3 := TDS2024B_Measurement.construct "MEAS3",
    mes4 := TDS2024B_Measurement.construct "MEAS4",
    mes_imm := TDS2024B_Measurement.construct "IMM",
    synchronized := false }

/-- Final step of the group-level read and write: on success
`self.synchronized.set()`, on a propagated error leave the flag untouched. -/
def finishSync (r : List String × TDS2024B_Interface_State × Option String) :
    List String × TDS2024B_Interface_State × Option String :=
  match r with
  | (tr, s, some e) => (tr, s, some e)
  | (tr, s, Option.none) => (tr, { s with synchronized := true }, Option.none)

/-- Sequence one fallible transcript-producing step after an accumulated
result, propagating the first error (Python exception semantics). -/
def stepSeq {σ : Type} (st : List String × σ × Option String)
    (f : σ → List String × σ × Option String) : List String × σ × Option String :=
  match st with
  | (tr, s, some e) => (tr, s, some e)
  | (tr, s, Option.none) =>
    let r := f s
    (tr ++ r.1, r.2.1, r.2.2)

/-- Group-read step for entity `trigger`. -/
def TDS2024B_Interface_State.read_trigger (st : List String × TDS2024B_Interface_State × Option String)
    (resp : String → String) : List String × TDS2024B_Interface_State × Option String :=
  stepSeq st (fun s => let r := s.trigger.settings_read resp; (r.1, { s with trigger := r.2.1 }, r.2.2))

/-- Group-read step for entity `horizontal_main`. -/
def TDS2024B_Interface_State.read_horizontal_main (st : List String × TDS2024B_Interface_State × Option String)
    (resp : String → String) : List String × TDS2024B_Interface_State × Option String :=
  stepSeq st (fun s => let r := s.horizontal_main.settings_read resp; (r.1, { s with horizontal_main := r.2.1 }, r.2.2))

/-- Group-read step for entity `horizontal_delay`. -/
def TDS2024B_Interface_State.read_horizontal_delay (st : List String × TDS2024B_Interface_State × Option String)
    (resp : String → String) : List String × TDS2024B_Interface_State × Option String :=
  stepSeq st (fun s => let r := s.horizontal_delay.settings_read resp; (r.1, { s with horizontal_delay := r.2.1 }, r.2.2))

/-- Group-read step for entity `ch1`. -/
def TDS2024B_Interface_State.read_ch1 (st : List String × TDS2024B_Interface_State × Option String)
    (resp : String → String) : List String × TDS2024B_Interface_State × Option String :=
  stepSeq st (fun s => let r := s.ch1.settings_read resp; (r.1, { s with ch1 := r.2.1 }, r.2.2))

/-- Group-read step for entity `ch2`. -/
def TDS2024B_Interface_State.read_ch2 (st : List String × TDS2024B_Interface_State × Option String)
    (resp : String → String) : List String × TDS2024B_Interface_State × Option String :=
  stepSeq st (fun s => let r := s.ch2.settings_read resp; (r.1, { s with ch2 := r.2.1 }, r.2.2))

/-- Group-read step for entity `ch3`. -/
def TDS2024B_Interface_State.read_ch3 (st : List String × TDS2024B_Interface_State × Option String)
    (resp : String → String) : List String × TDS2024B_Interface_State × Option String :=
  stepSeq st (fun s => let r := s.ch3.settings_read resp; (r.1, { s with ch3 := r.2.1 }, r.2.2))

/-- Group-read step for entity `ch4`. -/
def TDS2024B_Interface_State.read_ch4 (st : List String × TDS2024B_Interface_State × Option String)
    (resp : String → String) : List String × TDS2024B_Interface_State × Option String :=
  stepSeq st (fun s => let r := s.ch4.settings_read resp; (r.1, { s with ch4 := r.2.1 }, r.2.2))

/-- Group-read step for entity `mes1`. -/
def TDS2024B_Interface_State.read_mes1 (st : List String × TDS2024B_Interface_State × Option String)
    (resp : String → String) : List String × TDS2024B_Interface_State × Option String :=
  stepSeq st (fun s => let r := s.mes1.settings_read resp; (r.1, { s with mes1 := r.2.1 }, r.2.2))

/-- Group-read step for entity `mes2`. -/
def TDS2024B_Interface_State.read_mes2 (st : List String × TDS2024B_Interface_State × Option String)
    (resp : String → String) : List String × TDS2024B_Interface_State × Option String :=
  stepSeq st (fun s => let r := s.mes2.settings_read resp; (r.1, { s with mes2 := r.2.1 }, r.2.2))

/-- Group-read step for entity `mes3`. -/
def TDS2024B_Interface_State.read_mes3 (st : List String × TDS2024B_Interface_State × Option String)
    (resp : String → String) : List String × TDS2024B_Interface_State × Option String :=
  stepSeq st (fun s => let r := s.mes3.settings_read resp; (r.1, { s with mes3 := r.2.1 }, r.2.2))

/-- Group-read step for entity `mes4`. -/
def TDS2024B_Interface_State.read_mes4 (st : List String × TDS2024B_Interface_State × Option String)
    (resp : String → String) : List String × TDS2024B_Interface_State × Option String :=
  stepSeq st (fun s => let r := s.mes4.settings_read resp; (r.1, { s with mes4 := r.2.1 }, r.2.2))

/-- Group-read step for entity `mes_imm`. -/
def TDS2024B_Interface_State.read_mes_imm (st : List String × TDS2024B_Interface_State × Option String)
    (resp : String → String) : List String × TDS2024B_Interface_State × Option String :=
  stepSeq st (fun s => let r := s.mes_imm.settings_read resp; (r.1, { s with mes_imm := r.2.1 }, r.2.2))

/-- Group-level `settings_read`: each entity's read in declared order
(trigger, horizontal main, horizontal delay, channels 1-4, measurements
1-4, immediate measurement), then `self.synchronized.set()`.  A failure
propagates immediately, leaving earlier entities refreshed and the flag
untouched. -/
def TDS2024B_Interface_State.settings_read (st : TDS2024B_Interface_State)
    (resp : String → String) : List String × TDS2024B_Interface_State × Option String :=
  finishSync
    (TDS2024B_Interface_State.read_mes_imm (TDS2024B_Interface_State.read_mes4 (TDS2024B_Interface_State.read_mes3 (TDS2024B_Interface_State.read_mes2 (TDS2024B_Interface_State.read_mes1 (TDS2024B_Interface_State.read_ch4 (TDS2024B_Interface_State.read_ch3 (TDS2024B_Interface_State.read_ch2 (TDS2024B_Interface_State.read_ch1 (TDS2024B_Interface_State.read_horizontal_delay (TDS2024B_Interface_State.read_horizontal_main (TDS2024B_Interface_State.read_trigger ([], st, Option.none) resp) resp) resp) resp) resp) resp) resp) resp) resp) resp) resp) resp)

/-- Group-write step for entity `trigger`. -/
def TDS2024B_Interface_State.write_trigger (st : List String × TDS2024B_Interface_State × Option String) :
    List String × TDS2024B_Interface_State × Option String :=
  stepSeq st (fun s => let r := s.trigger.settings_write; (r.1, s, r.2))

/-- Group-write step for entity `horizontal_main`. -/
def TDS2024B_Interface_State.write_horizontal_main (st : List String × TDS2024B_Interface_State × Option String) :
    List String × TDS2024B_Interface_State × Option String :=
  stepSeq st (fun s => let r := s.horizontal_main.settings_write; (r.1, s, r.2))

/-- Group-write step for entity `horizontal_delay`. -/
def TDS2024B_Interface_State.write_horizontal_delay (st : List String × TDS2024B_Interface_State × Option String) :
    List String × TDS2024B_Interface_State × Option String :=
  stepSeq st (fun s => let r := s.horizontal_delay.settings_write; (r.1, s, r.2))

/-- Group-write step for entity `ch1`. -/
def TDS2024B_Interface_State.write_ch1 (st : List String × TDS2024B_Interface_State × Option String) :
    List String × TDS2024B_Interface_State × Option String :=
  stepSeq st (fun s => let r := s.ch1.settings_write; (r.1, s, r.2))

/-- Group-write step for entity `ch2`. -/
def TDS2024B_Interface_State.write_ch2 (st : List String × TDS2024B_Interface_State × Option String) :
    List String × TDS2024B_Interface_State × Option String :=
  stepSeq st (fun s => let r := s.ch2.settings_write; (r.1, s, r.2))

/-- Group-write step for entity `ch3`. -/
def TDS2024B_Interface_State.write_ch3 (st : List String × TDS2024B_Interface_State × Option String) :
    List String × TDS2024B_Interface_State × Option String :=
  stepSeq st (fun s => let r := s.ch3.settings_write; (r.1, s, r.2))

/-- Group-write step for entity `ch4`. -/
def TDS2024B_Interface_State.write_ch4 (st : List String × TDS2024B_Interface_State × Option String) :
    List String × TDS2024B_Interface_State × Option String :=
  stepSeq st (fun s => let r := s.ch4.settings_write; (r.1, s, r.2))

/-- Group-write step for entity `mes1`. -/
def TDS2024B_Interface_State.write_mes1 (st : List String × TDS2024B_Interface_State × Option String) :
    List String × TDS2024B_Interface_State × Option String :=
  stepSeq st (fun s => let r := s.mes1.settings_write; (r.1, s, r.2))

/-- Group-write step for entity `mes2`. -/
def TDS2024B_Interface_State.write_mes2 (st : List String × TDS2024B_Interface_State × Option String) :
    List String × TDS2024B_Interface_State × Option String :=
  stepSeq st (fun s => let r := s.mes2.settings_write; (r.1, s, r.2))

/-- Group-write step for entity `mes3`. -/
def TDS2024B_Interface_State.write_mes3 (st : List String × TDS2024B_Interface_State × Option String) :
    List String × TDS2024B_Interface_State × Option String :=
  stepSeq st (fun s => let r := s.mes3.settings_write; (r.1, s, r.2))

/-- Group-write step for entity `mes4`. -/
def TDS2024B_Interface_State.write_mes4 (st : List String × TDS2024B_Interface_State × Option String) :
    List String × TDS2024B_Interface_State × Option String :=
  stepSeq st (fun s => let r := s.mes4.settings_write; (r.1, s, r.2))

/-- Group-write step for entity `mes_imm`. -/
def TDS2024B_Interface_State.write_mes_imm (st : List String × TDS2024B_Interface_State × Option String) :
    List String × TDS2024B_Interface_State × Option String :=
  stepSeq st (fun s => let r := s.mes_imm.settings_write; (r.1, s, r.2))

/-- Group-level `settings_write`: each entity's write in declared order, then
`self.synchronized.set()`.  A failure (an unset measurement field) propagates
immediately with the commands already sent kept, the flag untouched. -/
def TDS2024B_Interface_State.settings_write (st : TDS2024B_Interface_State) :
    List String × TDS2024B_Interface_State × Option String :=
  finishSync
    (TDS2024B_Interface_State.write_mes_imm (TDS2024B_Interface_State.write_mes4 (TDS2024B_Interface_State.write_mes3 (TDS2024B_Interface_State.write_mes2 (TDS2024B_Interface_State.write_mes1 (TDS2024B_Interface_State.write_ch4 (TDS2024B_Interface_State.write_ch3 (TDS2024B_Interface_State.write_ch2 (TDS2024B_Interface_State.write_ch1 (TDS2024B_Interface_State.write_horizontal_delay (TDS2024B_Interface_State.write_horizontal_main (TDS2024B_Interface_State.write_trigger ([], st, Option.none)))))))))))))

/-- Sequence one entity sub-load if the entity's key is present in the
top-level mapping (`if "trigger" in data: ...`). -/
def loadEnt {σ : Type} (st : σ × Option String) (sub : Option ConfigMapping)
    (f : σ → ConfigMapping → σ × Option String) : σ × Option String :=
  match st with
  | (s, some e) => (s, some e)
  | (s, Option.none) =>
    match sub with
    | Option.none => (s, Option.none)
    | some d => f s d

/-- Group-load step for entity `trigger`. -/
def TDS2024B_Interface_State.load_trigger (st : TDS2024B_Interface_State × Option String)
    (data : List (String × ConfigMapping)) : TDS2024B_Interface_State × Option String :=
  loadEnt st (data.lookup "trigger")
    (fun s d => let r := s.trigger.settings_load d; ({ s with trigger := r.1 }, r.2))

/-- Group-load step for entity `horizontal_main`. -/
def TDS2024B_Interface_State.load_horizontal_main (st : TDS2024B_Interface_State × Option String)
    (data : List (String × ConfigMapping)) : TDS2024B_Interface_State × Option String :=
  loadEnt st (data.lookup "horizontal_main")
    (fun s d => let r := s.horizontal_main.settings_load d; ({ s with horizontal_main := r.1 }, r.2))

/-- Group-load step for entity `horizontal_delay`. -/
def TDS2024B_Interface_State.load_horizontal_delay (st : TDS2024B_Interface_State × Option String)
    (data : List (String × ConfigMapping)) : TDS2024B_Interface_State × Option String :=
  loadEnt st (data.lookup "horizontal_delay")
    (fun s d => let r := s.horizontal_delay.settings_load d; ({ s with horizontal_delay := r.1 }, r.2))

/-- Group-load step for entity `ch1`. -/
def TDS2024B_Interface_State.load_ch1 (st : TDS2024B_Interface_State × Option String)
    (data : List (String × ConfigMapping)) : TDS2024B_Interface_State × Option String :=
  loadEnt st (data.lookup "ch1")
    (fun s d => let r := s.ch1.settings_load d; ({ s with ch1 := r.1 }, r.2))

/-- Group-load step for entity `mes1`. -/
def TDS2024B_Interface_State.load_mes1 (st : TDS2024B_Interface_State × Option String)
    (data : List (String × ConfigMapping)) : TDS2024B_Interface_State × Option String :=
  loadEnt st (data.lookup "mes1")
    (fun s d => let r := s.mes1.settings_load d; ({ s with mes1 := r.1 }, r.2))

/-- Group-load step for entity `ch2`. -/
def TDS2024B_Interface_State.load_ch2 (st : TDS2024B_Interface_State × Option String)
    (data : List (String × ConfigMapping)) : TDS2024B_Interface_State × Option String :=
  loadEnt st (data.lookup "ch2")
    (fun s d => let r := s.ch2.settings_load d; ({ s with ch2 := r.1 }, r.2))

/-- Group-load step for entity `mes2`. -/
def TDS2024B_Interface_State.load_mes2 (st : TDS2024B_Interface_State × Option String)
    (data : List (String × ConfigMapping)) : TDS2024B_Interface_State × Option String :=
  loadEnt st (data.lookup "mes2")
    (fun s d => let r := s.mes2.settings_load d; ({ s with mes2 := r.1 }, r.2))

/-- Group-load step for entity `ch3`. -/
def TDS2024B_Interface_State.load_ch3 (st : TDS2024B_Interface_State × Option String)
    (data : List (String × ConfigMapping)) : TDS2024B_Interface_State × Option String :=
  loadEnt st (data.lookup "ch3")
    (fun s d => let r := s.ch3.settings_load d; ({ s with ch3 := r.1 }, r.2))

/-- Group-load step for entity `mes3`. -/
def TDS2024B_Interface_State.load_mes3 (st : TDS2024B_Interface_State × Option String)
    (data : List (String × ConfigMapping)) : TDS2024B_Interface_State × Option String :=
  loadEnt st (data.lookup "mes3")
    (fun s d => let r := s.mes3.settings_load d; ({ s with mes3 := r.1 }, r.2))

/-- Group-load step for entity `ch4`. -/
def TDS2024B_Interface_State.load_ch4 (st : TDS2024B_Interface_State × Option String)
    (data : List (String × ConfigMapping)) : TDS2024B_Interface_State × Option String :=
  loadEnt st (data.lookup "ch4")
    (fun s d => let r := s.ch4.settings_load d; ({ s with ch4 := r.1 }, r.2))

/-- Group-load step for entity `mes4`. -/
def TDS2024B_Interface_State.load_mes4 (st : TDS2024B_Interface_State × Option String)
    (data : List (String × ConfigMapping)) : TDS2024B_Interface_State × Option String :=
  loadEnt st (data.lookup "mes4")
    (fun s d => let r := s.mes4.settings_load d; ({ s with mes4 := r.1 }, r.2))

/-- Group-load step for entity `mes_imm`. -/
def TDS2024B_Interface_State.load_mes_imm (st : TDS2024B_Interface_State × Option String)
    (data : List (String × ConfigMapping)) : TDS2024B_Interface_State × Option String :=
  loadEnt st (data.lookup "mes_imm")
    (fun s d => let r := s.mes_imm.settings_load d; ({ s with mes_imm := r.1 }, r.2))

/-- Group-level `settings_load`: dispatch each recognized top-level key to
that entity's `settings_load`; unknown keys ignored, the device never
touched, the `synchronized` flag untouched.  The source iterates channels
and measurements in an interleaved loop (`ch1`, `mes1`, `ch2`, `mes2`, ...). -/
def TDS2024B_Interface_State.settings_load (st : TDS2024B_Interface_State)
    (data : List (String × ConfigMapping)) : TDS2024B_Interface_State × Option String :=
  (TDS2024B_Interface_State.load_mes_imm (TDS2024B_Interface_State.load_mes4 (TDS2024B_Interface_State.load_ch4 (TDS2024B_Interface_State.load_mes3 (TDS2024B_Interface_State.load_ch3 (TDS2024B_Interface_State.load_mes2 (TDS2024B_Interface_State.load_ch2 (TDS2024B_Interface_State.load_mes1 (TDS2024B_Interface_State.load_ch1 (TDS2024B_Interface_State.load_horizontal_delay (TDS2024B_Interface_State.load_horizontal_main (TDS2024B_Interface_State.load_trigger (st, Option.none) data) data) data) data) data) data) data) data) data) data) data) data)

/-- Group-level `settings_dump`: entity-name-keyed snapshot via `asdict`. -/
def TDS2024B_Interface_State.settings_dump (st : TDS2024B_Interface_State) :
    List (String × ConfigMapping) :=
  [("trigger", st.trigger.asdict),
   ("horizontal_main", st.horizontal_main.asdict),
   ("horizontal_delay", st.horizontal_delay.asdict),
   ("ch1", st.ch1.asdict),
   ("ch2", st.ch2.asdict),
   ("ch3", st.ch3.asdict),
   ("ch4", st.ch4.asdict),
   ("mes1", st.mes1.asdict),
   ("mes2", st.mes2.asdict),
   ("mes3", st.mes3.asdict),
   ("mes4", st.mes4.asdict),
   ("mes_imm", st.mes_imm.asdict)]

/-! ## QL335P power supply (`QL335P_Interface`)

Serial commands are modelled by their payload strings (the `\r\n` terminator
that `__write` appends is framing, not content).  `__read` strips the
response line and splits it on single spaces. -/

/-- `voltage_get()`: write `V1?`, then `float(read()[1])`.  The transcript is
the commands written; the parsed value is `none` where Python raises
(`IndexError` on a short response, `ValueError` on a bad float). -/
def QL335P_voltage_get (resp : String → String) : List String × Option ℚ :=
  let toks := pyStripSplit (resp "V1?")
  (["V1?"],
    match toks.get? 1 with
    | Option.none => Option.none
    | some s => parseFloat? s)

/-- `voltage_set(voltage, verify)`: write `V1 {voltage:.3f}`, then when
`verify` holds, assert that `voltage_get()` returns exactly the written
value.  The set command is sent before any verification and is never rolled
back. -/
def QL335P_voltage_set (voltage : ℚ) (verify : Bool) (resp : String → String) :
    List String × Option String :=
  let cmd := "V1 " ++ format3 voltage
  if verify then
    let g := QL335P_voltage_get resp
    match g.2 with
    | Option.none => (cmd :: g.1, some "ValueError: failed readback parse")
    | some v =>
      (cmd :: g.1, if v = voltage then Option.none else some "AssertionError")
  else ([cmd], Option.none)

/-- `voltage_set` at its default argument (`verify = True`). -/
def QL335P_voltage_set_default (voltage : ℚ) (resp : String → String) :
    List String × Option String :=
  QL335P_voltage_set voltage true resp

/-! ## AFG3000 function generator (`AFG3000_Interface`) -/

/-- `__channel_check`: `ValueError` for a channel outside `1..2`. -/
def AFG3000_channel_check (channel : ℤ) : Option String :=
  if channel < 1 ∨ channel > 2 then
    some ("ValueError: Invalid channel " ++ toString channel ++ ", must be 1 or 2")
  else Option.none

/-- `freq_set(channel, freq)`: the channel check runs before any transport
write; on success exactly one `SOUR{channel}:FREQ {freq:E}` command is sent. -/
def AFG3000_freq_set (channel : ℤ) (freq : ℚ) : List String × Option String :=
  match AFG3000_channel_check channel with
  | some e => ([], some e)
  | Option.none =>
    (["SOUR" ++ toString channel ++ ":FREQ " ++ formatE freq], Option.none)

/-- `output_enable(channel, state)`: the channel check runs before any
transport write; on success exactly one `OUTP{channel} ON|OFF` command. -/
def AFG3000_output_enable (channel : ℤ) (state : Bool) : List String × Option String :=
  match AFG3000_channel_check channel with
  | some e => ([], some e)
  | Option.none =>
    (["OUTP" ++ toString channel ++ " " ++ (if state then "ON" else "OFF")], Option.none)

/-! ## Generic lemmas about the load/read/step combinators -/

theorem loadField_pres {σ α β : Type} (st : σ × Option String) (data : ConfigMapping)
    (k : String) (dec : PrimVal → Option α) (set : σ → α → σ) (g : σ → β)
    (hset : ∀ s a, g (set s a) = g s) :
    g ((loadField st data k dec set).1) = g st.1 := by
  unfold loadField
  split
  · rfl
  · split
    · rfl
    · split
      · rfl
      · exact hset _ _

theorem loadField_absent {σ α : Type} (st : σ × Option String) (data : ConfigMapping)
    (k : String) (dec : PrimVal → Option α) (set : σ → α → σ)
    (h : lookupNonNull data k = Option.none) :
    loadField st data k dec set = st := by
  unfold loadField
  split
  · rfl
  · rw [h]

theorem readField_pres {σ α β : Type} (st : List String × σ × Option String)
    (resp : String → String) (q : String) (dec : String → Option α) (set : σ → α → σ)
    (g : σ → β) (hset : ∀ s a, g (set s a) = g s) :
    g ((readField st resp q dec set).2.1) = g st.2.1 := by
  unfold readField
  split
  · rfl
  · split
    · rfl
    · exact hset _ _

theorem stepSeq_pres {σ β : Type} (st : List String × σ × Option String)
    (f : σ → List String × σ × Option String) (g : σ → β)
    (hf : ∀ s, g ((f s).2.1) = g s) :
    g ((stepSeq st f).2.1) = g st.2.1 := by
  unfold stepSeq
  split
  · rfl
  · exact hf _

theorem loadEnt_pres {σ β : Type} (st : σ × Option String) (sub : Option ConfigMapping)
    (f : σ → ConfigMapping → σ × Option String) (g : σ → β)
    (hf : ∀ s d, g ((f s d).1) = g s) :
    g ((loadEnt st sub f).1) = g st.1 := by
  unfold loadEnt
  split
  · rfl
  · split
    · rfl
    · exact hf _ _

theorem finishSync_sync_of_none (r : List String × TDS2024B_Interface_State × Option String)
    (h : (finishSync r).2.2 = Option.none) : (finishSync r).2.1.synchronized = true := by
  rcases r with ⟨tr, s, e⟩
  cases e
  · rfl
  · exact absurd h (by simp [finishSync])

theorem finishSync_state_of_some (r : List String × TDS2024B_Interface_State × Option String)
    (e : String) (h : (finishSync r).2.2 = some e) : (finishSync r).2.1 = r.2.1 := by
  rcases r with ⟨tr, s, e'⟩
  cases e'
  · exact absurd h (by simp [finishSync])
  · rfl

theorem finishSync_queries (r : List String × TDS2024B_Interface_State × Option String) :
    (finishSync r).1 = r.1 := by
  rcases r with ⟨tr, s, e⟩
  cases e <;> rfl

theorem finishSync_trigger (r : List String × TDS2024B_Interface_State × Option String) :
    (finishSync r).2.1.trigger = r.2.1.trigger := by
  rcases r with ⟨tr, s, e⟩
  cases e <;> rfl

theorem finishSync_err (r : List String × TDS2024B_Interface_State × Option String) :
    (finishSync r).2.2 = r.2.2 := by
  rcases r with ⟨tr, s, e⟩
  cases e <;> rfl

theorem stepSeq_of_none {σ : Type} (st : List String × σ × Option String)
    (f : σ → List String × σ × Option String)
    (h : (stepSeq st f).2.2 = Option.none) :
    st.2.2 = Option.none ∧ (f st.2.1).2.2 = Option.none ∧
      (stepSeq st f).1 = st.1 ++ (f st.2.1).1 ∧
      (stepSeq st f).2.1 = (f st.2.1).2.1 := by
  rcases st with ⟨tr, s, e⟩
  cases e
  · exact ⟨rfl, h, rfl, rfl⟩
  · exact absurd h (by simp [stepSeq])

theorem stepSeq_err {σ : Type} (tr : List String) (s : σ) (e : String)
    (f : σ → List String × σ × Option String) :
    stepSeq (tr, s, some e) f = (tr, s, some e) := rfl

/-! ## Per-stage frame lemmas (field preservation and absent-key identity) -/

theorem TDS2024B_Measurement.load_source_absent (st : TDS2024B_Measurement × Option String) (data : ConfigMapping)
    (h : lookupNonNull data "source" = Option.none) :
    TDS2024B_Measurement.load_source st data = st := by
  exact loadField_absent st data _ _ _ h

theorem TDS2024B_Measurement.load_source_pres_type (st : TDS2024B_Measurement × Option String) (data : ConfigMapping) :
    ((TDS2024B_Measurement.load_source st data).1).type = (st.1).type := by
  exact loadField_pres st data _ _ _ (fun e => e.type) (fun s a => rfl)

theorem TDS2024B_Measurement.load_type_absent_mes (st : TDS2024B_Measurement × Option String) (data : ConfigMapping)
    (h : lookupNonNull data "type" = Option.none) :
    TDS2024B_Measurement.load_type st data = st := by
  exact loadField_absent st data _ _ _ h

theorem TDS2024B_Measurement.load_type_pres_source (st : TDS2024B_Measurement × Option String) (data : ConfigMapping) :
    ((TDS2024B_Measurement.load_type st data).1).source = (st.1).source := by
  exact loadField_pres st data _ _ _ (fun e => e.source) (fun s a => rfl)

theorem TDS2024B_Channel_Parameters.load_bw_filter_absent (st : TDS2024B_Channel_Parameters × Option String) (data : ConfigMapping)
    (h : lookupNonNull data "bw_filter" = Option.none) :
    TDS2024B_Channel_Parameters.load_bw_filter st data = st := by
  exact loadField_absent st data _ _ _ h

theorem TDS2024B_Channel_Parameters.load_bw_filter_pres_coupling (st : TDS2024B_Channel_Parameters × Option String) (data : ConfigMapping) :
    ((TDS2024B_Channel_Parameters.load_bw_filter st data).1).coupling = (st.1).coupling := by
  exact loadField_pres st data _ _ _ (fun e => e.coupling) (fun s a => rfl)

theorem TDS2024B_Channel_Parameters.load_bw_filter_pres_invert (st : TDS2024B_Channel_Parameters × Option String) (data : ConfigMapping) :
    ((TDS2024B_Channel_Parameters.load_bw_filter st data).1).invert = (st.1).invert := by
  exact loadField_pres st data _ _ _ (fun e => e.invert) (fun s a => rfl)

theorem TDS2024B_Channel_Parameters.load_bw_filter_pres_position (st : TDS2024B_Channel_Parameters × Option String) (data : ConfigMapping) :
    ((TDS2024B_Channel_Parameters.load_bw_filter st data).1).position = (st.1).position := by
  exact loadField_pres st data _ _ _ (fun e => e.position) (fun s a => rfl)

theorem TDS2024B_Channel_Parameters.load_bw_filter_pres_attenuation (st : TDS2024B_Channel_Parameters × Option String) (data : ConfigMapping) :
    ((TDS2024B_Channel_Parameters.load_bw_filter st data).1).attenuation = (st.1).attenuation := by
  exact loadField_pres st data _ _ _ (fun e => e.attenuation) (fun s a => rfl)

theorem TDS2024B_Channel_Parameters.load_bw_filter_pres_scale (st : TDS2024B_Channel_Parameters × Option String) (data : ConfigMapping) :
    ((TDS2024B_Channel_Parameters.load_bw_filter st data).1).scale = (st.1).scale := by
  exact loadField_pres st data _ _ _ (fun e => e.scale) (fun s a => rfl)

theorem TDS2024B_Channel_Parameters.load_bw_filter_pres_on (st : TDS2024B_Channel_Parameters × Option String) (data : ConfigMapping) :
    ((TDS2024B_Channel_Parameters.load_bw_filter st data).1).«on» = (st.1).«on» := by
  exact loadField_pres st data _ _ _ (fun e => e.«on») (fun s a => rfl)

theorem TDS2024B_Channel_Parameters.load_coupling_absent (st : TDS2024B_Channel_Parameters × Option String) (data : ConfigMapping)
    (h : lookupNonNull data "coupling" = Option.none) :
    TDS2024B_Channel_Parameters.load_coupling st data = st := by
  exact loadField_absent st data _ _ _ h

theorem TDS2024B_Channel_Parameters.load_coupling_pres_bw_filter (st : TDS2024B_Channel_Parameters × Option String) (data : ConfigMapping) :
    ((TDS2024B_Channel_Parameters.load_coupling st data).1).bw_filter = (st.1).bw_filter := by
  exact loadField_pres st data _ _ _ (fun e => e.bw_filter) (fun s a => rfl)

theorem TDS2024B_Channel_Parameters.load_coupling_pres_invert (st : TDS2024B_Channel_Parameters × Option String) (data : ConfigMapping) :
    ((TDS2024B_Channel_Parameters.load_coupling st data).1).invert = (st.1).invert := by
  exact loadField_pres st data _ _ _ (fun e => e.invert) (fun s a => rfl)

theorem TDS2024B_Channel_Parameters.load_coupling_pres_position (st : TDS2024B_Channel_Parameters × Option String) (data : ConfigMapping) :
    ((TDS2024B_Channel_Parameters.load_coupling st data).1).position = (st.1).position := by
  exact loadField_pres st data _ _ _ (fun e => e.position) (fun s a => rfl)

theorem TDS2024B_Channel_Parameters.load_coupling_pres_attenuation (st : TDS2024B_Channel_Parameters × Option String) (data : ConfigMapping) :
    ((TDS2024B_Channel_Parameters.load_coupling st data).1).attenuation = (st.1).attenuation := by
  exact loadField_pres st data _ _ _ (fun e => e.attenuation) (fun s a => rfl)

theorem TDS2024B_Channel_Parameters.load_coupling_pres_scale (st : TDS2024B_Channel_Parameters × Option String) (data : ConfigMapping) :
    ((TDS2024B_Channel_Parameters.load_coupling st data).1).scale = (st.1).scale := by
  exact loadField_pres st data _ _ _ (fun e => e.scale) (fun s a => rfl)

theorem TDS2024B_Channel_Parameters.load_coupling_pres_on (st : TDS2024B_Channel_Parameters × Option String) (data : ConfigMapping) :
    ((TDS2024B_Channel_Parameters.load_coupling st data).1).«on» = (st.1).«on» := by
  exact loadField_pres st data _ _ _ (fun e => e.«on») (fun s a => rfl)

theorem TDS2024B_Channel_Parameters.load_invert_absent (st : TDS2024B_Channel_Parameters × Option String) (data : ConfigMapping)
    (h : lookupNonNull data "invert" = Option.none) :
    TDS2024B_Channel_Parameters.load_invert st data = st := by
  exact loadField_absent st data _ _ _ h

theorem TDS2024B_Channel_Parameters.load_invert_pres_bw_filter (st : TDS2024B_Channel_Parameters × Option String) (data : ConfigMapping) :
    ((TDS2024B_Channel_Parameters.load_invert st data).1).bw_filter = (st.1).bw_filter := by
  exact loadField_pres st data _ _ _ (fun e => e.bw_filter) (fun s a => rfl)

theorem TDS2024B_Channel_Parameters.load_invert_pres_coupling (st : TDS2024B_Channel_Parameters × Option String) (data : ConfigMapping) :
    ((TDS2024B_Channel_Parameters.load_invert st data).1).coupling = (st.1).coupling := by
  exact loadField_pres st data _ _ _ (fun e => e.coupling) (fun s a => rfl)

theorem TDS2024B_Channel_Parameters.load_invert_pres_position (st : TDS2024B_Channel_Parameters × Option String) (data : ConfigMapping) :
    ((TDS2024B_Channel_Parameters.load_invert st data).1).position = (st.1).position := by
  exact loadField_pres st data _ _ _ (fun e => e.position) (fun s a => rfl)

theorem TDS2024B_Channel_Parameters.load_invert_pres_attenuation (st : TDS2024B_Channel_Parameters × Option String) (data : ConfigMapping) :
    ((TDS2024B_Channel_Parameters.load_invert st data).1).attenuation = (st.1).attenuation := by
  exact loadField_pres st data _ _ _ (fun e => e.attenuation) (fun s a => rfl)

theorem TDS2024B_Channel_Parameters.load_invert_pres_scale (st : TDS2024B_Channel_Parameters × Option String) (data : ConfigMapping) :
    ((TDS2024B_Channel_Parameters.load_invert st data).1).scale = (st.1).scale := by
  exact loadField_pres st data _ _ _ (fun e => e.scale) (fun s a => rfl)

theorem TDS2024B_Channel_Parameters.load_invert_pres_on (st : TDS2024B_Channel_Parameters × Option String) (data : ConfigMapping) :
    ((TDS2024B_Channel_Parameters.load_invert st data).1).«on» = (st.1).«on» := by
  exact loadField_pres st data _ _ _ (fun e => e.«on») (fun s a => rfl)

theorem TDS2024B_Channel_Parameters.load_position_absent (st : TDS2024B_Channel_Parameters × Option String) (data : ConfigMapping)
    (h : lookupNonNull data "position" = Option.none) :
    TDS2024B_Channel_Parameters.load_position st data = st := by
  exact loadField_absent st data _ _ _ h

theorem TDS2024B_Channel_Parameters.load_position_pres_bw_filter (st : TDS2024B_Channel_Parameters × Option String) (data : ConfigMapping) :
    ((TDS2024B_Channel_Parameters.load_position st data).1).bw_filter = (st.1).bw_filter := by
  exact loadField_pres st data _ _ _ (fun e => e.bw_filter) (fun s a => rfl)

theorem TDS2024B_Channel_Parameters.load_position_pres_coupling (st : TDS2024B_Channel_Parameters × Option String) (data : ConfigMapping) :
    ((TDS2024B_Channel_Parameters.load_position st data).1).coupling = (st.1).coupling := by
  exact loadField_pres st data _ _ _ (fun e => e.coupling) (fun s a => rfl)

theorem TDS2024B_Channel_Parameters.load_position_pres_invert (st : TDS2024B_Channel_Parameters × Option String) (data : ConfigMapping) :
    ((TDS2024B_Channel_Parameters.load_position st data).1).invert = (st.1).invert := by
  exact loadField_pres st data _ _ _ (fun e => e.invert) (fun s a => rfl)

theorem TDS2024B_Channel_Parameters.load_position_pres_attenuation (st : TDS2024B_Channel_Parameters × Option String) (data : ConfigMapping) :
    ((TDS2024B_Channel_Parameters.load_position st data).1).attenuation = (st.1).attenuation := by
  exact loadField_pres st data _ _ _ (fun e => e.attenuation) (fun s a => rfl)

theorem TDS2024B_Channel_Parameters.load_position_pres_scale (st : TDS2024B_Channel_Parameters × Option String) (data : ConfigMapping) :
    ((TDS2024B_Channel_Parameters.load_position st data).1).scale = (st.1).scale := by
  exact loadField_pres st data _ _ _ (fun e => e.scale) (fun s a => rfl)

theorem TDS2024B_Channel_Parameters.load_position_pres_on (st : TDS2024B_Channel_Parameters × Option String) (data : ConfigMapping) :
    ((TDS2024B_Channel_Parameters.load_position st data).1).«on» = (st.1).«on» := by
  exact loadField_pres st data _ _ _ (fun e => e.«on») (fun s a => rfl)

theorem TDS2024B_Channel_Parameters.load_attenuation_absent (st : TDS2024B_Channel_Parameters × Option String) (data : ConfigMapping)
    (h : lookupNonNull data "attenuation" = Option.none) :
    TDS2024B_Channel_Parameters.load_attenuation st data = st := by
  exact loadField_absent st data _ _ _ h

theorem TDS2024B_Channel_Parameters.load_attenuation_pres_bw_filter (st : TDS2024B_Channel_Parameters × Option String) (data : ConfigMapping) :
    ((TDS2024B_Channel_Parameters.load_attenuation st data).1).bw_filter = (st.1).bw_filter := by
  exact loadField_pres st data _ _ _ (fun e => e.bw_filter) (fun s a => rfl)

theorem TDS2024B_Channel_Parameters.load_attenuation_pres_coupling (st : TDS2024B_Channel_Parameters × Option String) (data : ConfigMapping) :
    ((TDS2024B_Channel_Parameters.load_attenuation st data).1).coupling = (st.1).coupling := by
  exact loadField_pres st data _ _ _ (fun e => e.coupling) (fun s a => rfl)

theorem TDS2024B_Channel_Parameters.load_attenuation_pres_invert (st : TDS2024B_Channel_Parameters × Option String) (data : ConfigMapping) :
    ((TDS2024B_Channel_Parameters.load_attenuation st data).1).invert = (st.1).invert := by
  exact loadField_pres st data _ _ _ (fun e => e.invert) (fun s a => rfl)

theorem TDS2024B_Channel_Parameters.load_attenuation_pres_position (st : TDS2024B_Channel_Parameters × Option String) (data : ConfigMapping) :
    ((TDS2024B_Channel_Parameters.load_attenuation st data).1).position = (st.1).position := by
  exact loadField_pres st data _ _ _ (fun e => e.position) (fun s a => rfl)

theorem TDS2024B_Channel_Parameters.load_attenuation_pres_scale (st : TDS2024B_Channel_Parameters × Option String) (data : ConfigMapping) :
    ((TDS2024B_Channel_Parameters.load_attenuation st data).1).scale = (st.1).scale := by
  exact loadField_pres st data _ _ _ (fun e => e.scale) (fun s a => rfl)

theorem TDS2024B_Channel_Parameters.load_attenuation_pres_on (st : TDS2024B_Channel_Parameters × Option String) (data : ConfigMapping) :
    ((TDS2024B_Channel_Parameters.load_attenuation st data).1).«on» = (st.1).«on» := by
  exact loadField_pres st data _ _ _ (fun e => e.«on») (fun s a => rfl)

theorem TDS2024B_Channel_Parameters.load_scale_absent_chan (st : TDS2024B_Channel_Parameters × Option String) (data : ConfigMapping)
    (h : lookupNonNull data "scale" = Option.none) :
    TDS2024B_Channel_Parameters.load_scale st data = st := by
  exact loadField_absent st data _ _ _ h

theorem TDS2024B_Channel_Parameters.load_scale_pres_bw_filter (st : TDS2024B_Channel_Parameters × Option String) (data : ConfigMapping) :
    ((TDS2024B_Channel_Parameters.load_scale st data).1).bw_filter = (st.1).bw_filter := by
  exact loadField_pres st data _ _ _ (fun e => e.bw_filter) (fun s a => rfl)

theorem TDS2024B_Channel_Parameters.load_scale_pres_coupling (st : TDS2024B_Channel_Parameters × Option String) (data : ConfigMapping) :
    ((TDS2024B_Channel_Parameters.load_scale st data).1).coupling = (st.1).coupling := by
  exact loadField_pres st data _ _ _ (fun e => e.coupling) (fun s a => rfl)

theorem TDS2024B_Channel_Parameters.load_scale_pres_invert (st : TDS2024B_Channel_Parameters × Option String) (data : ConfigMapping) :
    ((TDS2024B_Channel_Parameters.load_scale st data).1).invert = (st.1).invert := by
  exact loadField_pres st data _ _ _ (fun e => e.invert) (fun s a => rfl)

theorem TDS2024B_Channel_Parameters.load_scale_pres_position (st : TDS2024B_Channel_Parameters × Option String) (data : ConfigMapping) :
    ((TDS2024B_Channel_Parameters.load_scale st data).1).position = (st.1).position := by
  exact loadField_pres st data _ _ _ (fun e => e.position) (fun s a => rfl)

theorem TDS2024B_Channel_Parameters.load_scale_pres_attenuation (st : TDS2024B_Channel_Parameters × Option String) (data : ConfigMapping) :
    ((TDS2024B_Channel_Parameters.load_scale st data).1).attenuation = (st.1).attenuation := by
  exact loadField_pres st data _ _ _ (fun e => e.attenuation) (fun s a => rfl)

theorem TDS2024B_Channel_Parameters.load_scale_pres_on (st : TDS2024B_Channel_Parameters × Option String) (data : ConfigMapping) :
    ((TDS2024B_Channel_Parameters.load_scale st data).1).«on» = (st.1).«on» := by
  exact loadField_pres st data _ _ _ (fun e => e.«on») (fun s a => rfl)

theorem TDS2024B_Channel_Parameters.load_on_absent (st : TDS2024B_Channel_Parameters × Option String) (data : ConfigMapping)
    (h : lookupNonNull data "on" = Option.none) :
    TDS2024B_Channel_Parameters.load_on st data = st := by
  exact loadField_absent st data _ _ _ h

theorem TDS2024B_Channel_Parameters.load_on_pres_bw_filter (st : TDS2024B_Channel_Parameters × Option String) (data : ConfigMapping) :
    ((TDS2024B_Channel_Parameters.load_on st data).1).bw_filter = (st.1).bw_filter := by
  exact loadField_pres st data _ _ _ (fun e => e.bw_filter) (fun s a => rfl)

theorem TDS2024B_Channel_Parameters.load_on_pres_coupling (st : TDS2024B_Channel_Parameters × Option String) (data : ConfigMapping) :
    ((TDS2024B_Channel_Parameters.load_on st data).1).coupling = (st.1).coupling := by
  exact loadField_pres st data _ _ _ (fun e => e.coupling) (fun s a => rfl)

theorem TDS2024B_Channel_Parameters.load_on_pres_invert (st : TDS2024B_Channel_Parameters × Option String) (data : ConfigMapping) :
    ((TDS2024B_Channel_Parameters.load_on st data).1).invert = (st.1).invert := by
  exact loadField_pres st data _ _ _ (fun e => e.invert) (fun s a => rfl)

theorem TDS2024B_Channel_Parameters.load_on_pres_position (st : TDS2024B_Channel_Parameters × Option String) (data : ConfigMapping) :
    ((TDS2024B_Channel_Parameters.load_on st data).1).position = (st.1).position := by
  exact loadField_pres st data _ _ _ (fun e => e.position) (fun s a => rfl)

theorem TDS2024B_Channel_Parameters.load_on_pres_attenuation (st : TDS2024B_Channel_Parameters × Option String) (data : ConfigMapping) :
    ((TDS2024B_Channel_Parameters.load_on st data).1).attenuation = (st.1).attenuation := by
  exact loadField_pres st data _ _ _ (fun e => e.attenuation) (fun s a => rfl)

theorem TDS2024B_Channel_Parameters.load_on_pres_scale (st : TDS2024B_Channel_Parameters × Option String) (data : ConfigMapping) :
    ((TDS2024B_Channel_Parameters.load_on st data).1).scale = (st.1).scale := by
  exact loadField_pres st data _ _ _ (fun e => e.scale) (fun s a => rfl)

theorem TDS2024B_Channel_Parameters.read_bw_filter_pres_coupling (st : List String × TDS2024B_Channel_Parameters × Option String)
    (resp : String → String) :
    ((TDS2024B_Channel_Parameters.read_bw_filter st resp).2.1).coupling = (st.2.1).coupling := by
  exact readField_pres st resp _ _ _ (fun e => e.coupling) (fun s a => rfl)

theorem TDS2024B_Channel_Parameters.read_bw_filter_pres_invert (st : List String × TDS2024B_Channel_Parameters × Option String)
    (resp : String → String) :
    ((TDS2024B_Channel_Parameters.read_bw_filter st resp).2.1).invert = (st.2.1).invert := by
  exact readField_pres st resp _ _ _ (fun e => e.invert) (fun s a => rfl)

theorem TDS2024B_Channel_Parameters.read_bw_filter_pres_position (st : List String × TDS2024B_Channel_Parameters × Option String)
    (resp : String → String) :
    ((TDS2024B_Channel_Parameters.read_bw_filter st resp).2.1).position = (st.2.1).position := by
  exact readField_pres st resp _ _ _ (fun e => e.position) (fun s a => rfl)

theorem TDS2024B_Channel_Parameters.read_bw_filter_pres_attenuation (st : List String × TDS2024B_Channel_Parameters × Option String)
    (resp : String → String) :
    ((TDS2024B_Channel_Parameters.read_bw_filter st resp).2.1).attenuation = (st.2.1).attenuation := by
  exact readField_pres st resp _ _ _ (fun e => e.attenuation) (fun s a => rfl)

theorem TDS2024B_Channel_Parameters.read_bw_filter_pres_scale (st : List String × TDS2024B_Channel_Parameters × Option String)
    (resp : String → String) :
    ((TDS2024B_Channel_Parameters.read_bw_filter st resp).2.1).scale = (st.2.1).scale := by
  exact readField_pres st resp _ _ _ (fun e => e.scale) (fun s a => rfl)

theorem TDS2024B_Channel_Parameters.read_bw_filter_pres_on (st : List String × TDS2024B_Channel_Parameters × Option String)
    (resp : String → String) :
    ((TDS2024B_Channel_Parameters.read_bw_filter st resp).2.1).«on» = (st.2.1).«on» := by
  exact readField_pres st resp _ _ _ (fun e => e.«on») (fun s a => rfl)

theorem TDS2024B_Channel_Parameters.read_coupling_pres_bw_filter (st : List String × TDS2024B_Channel_Parameters × Option String)
    (resp : String → String) :
    ((TDS2024B_Channel_Parameters.read_coupling st resp).2.1).bw_filter = (st.2.1).bw_filter := by
  exact readField_pres st resp _ _ _ (fun e => e.bw_filter) (fun s a => rfl)

theorem TDS2024B_Channel_Parameters.read_coupling_pres_invert (st : List String × TDS2024B_Channel_Parameters × Option String)
    (resp : String → String) :
    ((TDS2024B_Channel_Parameters.read_coupling st resp).2.1).invert = (st.2.1).invert := by
  exact readField_pres st resp _ _ _ (fun e => e.invert) (fun s a => rfl)

theorem TDS2024B_Channel_Parameters.read_coupling_pres_position (st : List String × TDS2024B_Channel_Parameters × Option String)
    (resp : String → String) :
    ((TDS2024B_Channel_Parameters.read_coupling st resp).2.1).position = (st.2.1).position := by
  exact readField_pres st resp _ _ _ (fun e => e.position) (fun s a => rfl)

theorem TDS2024B_Channel_Parameters.read_coupling_pres_attenuation (st : List String × TDS2024B_Channel_Parameters × Option String)
    (resp : String → String) :
    ((TDS2024B_Channel_Parameters.read_coupling st resp).2.1).attenuation = (st.2.1).attenuation := by
  exact readField_pres st resp _ _ _ (fun e => e.attenuation) (fun s a => rfl)

theorem TDS2024B_Channel_Parameters.read_coupling_pres_scale (st : List String × TDS2024B_Channel_Parameters × Option String)
    (resp : String → String) :
    ((TDS2024B_Channel_Parameters.read_coupling st resp).2.1).scale = (st.2.1).scale := by
  exact readField_pres st resp _ _ _ (fun e => e.scale) (fun s a => rfl)

theorem TDS2024B_Channel_Parameters.read_coupling_pres_on (st : List String × TDS2024B_Channel_Parameters × Option String)
    (resp : String → String) :
    ((TDS2024B_Channel_Parameters.read_coupling st resp).2.1).«on» = (st.2.1).«on» := by
  exact readField_pres st resp _ _ _ (fun e => e.«on») (fun s a => rfl)

theorem TDS2024B_Channel_Parameters.read_invert_pres_bw_filter (st : List String × TDS2024B_Channel_Parameters × Option String)
    (resp : String → String) :
    ((TDS2024B_Channel_Parameters.read_invert st resp).2.1).bw_filter = (st.2.1).bw_filter := by
  exact readField_pres st resp _ _ _ (fun e => e.bw_filter) (fun s a => rfl)

theorem TDS2024B_Channel_Parameters.read_invert_pres_coupling (st : List String × TDS2024B_Channel_Parameters × Option String)
    (resp : String → String) :
    ((TDS2024B_Channel_Parameters.read_invert st resp).2.1).coupling = (st.2.1).coupling := by
  exact readField_pres st resp _ _ _ (fun e => e.coupling) (fun s a => rfl)

theorem TDS2024B_Channel_Parameters.read_invert_pres_position (st : List String × TDS2024B_Channel_Parameters × Option String)
    (resp : String → String) :
    ((TDS2024B_Channel_Parameters.read_invert st resp).2.1).position = (st.2.1).position := by
  exact readField_pres st resp _ _ _ (fun e => e.position) (fun s a => rfl)

theorem TDS2024B_Channel_Parameters.read_invert_pres_attenuation (st : List String × TDS2024B_Channel_Parameters × Option String)
    (resp : String → String) :
    ((TDS2024B_Channel_Parameters.read_invert st resp).2.1).attenuation = (st.2.1).attenuation := by
  exact readField_pres st resp _ _ _ (fun e => e.attenuation) (fun s a => rfl)

theorem TDS2024B_Channel_Parameters.read_invert_pres_scale (st : List String × TDS2024B_Channel_Parameters × Option String)
    (resp : String → String) :
    ((TDS2024B_Channel_Parameters.read_invert st resp).2.1).scale = (st.2.1).scale := by
  exact readField_pres st resp _ _ _ (fun e => e.scale) (fun s a => rfl)

theorem TDS2024B_Channel_Parameters.read_invert_pres_on (st : List String × TDS2024B_Channel_Parameters × Option String)
    (resp : String → String) :
    ((TDS2024B_Channel_Parameters.read_invert st resp).2.1).«on» = (st.2.1).«on» := by
  exact readField_pres st resp _ _ _ (fun e => e.«on») (fun s a => rfl)

theorem TDS2024B_Channel_Parameters.read_position_pres_bw_filter (st : List String × TDS2024B_Channel_Parameters × Option String)
    (resp : String → String) :
    ((TDS2024B_Channel_Parameters.read_position st resp).2.1).bw_filter = (st.2.1).bw_filter := by
  exact readField_pres st resp _ _ _ (fun e => e.bw_filter) (fun s a => rfl)

theorem TDS2024B_Channel_Parameters.read_position_pres_coupling (st : List String × TDS2024B_Channel_Parameters × Option String)
    (resp : String → String) :
    ((TDS2024B_Channel_Parameters.read_position st resp).2.1).coupling = (st.2.1).coupling := by
  exact readField_pres st resp _ _ _ (fun e => e.coupling) (fun s a => rfl)

theorem TDS2024B_Channel_Parameters.read_position_pres_invert (st : List String × TDS2024B_Channel_Parameters × Option String)
    (resp : String → String) :
    ((TDS2024B_Channel_Parameters.read_position st resp).2.1).invert = (st.2.1).invert := by
  exact readField_pres st resp _ _ _ (fun e => e.invert) (fun s a => rfl)

theorem TDS2024B_Channel_Parameters.read_position_pres_attenuation (st : List String × TDS2024B_Channel_Parameters × Option String)
    (resp : String → String) :
    ((TDS2024B_Channel_Parameters.read_position st resp).2.1).attenuation = (st.2.1).attenuation := by
  exact readField_pres st resp _ _ _ (fun e => e.attenuation) (fun s a => rfl)

theorem TDS2024B_Channel_Parameters.read_position_pres_scale (st : List String × TDS2024B_Channel_Parameters × Option String)
    (resp : String → String) :
    ((TDS2024B_Channel_Parameters.read_position st resp).2.1).scale = (st.2.1).scale := by
  exact readField_pres st resp _ _ _ (fun e => e.scale) (fun s a => rfl)

theorem TDS2024B_Channel_Parameters.read_position_pres_on (st : List String × TDS2024B_Channel_Parameters × Option String)
    (resp : String → String) :
    ((TDS2024B_Channel_Parameters.read_position st resp).2.1).«on» = (st.2.1).«on» := by
  exact readField_pres st resp _ _ _ (fun e => e.«on») (fun s a => rfl)

theorem TDS2024B_Channel_Parameters.read_attenuation_pres_bw_filter (st : List String × TDS2024B_Channel_Parameters × Option String)
    (resp : String → String) :
    ((TDS2024B_Channel_Parameters.read_attenuation st resp).2.1).bw_filter = (st.2.1).bw_filter := by
  exact readField_pres st resp _ _ _ (fun e => e.bw_filter) (fun s a => rfl)

theorem TDS2024B_Channel_Parameters.read_attenuation_pres_coupling (st : List String × TDS2024B_Channel_Parameters × Option String)
    (resp : String → String) :
    ((TDS2024B_Channel_Parameters.read_attenuation st resp).2.1).coupling = (st.2.1).coupling := by
  exact readField_pres st resp _ _ _ (fun e => e.coupling) (fun s a => rfl)

theorem TDS2024B_Channel_Parameters.read_attenuation_pres_invert (st : List String × TDS2024B_Channel_Parameters × Option String)
    (resp : String → String) :
    ((TDS2024B_Channel_Parameters.read_attenuation st resp).2.1).invert = (st.2.1).invert := by
  exact readField_pres st resp _ _ _ (fun e => e.invert) (fun s a => rfl)

theorem TDS2024B_Channel_Parameters.read_attenuation_pres_position (st : List String × TDS2024B_Channel_Parameters × Option String)
    (resp : String → String) :
    ((TDS2024B_Channel_Parameters.read_attenuation st resp).2.1).position = (st.2.1).position := by
  exact readField_pres st resp _ _ _ (fun e => e.position) (fun s a => rfl)

theorem TDS2024B_Channel_Parameters.read_attenuation_pres_scale (st : List String × TDS2024B_Channel_Parameters × Option String)
    (resp : String → String) :
    ((TDS2024B_Channel_Parameters.read_attenuation st resp).2.1).scale = (st.2.1).scale := by
  exact readField_pres st resp _ _ _ (fun e => e.scale) (fun s a => rfl)

theorem TDS2024B_Channel_Parameters.read_attenuation_pres_on (st : List String × TDS2024B_Channel_Parameters × Option String)
    (resp : String → String) :
    ((TDS2024B_Channel_Parameters.read_attenuation st resp).2.1).«on» = (st.2.1).«on» := by
  exact readField_pres st resp _ _ _ (fun e => e.«on») (fun s a => rfl)

theorem TDS2024B_Channel_Parameters.read_scale_pres_bw_filter (st : List String × TDS2024B_Channel_Parameters × Option String)
    (resp : String → String) :
    ((TDS2024B_Channel_Parameters.read_scale st resp).2.1).bw_filter = (st.2.1).bw_filter := by
  exact readField_pres st resp _ _ _ (fun e => e.bw_filter) (fun s a => rfl)

theorem TDS2024B_Channel_Parameters.read_scale_pres_coupling (st : List String × TDS2024B_Channel_Parameters × Option String)
    (resp : String → String) :
    ((TDS2024B_Channel_Parameters.read_scale st resp).2.1).coupling = (st.2.1).coupling := by
  exact readField_pres st resp _ _ _ (fun e => e.coupling) (fun s a => rfl)

theorem TDS2024B_Channel_Parameters.read_scale_pres_invert (st : List String × TDS2024B_Channel_Parameters × Option String)
    (resp : String → String) :
    ((TDS2024B_Channel_Parameters.read_scale st resp).2.1).invert = (st.2.1).invert := by
  exact readField_pres st resp _ _ _ (fun e => e.invert) (fun s a => rfl)

theorem TDS2024B_Channel_Parameters.read_scale_pres_position (st : List String × TDS2024B_Channel_Parameters × Option String)
    (resp : String → String) :
    ((TDS2024B_Channel_Parameters.read_scale st resp).2.1).position = (st.2.1).position := by
  exact readField_pres st resp _ _ _ (fun e => e.position) (fun s a => rfl)

theorem TDS2024B_Channel_Parameters.read_scale_pres_attenuation (st : List String × TDS2024B_Channel_Parameters × Option String)
    (resp : String → String) :
    ((TDS2024B_Channel_Parameters.read_scale st resp).2.1).attenuation = (st.2.1).attenuation := by
  exact readField_pres st resp _ _ _ (fun e => e.attenuation) (fun s a => rfl)

theorem TDS2024B_Channel_Parameters.read_scale_pres_on (st : List String × TDS2024B_Channel_Parameters × Option String)
    (resp : String → String) :
    ((TDS2024B_Channel_Parameters.read_scale st resp).2.1).«on» = (st.2.1).«on» := by
  exact readField_pres st resp _ _ _ (fun e => e.«on») (fun s a => rfl)

theorem TDS2024B_Channel_Parameters.read_on_pres_bw_filter (st : List String × TDS2024B_Channel_Parameters × Option String)
    (resp : String → String) :
    ((TDS2024B_Channel_Parameters.read_on st resp).2.1).bw_filter = (st.2.1).bw_filter := by
  exact readField_pres st resp _ _ _ (fun e => e.bw_filter) (fun s a => rfl)

theorem TDS2024B_Channel_Parameters.read_on_pres_coupling (st : List String × TDS2024B_Channel_Parameters × Option String)
    (resp : String → String) :
    ((TDS2024B_Channel_Parameters.read_on st resp).2.1).coupling = (st.2.1).coupling := by
  exact readField_pres st resp _ _ _ (fun e => e.coupling) (fun s a => rfl)

theorem TDS2024B_Channel_Parameters.read_on_pres_invert (st : List String × TDS2024B_Channel_Parameters × Option String)
    (resp : String → String) :
    ((TDS2024B_Channel_Parameters.read_on st resp).2.1).invert = (st.2.1).invert := by
  exact readField_pres st resp _ _ _ (fun e => e.invert) (fun s a => rfl)

theorem TDS2024B_Channel_Parameters.read_on_pres_position (st : List String × TDS2024B_Channel_Parameters × Option String)
    (resp : String → String) :
    ((TDS2024B_Channel_Parameters.read_on st resp).2.1).position = (st.2.1).position := by
  exact readField_pres st resp _ _ _ (fun e => e.position) (fun s a => rfl)

theorem TDS2024B_Channel_Parameters.read_on_pres_attenuation (st : List String × TDS2024B_Channel_Parameters × Option String)
    (resp : String → String) :
    ((TDS2024B_Channel_Parameters.read_on st resp).2.1).attenuation = (st.2.1).attenuation := by
  exact readField_pres st resp _ _ _ (fun e => e.attenuation) (fun s a => rfl)

theorem TDS2024B_Channel_Parameters.read_on_pres_scale (st : List String × TDS2024B_Channel_Parameters × Option String)
    (resp : String → String) :
    ((TDS2024B_Channel_Parameters.read_on st resp).2.1).scale = (st.2.1).scale := by
  exact readField_pres st resp _ _ _ (fun e => e.scale) (fun s a => rfl)

theorem TDS2024B_Horizontal_Parameters.load_pos_absent (st : TDS2024B_Horizontal_Parameters × Option String) (data : ConfigMapping)
    (h : lookupNonNull data "pos" = Option.none) :
    TDS2024B_Horizontal_Parameters.load_pos st data = st := by
  exact loadField_absent st data _ _ _ h

theorem TDS2024B_Horizontal_Parameters.load_pos_pres_scale (st : TDS2024B_Horizontal_Parameters × Option String) (data : ConfigMapping) :
    ((TDS2024B_Horizontal_Parameters.load_pos st data).1).scale = (st.1).scale := by
  exact loadField_pres st data _ _ _ (fun e => e.scale) (fun s a => rfl)

theorem TDS2024B_Horizontal_Parameters.load_scale_absent_hor (st : TDS2024B_Horizontal_Parameters × Option String) (data : ConfigMapping)
    (h : lookupNonNull data "scale" = Option.none) :
    TDS2024B_Horizontal_Parameters.load_scale st data = st := by
  exact loadField_absent st data _ _ _ h

theorem TDS2024B_Horizontal_Parameters.load_scale_pres_pos (st : TDS2024B_Horizontal_Parameters × Option String) (data : ConfigMapping) :
    ((TDS2024B_Horizontal_Parameters.load_scale st data).1).pos = (st.1).pos := by
  exact loadField_pres st data _ _ _ (fun e => e.pos) (fun s a => rfl)

theorem TDS2024B_Trigger_Parameters.load_type_absent_trig (st : TDS2024B_Trigger_Parameters × Option String) (data : ConfigMapping)
    (h : lookupNonNull data "type" = Option.none) :
    TDS2024B_Trigger_Parameters.load_type st data = st := by
  exact loadField_absent st data _ _ _ h

theorem TDS2024B_Trigger_Parameters.load_type_pres_mode (st : TDS2024B_Trigger_Parameters × Option String) (data : ConfigMapping) :
    ((TDS2024B_Trigger_Parameters.load_type st data).1).mode = (st.1).mode := by
  exact loadField_pres st data _ _ _ (fun e => e.mode) (fun s a => rfl)

theorem TDS2024B_Trigger_Parameters.load_type_pres_level (st : TDS2024B_Trigger_Parameters × Option String) (data : ConfigMapping) :
    ((TDS2024B_Trigger_Parameters.load_type st data).1).level = (st.1).level := by
  exact loadField_pres st data _ _ _ (fun e => e.level) (fun s a => rfl)

theorem TDS2024B_Trigger_Parameters.load_type_pres_edge_coupling (st : TDS2024B_Trigger_Parameters × Option String) (data : ConfigMapping) :
    ((TDS2024B_Trigger_Parameters.load_type st data).1).edge_coupling = (st.1).edge_coupling := by
  exact loadField_pres st data _ _ _ (fun e => e.edge_coupling) (fun s a => rfl)

theorem TDS2024B_Trigger_Parameters.load_type_pres_edge_slope (st : TDS2024B_Trigger_Parameters × Option String) (data : ConfigMapping) :
    ((TDS2024B_Trigger_Parameters.load_type st data).1).edge_slope = (st.1).edge_slope := by
  exact loadField_pres st data _ _ _ (fun e => e.edge_slope) (fun s a => rfl)

theorem TDS2024B_Trigger_Parameters.load_type_pres_edge_source (st : TDS2024B_Trigger_Parameters × Option String) (data : ConfigMapping) :
    ((TDS2024B_Trigger_Parameters.load_type st data).1).edge_source = (st.1).edge_source := by
  exact loadField_pres st data _ _ _ (fun e => e.edge_source) (fun s a => rfl)

theorem TDS2024B_Trigger_Parameters.load_mode_absent (st : TDS2024B_Trigger_Parameters × Option String) (data : ConfigMapping)
    (h : lookupNonNull data "mode" = Option.none) :
    TDS2024B_Trigger_Parameters.load_mode st data = st := by
  exact loadField_absent st data _ _ _ h

theorem TDS2024B_Trigger_Parameters.load_mode_pres_type (st : TDS2024B_Trigger_Parameters × Option String) (data : ConfigMapping) :
    ((TDS2024B_Trigger_Parameters.load_mode st data).1).type = (st.1).type := by
  exact loadField_pres st data _ _ _ (fun e => e.type) (fun s a => rfl)

theorem TDS2024B_Trigger_Parameters.load_mode_pres_level (st : TDS2024B_Trigger_Parameters × Option String) (data : ConfigMapping) :
    ((TDS2024B_Trigger_Parameters.load_mode st data).1).level = (st.1).level := by
  exact loadField_pres st data _ _ _ (fun e => e.level) (fun s a => rfl)

theorem TDS2024B_Trigger_Parameters.load_mode_pres_edge_coupling (st : TDS2024B_Trigger_Parameters × Option String) (data : ConfigMapping) :
    ((TDS2024B_Trigger_Parameters.load_mode st data).1).edge_coupling = (st.1).edge_coupling := by
  exact loadField_pres st data _ _ _ (fun e => e.edge_coupling) (fun s a => rfl)

theorem TDS2024B_Trigger_Parameters.load_mode_pres_edge_slope (st : TDS2024B_Trigger_Parameters × Option String) (data : ConfigMapping) :
    ((TDS2024B_Trigger_Parameters.load_mode st data).1).edge_slope = (st.1).edge_slope := by
  exact loadField_pres st data _ _ _ (fun e => e.edge_slope) (fun s a => rfl)

theorem TDS2024B_Trigger_Parameters.load_mode_pres_edge_source (st : TDS2024B_Trigger_Parameters × Option String) (data : ConfigMapping) :
    ((TDS2024B_Trigger_Parameters.load_mode st data).1).edge_source = (st.1).edge_source := by
  exact loadField_pres st data _ _ _ (fun e => e.edge_source) (fun s a => rfl)

theorem TDS2024B_Trigger_Parameters.load_level_absent (st : TDS2024B_Trigger_Parameters × Option String) (data : ConfigMapping)
    (h : lookupNonNull data "level" = Option.none) :
    TDS2024B_Trigger_Parameters.load_level st data = st := by
  exact loadField_absent st data _ _ _ h

theorem TDS2024B_Trigger_Parameters.load_level_pres_type (st : TDS2024B_Trigger_Parameters × Option String) (data : ConfigMapping) :
    ((TDS2024B_Trigger_Parameters.load_level st data).1).type = (st.1).type := by
  exact loadField_pres st data _ _ _ (fun e => e.type) (fun s a => rfl)

theorem TDS2024B_Trigger_Parameters.load_level_pres_mode (st : TDS2024B_Trigger_Parameters × Option String) (data : ConfigMapping) :
    ((TDS2024B_Trigger_Parameters.load_level st data).1).mode = (st.1).mode := by
  exact loadField_pres st data _ _ _ (fun e => e.mode) (fun s a => rfl)

theorem TDS2024B_Trigger_Parameters.load_level_pres_edge_coupling (st : TDS2024B_Trigger_Parameters × Option String) (data : ConfigMapping) :
    ((TDS2024B_Trigger_Parameters.load_level st data).1).edge_coupling = (st.1).edge_coupling := by
  exact loadField_pres st data _ _ _ (fun e => e.edge_coupling) (fun s a => rfl)

theorem TDS2024B_Trigger_Parameters.load_level_pres_edge_slope (st : TDS2024B_Trigger_Parameters × Option String) (data : ConfigMapping) :
    ((TDS2024B_Trigger_Parameters.load_level st data).1).edge_slope = (st.1).edge_slope := by
  exact loadField_pres st data _ _ _ (fun e => e.edge_slope) (fun s a => rfl)

theorem TDS2024B_Trigger_Parameters.load_level_pres_edge_source (st : TDS2024B_Trigger_Parameters × Option String) (data : ConfigMapping) :
    ((TDS2024B_Trigger_Parameters.load_level st data).1).edge_source = (st.1).edge_source := by
  exact loadField_pres st data _ _ _ (fun e => e.edge_source) (fun s a => rfl)

theorem TDS2024B_Trigger_Parameters.load_edge_coupling_absent (st : TDS2024B_Trigger_Parameters × Option String) (data : ConfigMapping)
    (h : lookupNonNull data "edge_coupling" = Option.none) :
    TDS2024B_Trigger_Parameters.load_edge_coupling st data = st := by
  exact loadField_absent st data _ _ _ h

theorem TDS2024B_Trigger_Parameters.load_edge_coupling_pres_type (st : TDS2024B_Trigger_Parameters × Option String) (data : ConfigMapping) :
    ((TDS2024B_Trigger_Parameters.load_edge_coupling st data).1).type = (st.1).type := by
  exact loadField_pres st data _ _ _ (fun e => e.type) (fun s a => rfl)

theorem TDS2024B_Trigger_Parameters.load_edge_coupling_pres_mode (st : TDS2024B_Trigger_Parameters × Option String) (data : ConfigMapping) :
    ((TDS2024B_Trigger_Parameters.load_edge_coupling st data).1).mode = (st.1).mode := by
  exact loadField_pres st data _ _ _ (fun e => e.mode) (fun s a => rfl)

theorem TDS2024B_Trigger_Parameters.load_edge_coupling_pres_level (st : TDS2024B_Trigger_Parameters × Option String) (data : ConfigMapping) :
    ((TDS2024B_Trigger_Parameters.load_edge_coupling st data).1).level = (st.1).level := by
  exact loadField_pres st data _ _ _ (fun e => e.level) (fun s a => rfl)

theorem TDS2024B_Trigger_Parameters.load_edge_coupling_pres_edge_slope (st : TDS2024B_Trigger_Parameters × Option String) (data : ConfigMapping) :
    ((TDS2024B_Trigger_Parameters.load_edge_coupling st data).1).edge_slope = (st.1).edge_slope := by
  exact loadField_pres st data _ _ _ (fun e => e.edge_slope) (fun s a => rfl)

theorem TDS2024B_Trigger_Parameters.load_edge_coupling_pres_edge_source (st : TDS2024B_Trigger_Parameters × Option String) (data : ConfigMapping) :
    ((TDS2024B_Trigger_Parameters.load_edge_coupling st data).1).edge_source = (st.1).edge_source := by
  exact loadField_pres st data _ _ _ (fun e => e.edge_source) (fun s a => rfl)

theorem TDS2024B_Trigger_Parameters.load_edge_slope_absent (st : TDS2024B_Trigger_Parameters × Option String) (data : ConfigMapping)
    (h : lookupNonNull data "edge_slope" = Option.none) :
    TDS2024B_Trigger_Parameters.load_edge_slope st data = st := by
  exact loadField_absent st data _ _ _ h

theorem TDS2024B_Trigger_Parameters.load_edge_slope_pres_type (st : TDS2024B_Trigger_Parameters × Option String) (data : ConfigMapping) :
    ((TDS2024B_Trigger_Parameters.load_edge_slope st data).1).type = (st.1).type := by
  exact loadField_pres st data _ _ _ (fun e => e.type) (fun s a => rfl)

theorem TDS2024B_Trigger_Parameters.load_edge_slope_pres_mode (st : TDS2024B_Trigger_Parameters × Option String) (data : ConfigMapping) :
    ((TDS2024B_Trigger_Parameters.load_edge_slope st data).1).mode = (st.1).mode := by
  exact loadField_pres st data _ _ _ (fun e => e.mode) (fun s a => rfl)

theorem TDS2024B_Trigger_Parameters.load_edge_slope_pres_level (st : TDS2024B_Trigger_Parameters × Option String) (data : ConfigMapping) :
    ((TDS2024B_Trigger_Parameters.load_edge_slope st data).1).level = (st.1).level := by
  exact loadField_pres st data _ _ _ (fun e => e.level) (fun s a => rfl)

theorem TDS2024B_Trigger_Parameters.load_edge_slope_pres_edge_coupling (st : TDS2024B_Trigger_Parameters × Option String) (data : ConfigMapping) :
    ((TDS2024B_Trigger_Parameters.load_edge_slope st data).1).edge_coupling = (st.1).edge_coupling := by
  exact loadField_pres st data _ _ _ (fun e => e.edge_coupling) (fun s a => rfl)

theorem TDS2024B_Trigger_Parameters.load_edge_slope_pres_edge_source (st : TDS2024B_Trigger_Parameters × Option String) (data : ConfigMapping) :
    ((TDS2024B_Trigger_Parameters.load_edge_slope st data).1).edge_source = (st.1).edge_source := by
  exact loadField_pres st data _ _ _ (fun e => e.edge_source) (fun s a => rfl)

theorem TDS2024B_Trigger_Parameters.load_edge_source_absent (st : TDS2024B_Trigger_Parameters × Option String) (data : ConfigMapping)
    (h : lookupNonNull data "edge_source" = Option.none) :
    TDS2024B_Trigger_Parameters.load_edge_source st data = st := by
  exact loadField_absent st data _ _ _ h

theorem TDS2024B_Trigger_Parameters.load_edge_source_pres_type (st : TDS2024B_Trigger_Parameters × Option String) (data : ConfigMapping) :
    ((TDS2024B_Trigger_Parameters.load_edge_source st data).1).type = (st.1).type := by
  exact loadField_pres st data _ _ _ (fun e => e.type) (fun s a => rfl)

theorem TDS2024B_Trigger_Parameters.load_edge_source_pres_mode (st : TDS2024B_Trigger_Parameters × Option String) (data : ConfigMapping) :
    ((TDS2024B_Trigger_Parameters.load_edge_source st data).1).mode = (st.1).mode := by
  exact loadField_pres st data _ _ _ (fun e => e.mode) (fun s a => rfl)

theorem TDS2024B_Trigger_Parameters.load_edge_source_pres_level (st : TDS2024B_Trigger_Parameters × Option String) (data : ConfigMapping) :
    ((TDS2024B_Trigger_Parameters.load_edge_source st data).1).level = (st.1).level := by
  exact loadField_pres st data _ _ _ (fun e => e.level) (fun s a => rfl)

theorem TDS2024B_Trigger_Parameters.load_edge_source_pres_edge_coupling (st : TDS2024B_Trigger_Parameters × Option String) (data : ConfigMapping) :
    ((TDS2024B_Trigger_Parameters.load_edge_source st data).1).edge_coupling = (st.1).edge_coupling := by
  exact loadField_pres st data _ _ _ (fun e => e.edge_coupling) (fun s a => rfl)

theorem TDS2024B_Trigger_Parameters.load_edge_source_pres_edge_slope (st : TDS2024B_Trigger_Parameters × Option String) (data : ConfigMapping) :
    ((TDS2024B_Trigger_Parameters.load_edge_source st data).1).edge_slope = (st.1).edge_slope := by
  exact loadField_pres st data _ _ _ (fun e => e.edge_slope) (fun s a => rfl)


/-! ## Whole-load frame lemmas: an absent or null key leaves its field untouched -/

theorem TDS2024B_Measurement.settings_load_absent_source (e : TDS2024B_Measurement) (data : ConfigMapping)
    (h : lookupNonNull data "source" = Option.none) :
    ((TDS2024B_Measurement.settings_load e data).1).source = e.source := by
  simp only [TDS2024B_Measurement.settings_load, TDS2024B_Measurement.load_type_pres_source]
  rw [TDS2024B_Measurement.load_source_absent _ _ h]
  try simp only [TDS2024B_Measurement.load_type_pres_source]

theorem TDS2024B_Measurement.settings_load_absent_type_mes (e : TDS2024B_Measurement) (data : ConfigMapping)
    (h : lookupNonNull data "type" = Option.none) :
    ((TDS2024B_Measurement.settings_load e data).1).type = e.type := by
  simp only [TDS2024B_Measurement.settings_load, TDS2024B_Measurement.load_source_pres_type]
  rw [TDS2024B_Measurement.load_type_absent_mes _ _ h]
  try simp only [TDS2024B_Measurement.load_source_pres_type]

theorem TDS2024B_Channel_Parameters.settings_load_absent_bw_filter (e : TDS2024B_Channel_Parameters) (data : ConfigMapping)
    (h : lookupNonNull data "bw_filter" = Option.none) :
    ((TDS2024B_Channel_Parameters.settings_load e data).1).bw_filter = e.bw_filter := by
  simp only [TDS2024B_Channel_Parameters.settings_load, TDS2024B_Channel_Parameters.load_coupling_pres_bw_filter, TDS2024B_Channel_Parameters.load_invert_pres_bw_filter, TDS2024B_Channel_Parameters.load_position_pres_bw_filter, TDS2024B_Channel_Parameters.load_attenuation_pres_bw_filter, TDS2024B_Channel_Parameters.load_scale_pres_bw_filter, TDS2024B_Channel_Parameters.load_on_pres_bw_filter]
  rw [TDS2024B_Channel_Parameters.load_bw_filter_absent _ _ h]
  try simp only [TDS2024B_Channel_Parameters.load_coupling_pres_bw_filter, TDS2024B_Channel_Parameters.load_invert_pres_bw_filter, TDS2024B_Channel_Parameters.load_position_pres_bw_filter, TDS2024B_Channel_Parameters.load_attenuation_pres_bw_filter, TDS2024B_Channel_Parameters.load_scale_pres_bw_filter, TDS2024B_Channel_Parameters.load_on_pres_bw_filter]

theorem TDS2024B_Channel_Parameters.settings_load_absent_coupling (e : TDS2024B_Channel_Parameters) (data : ConfigMapping)
    (h : lookupNonNull data "coupling" = Option.none) :
    ((TDS2024B_Channel_Parameters.settings_load e data).1).coupling = e.coupling := by
  simp only [TDS2024B_Channel_Parameters.settings_load, TDS2024B_Channel_Parameters.load_bw_filter_pres_coupling, TDS2024B_Channel_Parameters.load_invert_pres_coupling, TDS2024B_Channel_Parameters.load_position_pres_coupling, TDS2024B_Channel_Parameters.load_attenuation_pres_coupling, TDS2024B_Channel_Parameters.load_scale_pres_coupling, TDS2024B_Channel_Parameters.load_on_pres_coupling]
  rw [TDS2024B_Channel_Parameters.load_coupling_absent _ _ h]
  try simp only [TDS2024B_Channel_Parameters.load_bw_filter_pres_coupling, TDS2024B_Channel_Parameters.load_invert_pres_coupling, TDS2024B_Channel_Parameters.load_position_pres_coupling, TDS2024B_Channel_Parameters.load_attenuation_pres_coupling, TDS2024B_Channel_Parameters.load_scale_pres_coupling, TDS2024B_Channel_Parameters.load_on_pres_coupling]

theorem TDS2024B_Channel_Parameters.settings_load_absent_invert (e : TDS2024B_Channel_Parameters) (data : ConfigMapping)
    (h : lookupNonNull data "invert" = Option.none) :
    ((TDS2024B_Channel_Parameters.settings_load e data).1).invert = e.invert := by
  simp only [TDS2024B_Channel_Parameters.settings_load, TDS2024B_Channel_Parameters.load_bw_filter_pres_invert, TDS2024B_Channel_Parameters.load_coupling_pres_invert, TDS2024B_Channel_Parameters.load_position_pres_invert, TDS2024B_Channel_Parameters.load_attenuation_pres_invert, TDS2024B_Channel_Parameters.load_scale_pres_invert, TDS2024B_Channel_Parameters.load_on_pres_invert]
  rw [TDS2024B_Channel_Parameters.load_invert_absent _ _ h]
  try simp only [TDS2024B_Channel_Parameters.load_bw_filter_pres_invert, TDS2024B_Channel_Parameters.load_coupling_pres_invert, TDS2024B_Channel_Parameters.load_position_pres_invert, TDS2024B_Channel_Parameters.load_attenuation_pres_invert, TDS2024B_Channel_Parameters.load_scale_pres_invert, TDS2024B_Channel_Parameters.load_on_pres_invert]

theorem TDS2024B_Channel_Parameters.settings_load_absent_position (e : TDS2024B_Channel_Parameters) (data : ConfigMapping)
    (h : lookupNonNull data "position" = Option.none) :
    ((TDS2024B_Channel_Parameters.settings_load e data).1).position = e.position := by
  simp only [TDS2024B_Channel_Parameters.settings_load, TDS2024B_Channel_Parameters.load_bw_filter_pres_position, TDS2024B_Channel_Parameters.load_coupling_pres_position, TDS2024B_Channel_Parameters.load_invert_pres_position, TDS2024B_Channel_Parameters.load_attenuation_pres_position, TDS2024B_Channel_Parameters.load_scale_pres_position, TDS2024B_Channel_Parameters.load_on_pres_position]
  rw [TDS2024B_Channel_Parameters.load_position_absent _ _ h]
  try simp only [TDS2024B_Channel_Parameters.load_bw_filter_pres_position, TDS2024B_Channel_Parameters.load_coupling_pres_position, TDS2024B_Channel_Parameters.load_invert_pres_position, TDS2024B_Channel_Parameters.load_attenuation_pres_position, TDS2024B_Channel_Parameters.load_scale_pres_position, TDS2024B_Channel_Parameters.load_on_pres_position]

theorem TDS2024B_Channel_Parameters.settings_load_absent_attenuation (e : TDS2024B_Channel_Parameters) (data : ConfigMapping)
    (h : lookupNonNull data "attenuation" = Option.none) :
    ((TDS2024B_Channel_Parameters.settings_load e data).1).attenuation = e.attenuation := by
  simp only [TDS2024B_Channel_Parameters.settings_load, TDS2024B_Channel_Parameters.load_bw_filter_pres_attenuation, TDS2024B_Channel_Parameters.load_coupling_pres_attenuation, TDS2024B_Channel_Parameters.load_invert_pres_attenuation, TDS2024B_Channel_Parameters.load_position_pres_attenuation, TDS2024B_Channel_Parameters.load_scale_pres_attenuation, TDS2024B_Channel_Parameters.load_on_pres_attenuation]
  rw [TDS2024B_Channel_Parameters.load_attenuation_absent _ _ h]
  try simp only [TDS2024B_Channel_Parameters.load_bw_filter_pres_attenuation, TDS2024B_Channel_Parameters.load_coupling_pres_attenuation, TDS2024B_Channel_Parameters.load_invert_pres_attenuation, TDS2024B_Channel_Parameters.load_position_pres_attenuation, TDS2024B_Channel_Parameters.load_scale_pres_attenuation, TDS2024B_Channel_Parameters.load_on_pres_attenuation]

theorem TDS2024B_Channel_Parameters.settings_load_absent_scale_chan (e : TDS2024B_Channel_Parameters) (data : ConfigMapping)
    (h : lookupNonNull data "scale" = Option.none) :
    ((TDS2024B_Channel_Parameters.settings_load e data).1).scale = e.scale := by
  simp only [TDS2024B_Channel_Parameters.settings_load, TDS2024B_Channel_Parameters.load_bw_filter_pres_scale, TDS2024B_Channel_Parameters.load_coupling_pres_scale, TDS2024B_Channel_Parameters.load_invert_pres_scale, TDS2024B_Channel_Parameters.load_position_pres_scale, TDS2024B_Channel_Parameters.load_attenuation_pres_scale, TDS2024B_Channel_Parameters.load_on_pres_scale]
  rw [TDS2024B_Channel_Parameters.load_scale_absent_chan _ _ h]
  try simp only [TDS2024B_Channel_Parameters.load_bw_filter_pres_scale, TDS2024B_Channel_Parameters.load_coupling_pres_scale, TDS2024B_Channel_Parameters.load_invert_pres_scale, TDS2024B_Channel_Parameters.load_position_pres_scale, TDS2024B_Channel_Parameters.load_attenuation_pres_scale, TDS2024B_Channel_Parameters.load_on_pres_scale]

theorem TDS2024B_Channel_Parameters.settings_load_absent_on (e : TDS2024B_Channel_Parameters) (data : ConfigMapping)
    (h : lookupNonNull data "on" = Option.none) :
    ((TDS2024B_Channel_Parameters.settings_load e data).1).«on» = e.«on» := by
  simp only [TDS2024B_Channel_Parameters.settings_load, TDS2024B_Channel_Parameters.load_bw_filter_pres_on, TDS2024B_Channel_Parameters.load_coupling_pres_on, TDS2024B_Channel_Parameters.load_invert_pres_on, TDS2024B_Channel_Parameters.load_position_pres_on, TDS2024B_Channel_Parameters.load_attenuation_pres_on, TDS2024B_Channel_Parameters.load_scale_pres_on]
  rw [TDS2024B_Channel_Parameters.load_on_absent _ _ h]
  try simp only [TDS2024B_Channel_Parameters.load_bw_filter_pres_on, TDS2024B_Channel_Parameters.load_coupling_pres_on, TDS2024B_Channel_Parameters.load_invert_pres_on, TDS2024B_Channel_Parameters.load_position_pres_on, TDS2024B_Channel_Parameters.load_attenuation_pres_on, TDS2024B_Channel_Parameters.load_scale_pres_on]

theorem TDS2024B_Horizontal_Parameters.settings_load_absent_pos (e : TDS2024B_Horizontal_Parameters) (data : ConfigMapping)
    (h : lookupNonNull data "pos" = Option.none) :
    ((TDS2024B_Horizontal_Parameters.settings_load e data).1).pos = e.pos := by
  simp only [TDS2024B_Horizontal_Parameters.settings_load, TDS2024B_Horizontal_Parameters.load_scale_pres_pos]
  rw [TDS2024B_Horizontal_Parameters.load_pos_absent _ _ h]
  try simp only [TDS2024B_Horizontal_Parameters.load_scale_pres_pos]

theorem TDS2024B_Horizontal_Parameters.settings_load_absent_scale_hor (e : TDS2024B_Horizontal_Parameters) (data : ConfigMapping)
    (h : lookupNonNull data "scale" = Option.none) :
    ((TDS2024B_Horizontal_Parameters.settings_load e data).1).scale = e.scale := by
  simp only [TDS2024B_Horizontal_Parameters.settings_load, TDS2024B_Horizontal_Parameters.load_pos_pres_scale]
  rw [TDS2024B_Horizontal_Parameters.load_scale_absent_hor _ _ h]
  try simp only [TDS2024B_Horizontal_Parameters.load_pos_pres_scale]

theorem TDS2024B_Trigger_Parameters.settings_load_absent_type_trig (e : TDS2024B_Trigger_Parameters) (data : ConfigMapping)
    (h : lookupNonNull data "type" = Option.none) :
    ((TDS2024B_Trigger_Parameters.settings_load e data).1).type = e.type := by
  simp only [TDS2024B_Trigger_Parameters.settings_load, TDS2024B_Trigger_Parameters.load_mode_pres_type, TDS2024B_Trigger_Parameters.load_level_pres_type, TDS2024B_Trigger_Parameters.load_edge_coupling_pres_type, TDS2024B_Trigger_Parameters.load_edge_slope_pres_type, TDS2024B_Trigger_Parameters.load_edge_source_pres_type]
  rw [TDS2024B_Trigger_Parameters.load_type_absent_trig _ _ h]
  try simp only [TDS2024B_Trigger_Parameters.load_mode_pres_type, TDS2024B_Trigger_Parameters.load_level_pres_type, TDS2024B_Trigger_Parameters.load_edge_coupling_pres_type, TDS2024B_Trigger_Parameters.load_edge_slope_pres_type, TDS2024B_Trigger_Parameters.load_edge_source_pres_type]

theorem TDS2024B_Trigger_Parameters.settings_load_absent_mode (e : TDS2024B_Trigger_Parameters) (data : ConfigMapping)
    (h : lookupNonNull data "mode" = Option.none) :
    ((TDS2024B_Trigger_Parameters.settings_load e data).1).mode = e.mode := by
  simp only [TDS2024B_Trigger_Parameters.settings_load, TDS2024B_Trigger_Parameters.load_type_pres_mode, TDS2024B_Trigger_Parameters.load_level_pres_mode, TDS2024B_Trigger_Parameters.load_edge_coupling_pres_mode, TDS2024B_Trigger_Parameters.load_edge_slope_pres_mode, TDS2024B_Trigger_Parameters.load_edge_source_pres_mode]
  rw [TDS2024B_Trigger_Parameters.load_mode_absent _ _ h]
  try simp only [TDS2024B_Trigger_Parameters.load_type_pres_mode, TDS2024B_Trigger_Parameters.load_level_pres_mode, TDS2024B_Trigger_Parameters.load_edge_coupling_pres_mode, TDS2024B_Trigger_Parameters.load_edge_slope_pres_mode, TDS2024B_Trigger_Parameters.load_edge_source_pres_mode]

theorem TDS2024B_Trigger_Parameters.settings_load_absent_level (e : TDS2024B_Trigger_Parameters) (data : ConfigMapping)
    (h : lookupNonNull data "level" = Option.none) :
    ((TDS2024B_Trigger_Parameters.settings_load e data).1).level = e.level := by
  simp only [TDS2024B_Trigger_Parameters.settings_load, TDS2024B_Trigger_Parameters.load_type_pres_level, TDS2024B_Trigger_Parameters.load_mode_pres_level, TDS2024B_Trigger_Parameters.load_edge_coupling_pres_level, TDS2024B_Trigger_Parameters.load_edge_slope_pres_level, TDS2024B_Trigger_Parameters.load_edge_source_pres_level]
  rw [TDS2024B_Trigger_Parameters.load_level_absent _ _ h]
  try simp only [TDS2024B_Trigger_Parameters.load_type_pres_level, TDS2024B_Trigger_Parameters.load_mode_pres_level, TDS2024B_Trigger_Parameters.load_edge_coupling_pres_level, TDS2024B_Trigger_Parameters.load_edge_slope_pres_level, TDS2024B_Trigger_Parameters.load_edge_source_pres_level]

theorem TDS2024B_Trigger_Parameters.settings_load_absent_edge_coupling (e : TDS2024B_Trigger_Parameters) (data : ConfigMapping)
    (h : lookupNonNull data "edge_coupling" = Option.none) :
    ((TDS2024B_Trigger_Parameters.settings_load e data).1).edge_coupling = e.edge_coupling := by
  simp only [TDS2024B_Trigger_Parameters.settings_load, TDS2024B_Trigger_Parameters.load_type_pres_edge_coupling, TDS2024B_Trigger_Parameters.load_mode_pres_edge_coupling, TDS2024B_Trigger_Parameters.load_level_pres_edge_coupling, TDS2024B_Trigger_Parameters.load_edge_slope_pres_edge_coupling, TDS2024B_Trigger_Parameters.load_edge_source_pres_edge_coupling]
  rw [TDS2024B_Trigger_Parameters.load_edge_coupling_absent _ _ h]
  try simp only [TDS2024B_Trigger_Parameters.load_type_pres_edge_coupling, TDS2024B_Trigger_Parameters.load_mode_pres_edge_coupling, TDS2024B_Trigger_Parameters.load_level_pres_edge_coupling, TDS2024B_Trigger_Parameters.load_edge_slope_pres_edge_coupling, TDS2024B_Trigger_Parameters.load_edge_source_pres_edge_coupling]

theorem TDS2024B_Trigger_Parameters.settings_load_absent_edge_slope (e : TDS2024B_Trigger_Parameters) (data : ConfigMapping)
    (h : lookupNonNull data "edge_slope" = Option.none) :
    ((TDS2024B_Trigger_Parameters.settings_load e data).1).edge_slope = e.edge_slope := by
  simp only [TDS2024B_Trigger_Parameters.settings_load, TDS2024B_Trigger_Parameters.load_type_pres_edge_slope, TDS2024B_Trigger_Parameters.load_mode_pres_edge_slope, TDS2024B_Trigger_Parameters.load_level_pres_edge_slope, TDS2024B_Trigger_Parameters.load_edge_coupling_pres_edge_slope, TDS2024B_Trigger_Parameters.load_edge_source_pres_edge_slope]
  rw [TDS2024B_Trigger_Parameters.load_edge_slope_absent _ _ h]
  try simp only [TDS2024B_Trigger_Parameters.load_type_pres_edge_slope, TDS2024B_Trigger_Parameters.load_mode_pres_edge_slope, TDS2024B_Trigger_Parameters.load_level_pres_edge_slope, TDS2024B_Trigger_Parameters.load_edge_coupling_pres_edge_slope, TDS2024B_Trigger_Parameters.load_edge_source_pres_edge_slope]

theorem TDS2024B_Trigger_Parameters.settings_load_absent_edge_source (e : TDS2024B_Trigger_Parameters) (data : ConfigMapping)
    (h : lookupNonNull data "edge_source" = Option.none) :
    ((TDS2024B_Trigger_Parameters.settings_load e data).1).edge_source = e.edge_source := by
  simp only [TDS2024B_Trigger_Parameters.settings_load, TDS2024B_Trigger_Parameters.load_type_pres_edge_source, TDS2024B_Trigger_Parameters.load_mode_pres_edge_source, TDS2024B_Trigger_Parameters.load_level_pres_edge_source, TDS2024B_Trigger_Parameters.load_edge_coupling_pres_edge_source, TDS2024B_Trigger_Parameters.load_edge_slope_pres_edge_source]
  rw [TDS2024B_Trigger_Parameters.load_edge_source_absent _ _ h]
  try simp only [TDS2024B_Trigger_Parameters.load_type_pres_edge_source, TDS2024B_Trigger_Parameters.load_mode_pres_edge_source, TDS2024B_Trigger_Parameters.load_level_pres_edge_source, TDS2024B_Trigger_Parameters.load_edge_coupling_pres_edge_source, TDS2024B_Trigger_Parameters.load_edge_slope_pres_edge_source]

/-! ## Interface-stage frame lemmas: no stage touches the `synchronized` flag,
and stages after the trigger read leave the trigger entity alone -/

theorem TDS2024B_Interface_State.read_trigger_pres_sync
    (st : List String × TDS2024B_Interface_State × Option String) (resp : String → String) :
    ((TDS2024B_Interface_State.read_trigger st resp).2.1).synchronized = (st.2.1).synchronized := by
  exact stepSeq_pres st _ (fun s => s.synchronized) (fun s => rfl)

theorem TDS2024B_Interface_State.read_horizontal_main_pres_sync
    (st : List String × TDS2024B_Interface_State × Option String) (resp : String → String) :
    ((TDS2024B_Interface_State.read_horizontal_main st resp).2.1).synchronized = (st.2.1).synchronized := by
  exact stepSeq_pres st _ (fun s => s.synchronized) (fun s => rfl)

theorem TDS2024B_Interface_State.read_horizontal_main_pres_trigger
    (st : List String × TDS2024B_Interface_State × Option String) (resp : String → String) :
    ((TDS2024B_Interface_State.read_horizontal_main st resp).2.1).trigger = (st.2.1).trigger := by
  exact stepSeq_pres st _ (fun s => s.trigger) (fun s => rfl)

theorem TDS2024B_Interface_State.read_horizontal_delay_pres_sync
    (st : List String × TDS2024B_Interface_State × Option String) (resp : String → String) :
    ((TDS2024B_Interface_State.read_horizontal_delay st resp).2.1).synchronized = (st.2.1).synchronized := by
  exact stepSeq_pres st _ (fun s => s.synchronized) (fun s => rfl)

theorem TDS2024B_Interface_State.read_horizontal_delay_pres_trigger
    (st : List String × TDS2024B_Interface_State × Option String) (resp : String → String) :
    ((TDS2024B_Interface_State.read_horizontal_delay st resp).2.1).trigger = (st.2.1).trigger := by
  exact stepSeq_pres st _ (fun s => s.trigger) (fun s => rfl)

theorem TDS2024B_Interface_State.read_ch1_pres_sync
    (st : List String × TDS2024B_Interface_State × Option String) (resp : String → String) :
    ((TDS2024B_Interface_State.read_ch1 st resp).2.1).synchronized = (st.2.1).synchronized := by
  exact stepSeq_pres st _ (fun s => s.synchronized) (fun s => rfl)

theorem TDS2024B_Interface_State.read_ch1_pres_trigger
    (st : List String × TDS2024B_Interface_State × Option String) (resp : String → String) :
    ((TDS2024B_Interface_State.read_ch1 st resp).2.1).trigger = (st.2.1).trigger := by
  exact stepSeq_pres st _ (fun s => s.trigger) (fun s => rfl)

theorem TDS2024B_Interface_State.read_ch2_pres_sync
    (st : List String × TDS2024B_Interface_State × Option String) (resp : String → String) :
    ((TDS2024B_Interface_State.read_ch2 st resp).2.1).synchronized = (st.2.1).synchronized := by
  exact stepSeq_pres st _ (fun s => s.synchronized) (fun s => rfl)

theorem TDS2024B_Interface_State.read_ch2_pres_trigger
    (st : List String × TDS2024B_Interface_State × Option String) (resp : String → String) :
    ((TDS2024B_Interface_State.read_ch2 st resp).2.1).trigger = (st.2.1).trigger := by
  exact stepSeq_pres st _ (fun s => s.trigger) (fun s => rfl)

theorem TDS2024B_Interface_State.read_ch3_pres_sync
    (st : List String × TDS2024B_Interface_State × Option String) (resp : String → String) :
    ((TDS2024B_Interface_State.read_ch3 st resp).2.1).synchronized = (st.2.1).synchronized := by
  exact stepSeq_pres st _ (fun s => s.synchronized) (fun s => rfl)

theorem TDS2024B_Interface_State.read_ch3_pres_trigger
    (st : List String × TDS2024B_Interface_State × Option String) (resp : String → String) :
    ((TDS2024B_Interface_State.read_ch3 st resp).2.1).trigger = (st.2.1).trigger := by
  exact stepSeq_pres st _ (fun s => s.trigger) (fun s => rfl)

theorem TDS2024B_Interface_State.read_ch4_pres_sync
    (st : List String × TDS2024B_Interface_State × Option String) (resp : String → String) :
    ((TDS2024B_Interface_State.read_ch4 st resp).2.1).synchronized = (st.2.1).synchronized := by
  exact stepSeq_pres st _ (fun s => s.synchronized) (fun s => rfl)

theorem TDS2024B_Interface_State.read_ch4_pres_trigger
    (st : List String × TDS2024B_Interface_State × Option String) (resp : String → String) :
    ((TDS2024B_Interface_State.read_ch4 st resp).2.1).trigger = (st.2.1).trigger := by
  exact stepSeq_pres st _ (fun s => s.trigger) (fun s => rfl)

theorem TDS2024B_Interface_State.read_mes1_pres_sync
    (st : List String × TDS2024B_Interface_State × Option String) (resp : String → String) :
    ((TDS2024B_Interface_State.read_mes1 st resp).2.1).synchronized = (st.2.1).synchronized := by
  exact stepSeq_pres st _ (fun s => s.synchronized) (fun s => rfl)

theorem TDS2024B_Interface_State.read_mes1_pres_trigger
    (st : List String × TDS2024B_Interface_State × Option String) (resp : String → String) :
    ((TDS2024B_Interface_State.read_mes1 st resp).2.1).trigger = (st.2.1).trigger := by
  exact stepSeq_pres st _ (fun s => s.trigger) (fun s => rfl)

theorem TDS2024B_Interface_State.read_mes2_pres_sync
    (st : List String × TDS2024B_Interface_State × Option String) (resp : String → String) :
    ((TDS2024B_Interface_State.read_mes2 st resp).2.1).synchronized = (st.2.1).synchronized := by
  exact stepSeq_pres st _ (fun s => s.synchronized) (fun s => rfl)

theorem TDS2024B_Interface_State.read_mes2_pres_trigger
    (st : List String × TDS2024B_Interface_State × Option String) (resp : String → String) :
    ((TDS2024B_Interface_State.read_mes2 st resp).2.1).trigger = (st.2.1).trigger := by
  exact stepSeq_pres st _ (fun s => s.trigger) (fun s => rfl)

theorem TDS2024B_Interface_State.read_mes3_pres_sync
    (st : List String × TDS2024B_Interface_State × Option String) (resp : String → String) :
    ((TDS2024B_Interface_State.read_mes3 st resp).2.1).synchronized = (st.2.1).synchronized := by
  exact stepSeq_pres st _ (fun s => s.synchronized) (fun s => rfl)

theorem TDS2024B_Interface_State.read_mes3_pres_trigger
    (st : List String × TDS2024B_Interface_State × Option String) (resp : String → String) :
    ((TDS2024B_Interface_State.read_mes3 st resp).2.1).trigger = (st.2.1).trigger := by
  exact stepSeq_pres st _ (fun s => s.trigger) (fun s => rfl)

theorem TDS2024B_Interface_State.read_mes4_pres_sync
    (st : List String × TDS2024B_Interface_State × Option String) (resp : String → String) :
    ((TDS2024B_Interface_State.read_mes4 st resp).2.1).synchronized = (st.2.1).synchronized := by
  exact stepSeq_pres st _ (fun s => s.synchronized) (fun s => rfl)

theorem TDS2024B_Interface_State.read_mes4_pres_trigger
    (st : List String × TDS2024B_Interface_State × Option String) (resp : String → String) :
    ((TDS2024B_Interface_State.read_mes4 st resp).2.1).trigger = (st.2.1).trigger := by
  exact stepSeq_pres st _ (fun s => s.trigger) (fun s => rfl)

theorem TDS2024B_Interface_State.read_mes_imm_pres_sync
    (st : List String × TDS2024B_Interface_State × Option String) (resp : String → String) :
    ((TDS2024B_Interface_State.read_mes_imm st resp).2.1).synchronized = (st.2.1).synchronized := by
  exact stepSeq_pres st _ (fun s => s.synchronized) (fun s => rfl)

theorem TDS2024B_Interface_State.read_mes_imm_pres_trigger
    (st : List String × TDS2024B_Interface_State × Option String) (resp : String → String) :
    ((TDS2024B_Interface_State.read_mes_imm st resp).2.1).trigger = (st.2.1).trigger := by
  exact stepSeq_pres st _ (fun s => s.trigger) (fun s => rfl)

theorem TDS2024B_Interface_State.write_trigger_pres_sync
    (st : List String × TDS2024B_Interface_State × Option String) :
    ((TDS2024B_Interface_State.write_trigger st).2.1).synchronized = (st.2.1).synchronized := by
  exact stepSeq_pres st _ (fun s => s.synchronized) (fun s => rfl)

theorem TDS2024B_Interface_State.write_horizontal_main_pres_sync
    (st : List String × TDS2024B_Interface_State × Option String) :
    ((TDS2024B_Interface_State.write_horizontal_main st).2.1).synchronized = (st.2.1).synchronized := by
  exact stepSeq_pres st _ (fun s => s.synchronized) (fun s => rfl)

theorem TDS2024B_Interface_State.write_horizontal_delay_pres_sync
    (st : List String × TDS2024B_Interface_State × Option String) :
    ((TDS2024B_Interface_State.write_horizontal_delay st).2.1).synchronized = (st.2.1).synchronized := by
  exact stepSeq_pres st _ (fun s => s.synchronized) (fun s => rfl)

theorem TDS2024B_Interface_State.write_ch1_pres_sync
    (st : List String × TDS2024B_Interface_State × Option String) :
    ((TDS2024B_Interface_State.write_ch1 st).2.1).synchronized = (st.2.1).synchronized := by
  exact stepSeq_pres st _ (fun s => s.synchronized) (fun s => rfl)

theorem TDS2024B_Interface_State.write_ch2_pres_sync
    (st : List String × TDS2024B_Interface_State × Option String) :
    ((TDS2024B_Interface_State.write_ch2 st).2.1).synchronized = (st.2.1).synchronized := by
  exact stepSeq_pres st _ (fun s => s.synchronized) (fun s => rfl)

theorem TDS2024B_Interface_State.write_ch3_pres_sync
    (st : List String × TDS2024B_Interface_State × Option String) :
    ((TDS2024B_Interface_State.write_ch3 st).2.1).synchronized = (st.2.1).synchronized := by
  exact stepSeq_pres st _ (fun s => s.synchronized) (fun s => rfl)

theorem TDS2024B_Interface_State.write_ch4_pres_sync
    (st : List String × TDS2024B_Interface_State × Option String) :
    ((TDS2024B_Interface_State.write_ch4 st).2.1).synchronized = (st.2.1).synchronized := by
  exact stepSeq_pres st _ (fun s => s.synchronized) (fun s => rfl)

theorem TDS2024B_Interface_State.write_mes1_pres_sync
    (st : List String × TDS2024B_Interface_State × Option String) :
    ((TDS2024B_Interface_State.write_mes1 st).2.1).synchronized = (st.2.1).synchronized := by
  exact stepSeq_pres st _ (fun s => s.synchronized) (fun s => rfl)

theorem TDS2024B_Interface_State.write_mes2_pres_sync
    (st : List String × TDS2024B_Interface_State × Option String) :
    ((TDS2024B_Interface_State.write_mes2 st).2.1).synchronized = (st.2.1).synchronized := by
  exact stepSeq_pres st _ (fun s => s.synchronized) (fun s => rfl)

theorem TDS2024B_Interface_State.write_mes3_pres_sync
    (st : List String × TDS2024B_Interface_State × Option String) :
    ((TDS2024B_Interface_State.write_mes3 st).2.1).synchronized = (st.2.1).synchronized := by
  exact stepSeq_pres st _ (fun s => s.synchronized) (fun s => rfl)

theorem TDS2024B_Interface_State.write_mes4_pres_sync
    (st : List String × TDS2024B_Interface_State × Option String) :
    ((TDS2024B_Interface_State.write_mes4 st).2.1).synchronized = (st.2.1).synchronized := by
  exact stepSeq_pres st _ (fun s => s.synchronized) (fun s => rfl)

theorem TDS2024B_Interface_State.write_mes_imm_pres_sync
    (st : List String × TDS2024B_Interface_State × Option String) :
    ((TDS2024B_Interface_State.write_mes_imm st).2.1).synchronized = (st.2.1).synchronized := by
  exact stepSeq_pres st _ (fun s => s.synchronized) (fun s => rfl)

theorem TDS2024B_Interface_State.load_trigger_pres_sync
    (st : TDS2024B_Interface_State × Option String) (data : List (String × ConfigMapping)) :
    ((TDS2024B_Interface_State.load_trigger st data).1).synchronized = (st.1).synchronized := by
  exact loadEnt_pres st _ _ (fun s => s.synchronized) (fun s d => rfl)

theorem TDS2024B_Interface_State.load_horizontal_main_pres_sync
    (st : TDS2024B_Interface_State × Option String) (data : List (String × ConfigMapping)) :
    ((TDS2024B_Interface_State.load_horizontal_main st data).1).synchronized = (st.1).synchronized := by
  exact loadEnt_pres st _ _ (fun s => s.synchronized) (fun s d => rfl)

theorem TDS2024B_Interface_State.load_horizontal_delay_pres_sync
    (st : TDS2024B_Interface_State × Option String) (data : List (String × ConfigMapping)) :
    ((TDS2024B_Interface_State.load_horizontal_delay st data).1).synchronized = (st.1).synchronized := by
  exact loadEnt_pres st _ _ (fun s => s.synchronized) (fun s d => rfl)

theorem TDS2024B_Interface_State.load_ch1_pres_sync
    (st : TDS2024B_Interface_State × Option String) (data : List (String × ConfigMapping)) :
    ((TDS2024B_Interface_State.load_ch1 st data).1).synchronized = (st.1).synchronized := by
  exact loadEnt_pres st _ _ (fun s => s.synchronized) (fun s d => rfl)

theorem TDS2024B_Interface_State.load_mes1_pres_sync
    (st : TDS2024B_Interface_State × Option String) (data : List (String × ConfigMapping)) :
    ((TDS2024B_Interface_State.load_mes1 st data).1).synchronized = (st.1).synchronized := by
  exact loadEnt_pres st _ _ (fun s => s.synchronized) (fun s d => rfl)

theorem TDS2024B_Interface_State.load_ch2_pres_sync
    (st : TDS2024B_Interface_State × Option String) (data : List (String × ConfigMapping)) :
    ((TDS2024B_Interface_State.load_ch2 st data).1).synchronized = (st.1).synchronized := by
  exact loadEnt_pres st _ _ (fun s => s.synchronized) (fun s d => rfl)

theorem TDS2024B_Interface_State.load_mes2_pres_sync
    (st : TDS2024B_Interface_State × Option String) (data : List (String × ConfigMapping)) :
    ((TDS2024B_Interface_State.load_mes2 st data).1).synchronized = (st.1).synchronized := by
  exact loadEnt_pres st _ _ (fun s => s.synchronized) (fun s d => rfl)

theorem TDS2024B_Interface_State.load_ch3_pres_sync
    (st : TDS2024B_Interface_State × Option String) (data : List (String × ConfigMapping)) :
    ((TDS2024B_Interface_State.load_ch3 st data).1).synchronized = (st.1).synchronized := by
  exact loadEnt_pres st _ _ (fun s => s.synchronized) (fun s d => rfl)

theorem TDS2024B_Interface_State.load_mes3_pres_sync
    (st : TDS2024B_Interface_State × Option String) (data : List (String × ConfigMapping)) :
    ((TDS2024B_Interface_State.load_mes3 st data).1).synchronized = (st.1).synchronized := by
  exact loadEnt_pres st _ _ (fun s => s.synchronized) (fun s d => rfl)

theorem TDS2024B_Interface_State.load_ch4_pres_sync
    (st : TDS2024B_Interface_State × Option String) (data : List (String × ConfigMapping)) :
    ((TDS2024B_Interface_State.load_ch4 st data).1).synchronized = (st.1).synchronized := by
  exact loadEnt_pres st _ _ (fun s => s.synchronized) (fun s d => rfl)

theorem TDS2024B_Interface_State.load_mes4_pres_sync
    (st : TDS2024B_Interface_State × Option String) (data : List (String × ConfigMapping)) :
    ((TDS2024B_Interface_State.load_mes4 st data).1).synchronized = (st.1).synchronized := by
  exact loadEnt_pres st _ _ (fun s => s.synchronized) (fun s d => rfl)

theorem TDS2024B_Interface_State.load_mes_imm_pres_sync
    (st : TDS2024B_Interface_State × Option String) (data : List (String × ConfigMapping)) :
    ((TDS2024B_Interface_State.load_mes_imm st data).1).synchronized = (st.1).synchronized := by
  exact loadEnt_pres st _ _ (fun s => s.synchronized) (fun s d => rfl)

/-! ## Concrete response oracles and the declared full-read query order -/

/-- A mock device whose replies decode successfully for every query of the
full read (floats default to `"1.5"`). -/
def goodRespTable : List (String × String) :=
  [("TRIG:MAIN:TYPE?", "EDGE"),
   ("TRIG:MAIN:MODE?", "AUTO"),
   ("TRIG:MAIN:EDGE:COUPLING?", "DC"),
   ("TRIG:MAIN:EDGE:SLOPE?", "RISE"),
   ("TRIG:MAIN:EDGE:SOURCE?", "CH1"),
   ("CH1:COUPLING?", "DC"),
   ("CH2:COUPLING?", "DC"),
   ("CH3:COUPLING?", "AC"),
   ("CH4:COUPLING?", "GND"),
   ("SELECT:CH1?", "1"),
   ("SELECT:CH2?", "1"),
   ("SELECT:CH3?", "0"),
   ("SELECT:CH4?", "0"),
   ("MEASU:MEAS1:SOURCE?", "CH1"),
   ("MEASU:MEAS2:SOURCE?", "CH2"),
   ("MEASU:MEAS3:SOURCE?", "CH3"),
   ("MEASU:MEAS4:SOURCE?", "MATH"),
   ("MEASU:IMM:SOURCE?", "CH1"),
   ("MEASU:MEAS1:TYPE?", "NONE"),
   ("MEASU:MEAS2:TYPE?", "MAXI"),
   ("MEASU:MEAS3:TYPE?", "PK2PK"),
   ("MEASU:MEAS4:TYPE?", "FREQUENCY"),
   ("MEASU:IMM:TYPE?", "PERIOD")]

def goodResp (q : String) : String :=
  match goodRespTable.lookup q with
  | some r => r
  | Option.none => "1.5"

/-- A mock device that answers like `goodResp` except that the main
horizontal position query gets an unparseable reply. -/
def badResp (q : String) : String :=
  if q = "HOR:MAIN:POS?" then "GARBAGE" else goodResp q

/-- The 48 query strings of a full `settings_read`, in the order the source
issues them: trigger, horizontal main, horizontal delay, channels 1-4,
measurements 1-4, immediate measurement. -/
def fullReadQueries : List String :=
  ["TRIG:MAIN:TYPE?", "TRIG:MAIN:MODE?", "TRIG:MAIN:LEVEL?",
   "TRIG:MAIN:EDGE:COUPLING?", "TRIG:MAIN:EDGE:SLOPE?", "TRIG:MAIN:EDGE:SOURCE?",
   "HOR:MAIN:POS?", "HOR:MAIN:SCALE?",
   "HOR:DELAY:POS?", "HOR:DELAY:SCALE?",
   "CH1:BANDWIDTH?", "CH1:COUPLING?", "CH1:INVERT?", "CH1:POS?", "CH1:PROBE?",
   "CH1:SCALE?", "SELECT:CH1?",
   "CH2:BANDWIDTH?", "CH2:COUPLING?", "CH2:INVERT?", "CH2:POS?", "CH2:PROBE?",
   "CH2:SCALE?", "SELECT:CH2?",
   "CH3:BANDWIDTH?", "CH3:COUPLING?", "CH3:INVERT?", "CH3:POS?", "CH3:PROBE?",
   "CH3:SCALE?", "SELECT:CH3?",
   "CH4:BANDWIDTH?", "CH4:COUPLING?", "CH4:INVERT?", "CH4:POS?", "CH4:PROBE?",
   "CH4:SCALE?", "SELECT:CH4?",
   "MEASU:MEAS1:SOURCE?", "MEASU:MEAS1:TYPE?",
   "MEASU:MEAS2:SOURCE?", "MEASU:MEAS2:TYPE?",
   "MEASU:MEAS3:SOURCE?", "MEASU:MEAS3:TYPE?",
   "MEASU:MEAS4:SOURCE?", "MEASU:MEAS4:TYPE?",
   "MEASU:IMM:SOURCE?", "MEASU:IMM:TYPE?"]

/-! ## Entity read transcripts on success -/

theorem TDS2024B_Measurement.settings_read_queries_mes (m : TDS2024B_Measurement)
    (resp : String → String) (h : (m.settings_read resp).2.2 = Option.none) :
    (m.settings_read resp).1 =
      ["MEASU:" ++ m.id ++ ":SOURCE?", "MEASU:" ++ m.id ++ ":TYPE?"] := by
  rcases h1 : TDS2024B_Measurement_Source.ofWire (resp ("MEASU:" ++ m.id ++ ":SOURCE?"))
      with _ | v1 <;>
    rcases h2 : TDS2024B_Measurement_Type.ofWire (resp ("MEASU:" ++ m.id ++ ":TYPE?"))
      with _ | v2 <;>
    simp_all [TDS2024B_Measurement.settings_read, readField]

theorem TDS2024B_Horizontal_Parameters.settings_read_queries_hor
    (hz : TDS2024B_Horizontal_Parameters) (resp : String → String)
    (h : (hz.settings_read resp).2.2 = Option.none) :
    (hz.settings_read resp).1 =
      ["HOR:" ++ hz.id ++ ":POS?", "HOR:" ++ hz.id ++ ":SCALE?"] := by
  rcases h1 : parseFloat? (resp ("HOR:" ++ hz.id ++ ":POS?")) with _ | v1 <;>
    rcases h2 : parseFloat? (resp ("HOR:" ++ hz.id ++ ":SCALE?")) with _ | v2 <;>
    simp_all [TDS2024B_Horizontal_Parameters.settings_read, readField]

theorem TDS2024B_Trigger_Parameters.settings_read_queries_trig
    (t : TDS2024B_Trigger_Parameters) (resp : String → String)
    (h : (t.settings_read resp).2.2 = Option.none) :
    (t.settings_read resp).1 =
      ["TRIG:" ++ t.id ++ ":TYPE?", "TRIG:" ++ t.id ++ ":MODE?",
       "TRIG:" ++ t.id ++ ":LEVEL?", "TRIG:" ++ t.id ++ ":EDGE:COUPLING?",
       "TRIG:" ++ t.id ++ ":EDGE:SLOPE?", "TRIG:" ++ t.id ++ ":EDGE:SOURCE?"] := by
  simp only [TDS2024B_Trigger_Parameters.settings_read, readField] at h ⊢
  rcases h1 : TDS2024B_Trigger_Type.ofWire (resp ("TRIG:" ++ t.id ++ ":TYPE?")) with _ | v1 <;>
    simp only [h1] at h ⊢
  · simp at h
  rcases h2 : TDS2024B_Trigger_Mode.ofWire (resp ("TRIG:" ++ t.id ++ ":MODE?")) with _ | v2 <;>
    simp only [h2] at h ⊢
  · simp at h
  rcases h3 : parseFloat? (resp ("TRIG:" ++ t.id ++ ":LEVEL?")) with _ | v3 <;>
    simp only [h3] at h ⊢
  · simp at h
  rcases h4 : TDS2024B_Trigger_Edge_Coupling.ofWire
      (resp ("TRIG:" ++ t.id ++ ":EDGE:COUPLING?")) with _ | v4 <;>
    simp only [h4] at h ⊢
  · simp at h
  rcases h5 : TDS2024B_Trigger_Edge_Slope.ofWire
      (resp ("TRIG:" ++ t.id ++ ":EDGE:SLOPE?")) with _ | v5 <;>
    simp only [h5] at h ⊢
  · simp at h
  rcases h6 : TDS2024B_Trigger_Edge_Source.ofWire
      (resp ("TRIG:" ++ t.id ++ ":EDGE:SOURCE?")) with _ | v6 <;>
    simp only [h6] at h ⊢
  · simp at h
  simp

theorem TDS2024B_Channel_Parameters.settings_read_queries_chan
    (c : TDS2024B_Channel_Parameters) (resp : String → String)
    (h : (c.settings_read resp).2.2 = Option.none) :
    (c.settings_read resp).1 =
      ["CH" ++ toString c.chan ++ ":BANDWIDTH?", "CH" ++ toString c.chan ++ ":COUPLING?",
       "CH" ++ toString c.chan ++ ":INVERT?", "CH" ++ toString c.chan ++ ":POS?",
       "CH" ++ toString c.chan ++ ":PROBE?", "CH" ++ toString c.chan ++ ":SCALE?",
       "SELECT:CH" ++ toString c.chan ++ "?"] := by
  simp only [TDS2024B_Channel_Parameters.settings_read,
    TDS2024B_Channel_Parameters.read_bw_filter, TDS2024B_Channel_Parameters.read_coupling,
    TDS2024B_Channel_Parameters.read_invert, TDS2024B_Channel_Parameters.read_position,
    TDS2024B_Channel_Parameters.read_attenuation, TDS2024B_Channel_Parameters.read_scale,
    TDS2024B_Channel_Parameters.read_on, readField] at h ⊢
  rcases h2 : TDS2024B_Channel_Coupling.ofWire (resp ("CH" ++ toString c.chan ++ ":COUPLING?"))
      with _ | v2 <;> simp only [h2] at h ⊢
  · simp at h
  rcases h4 : parseFloat? (resp ("CH" ++ toString c.chan ++ ":POS?")) with _ | v4 <;>
    simp only [h4] at h ⊢
  · simp at h
  rcases h5 : parseFloat? (resp ("CH" ++ toString c.chan ++ ":PROBE?")) with _ | v5 <;>
    simp only [h5] at h ⊢
  · simp at h
  rcases h6 : parseFloat? (resp ("CH" ++ toString c.chan ++ ":SCALE?")) with _ | v6 <;>
    simp only [h6] at h ⊢
  · simp at h
  rcases h7 : parseInt? (resp ("SELECT:CH" ++ toString c.chan ++ "?")) with _ | v7 <;>
    simp only [h7] at h ⊢
  · simp at h
  simp

/-! ## Interface read-stage decomposition lemmas -/

theorem TDS2024B_Interface_State.read_trigger_split
    (st : List String × TDS2024B_Interface_State × Option String) (resp : String → String)
    (h : (TDS2024B_Interface_State.read_trigger st resp).2.2 = Option.none) :
    st.2.2 = Option.none ∧ (st.2.1.trigger.settings_read resp).2.2 = Option.none ∧
    (TDS2024B_Interface_State.read_trigger st resp).1 = st.1 ++ (st.2.1.trigger.settings_read resp).1 := by
  obtain ⟨h1, h2, h3, h4⟩ := stepSeq_of_none st _ h
  exact ⟨h1, h2, h3⟩

theorem TDS2024B_Interface_State.read_horizontal_main_split
    (st : List String × TDS2024B_Interface_State × Option String) (resp : String → String)
    (h : (TDS2024B_Interface_State.read_horizontal_main st resp).2.2 = Option.none) :
    st.2.2 = Option.none ∧ (st.2.1.horizontal_main.settings_read resp).2.2 = Option.none ∧
    (TDS2024B_Interface_State.read_horizontal_main st resp).1 = st.1 ++ (st.2.1.horizontal_main.settings_read resp).1 := by
  obtain ⟨h1, h2, h3, h4⟩ := stepSeq_of_none st _ h
  exact ⟨h1, h2, h3⟩

theorem TDS2024B_Interface_State.read_horizontal_delay_split
    (st : List String × TDS2024B_Interface_State × Option String) (resp : String → String)
    (h : (TDS2024B_Interface_State.read_horizontal_delay st resp).2.2 = Option.none) :
    st.2.2 = Option.none ∧ (st.2.1.horizontal_delay.settings_read resp).2.2 = Option.none ∧
    (TDS2024B_Interface_State.read_horizontal_delay st resp).1 = st.1 ++ (st.2.1.horizontal_delay.settings_read resp).1 := by
  obtain ⟨h1, h2, h3, h4⟩ := stepSeq_of_none st _ h
  exact ⟨h1, h2, h3⟩

theorem TDS2024B_Interface_State.read_ch1_split
    (st : List String × TDS2024B_Interface_State × Option String) (resp : String → String)
    (h : (TDS2024B_Interface_State.read_ch1 st resp).2.2 = Option.none) :
    st.2.2 = Option.none ∧ (st.2.1.ch1.settings_read resp).2.2 = Option.none ∧
    (TDS2024B_Interface_State.read_ch1 st resp).1 = st.1 ++ (st.2.1.ch1.settings_read resp).1 := by
  obtain ⟨h1, h2, h3, h4⟩ := stepSeq_of_none st _ h
  exact ⟨h1, h2, h3⟩

theorem TDS2024B_Interface_State.read_ch2_split
    (st : List String × TDS2024B_Interface_State × Option String) (resp : String → String)
    (h : (TDS2024B_Interface_State.read_ch2 st resp).2.2 = Option.none) :
    st.2.2 = Option.none ∧ (st.2.1.ch2.settings_read resp).2.2 = Option.none ∧
    (TDS2024B_Interface_State.read_ch2 st resp).1 = st.1 ++ (st.2.1.ch2.settings_read resp).1 := by
  obtain ⟨h1, h2, h3, h4⟩ := stepSeq_of_none st _ h
  exact ⟨h1, h2, h3⟩

theorem TDS2024B_Interface_State.read_ch3_split
    (st : List String × TDS2024B_Interface_State × Option String) (resp : String → String)
    (h : (TDS2024B_Interface_State.read_ch3 st resp).2.2 = Option.none) :
    st.2.2 = Option.none ∧ (st.2.1.ch3.settings_read resp).2.2 = Option.none ∧
    (TDS2024B_Interface_State.read_ch3 st resp).1 = st.1 ++ (st.2.1.ch3.settings_read resp).1 := by
  obtain ⟨h1, h2, h3, h4⟩ := stepSeq_of_none st _ h
  exact ⟨h1, h2, h3⟩

theorem TDS2024B_Interface_State.read_ch4_split
    (st : List String × TDS2024B_Interface_State × Option String) (resp : String → String)
    (h : (TDS2024B_Interface_State.read_ch4 st resp).2.2 = Option.none) :
    st.2.2 = Option.none ∧ (st.2.1.ch4.settings_read resp).2.2 = Option.none ∧
    (TDS2024B_Interface_State.read_ch4 st resp).1 = st.1 ++ (st.2.1.ch4.settings_read resp).1 := by
  obtain ⟨h1, h2, h3, h4⟩ := stepSeq_of_none st _ h
  exact ⟨h1, h2, h3⟩

theorem TDS2024B_Interface_State.read_mes1_split
    (st : List String × TDS2024B_Interface_State × Option String) (resp : String → String)
    (h : (TDS2024B_Interface_State.read_mes1 st resp).2.2 = Option.none) :
    st.2.2 = Option.none ∧ (st.2.1.mes1.settings_read resp).2.2 = Option.none ∧
    (TDS2024B_Interface_State.read_mes1 st resp).1 = st.1 ++ (st.2.1.mes1.settings_read resp).1 := by
  obtain ⟨h1, h2, h3, h4⟩ := stepSeq_of_none st _ h
  exact ⟨h1, h2, h3⟩

theorem TDS2024B_Interface_State.read_mes2_split
    (st : List String × TDS2024B_Interface_State × Option String) (resp : String → String)
    (h : (TDS2024B_Interface_State.read_mes2 st resp).2.2 = Option.none) :
    st.2.2 = Option.none ∧ (st.2.1.mes2.settings_read resp).2.2 = Option.none ∧
    (TDS2024B_Interface_State.read_mes2 st resp).1 = st.1 ++ (st.2.1.mes2.settings_read resp).1 := by
  obtain ⟨h1, h2, h3, h4⟩ := stepSeq_of_none st _ h
  exact ⟨h1, h2, h3⟩

theorem TDS2024B_Interface_State.read_mes3_split
    (st : List String × TDS2024B_Interface_State × Option String) (resp : String → String)
    (h : (TDS2024B_Interface_State.read_mes3 st resp).2.2 = Option.none) :
    st.2.2 = Option.none ∧ (st.2.1.mes3.settings_read resp).2.2 = Option.none ∧
    (TDS2024B_Interface_State.read_mes3 st resp).1 = st.1 ++ (st.2.1.mes3.settings_read resp).1 := by
  obtain ⟨h1, h2, h3, h4⟩ := stepSeq_of_none st _ h
  exact ⟨h1, h2, h3⟩

theorem TDS2024B_Interface_State.read_mes4_split
    (st : List String × TDS2024B_Interface_State × Option String) (resp : String → String)
    (h : (TDS2024B_Interface_State.read_mes4 st resp).2.2 = Option.none) :
    st.2.2 = Option.none ∧ (st.2.1.mes4.settings_read resp).2.2 = Option.none ∧
    (TDS2024B_Interface_State.read_mes4 st resp).1 = st.1 ++ (st.2.1.mes4.settings_read resp).1 := by
  obtain ⟨h1, h2, h3, h4⟩ := stepSeq_of_none st _ h
  exact ⟨h1, h2, h3⟩

theorem TDS2024B_Interface_State.read_mes_imm_split
    (st : List String × TDS2024B_Interface_State × Option String) (resp : String → String)
    (h : (TDS2024B_Interface_State.read_mes_imm st resp).2.2 = Option.none) :
    st.2.2 = Option.none ∧ (st.2.1.mes_imm.settings_read resp).2.2 = Option.none ∧
    (TDS2024B_Interface_State.read_mes_imm st resp).1 = st.1 ++ (st.2.1.mes_imm.settings_read resp).1 := by
  obtain ⟨h1, h2, h3, h4⟩ := stepSeq_of_none st _ h
  exact ⟨h1, h2, h3⟩


/-! ## Interface read stages leave later-read entities untouched -/

theorem TDS2024B_Interface_State.read_trigger_pres_horizontal_main
    (st : List String × TDS2024B_Interface_State × Option String) (resp : String → String) :
    ((TDS2024B_Interface_State.read_trigger st resp).2.1).horizontal_main = (st.2.1).horizontal_main := by
  exact stepSeq_pres st _ (fun s => s.horizontal_main) (fun s => rfl)

theorem TDS2024B_Interface_State.read_trigger_pres_horizontal_delay
    (st : List String × TDS2024B_Interface_State × Option String) (resp : String → String) :
    ((TDS2024B_Interface_State.read_trigger st resp).2.1).horizontal_delay = (st.2.1).horizontal_delay := by
  exact stepSeq_pres st _ (fun s => s.horizontal_delay) (fun s => rfl)

theorem TDS2024B_Interface_State.read_horizontal_main_pres_horizontal_delay
    (st : List String × TDS2024B_Interface_State × Option String) (resp : String → String) :
    ((TDS2024B_Interface_State.read_horizontal_main st resp).2.1).horizontal_delay = (st.2.1).horizontal_delay := by
  exact stepSeq_pres st _ (fun s => s.horizontal_delay) (fun s => rfl)

theorem TDS2024B_Interface_State.read_trigger_pres_ch1
    (st : List String × TDS2024B_Interface_State × Option String) (resp : String → String) :
    ((TDS2024B_Interface_State.read_trigger st resp).2.1).ch1 = (st.2.1).ch1 := by
  exact stepSeq_pres st _ (fun s => s.ch1) (fun s => rfl)

theorem TDS2024B_Interface_State.read_horizontal_main_pres_ch1
    (st : List String × TDS2024B_Interface_State × Option String) (resp : String → String) :
    ((TDS2024B_Interface_State.read_horizontal_main st resp).2.1).ch1 = (st.2.1).ch1 := by
  exact stepSeq_pres st _ (fun s => s.ch1) (fun s => rfl)

theorem TDS2024B_Interface_State.read_horizontal_delay_pres_ch1
    (st : List String × TDS2024B_Interface_State × Option String) (resp : String → String) :
    ((TDS2024B_Interface_State.read_horizontal_delay st resp).2.1).ch1 = (st.2.1).ch1 := by
  exact stepSeq_pres st _ (fun s => s.ch1) (fun s => rfl)

theorem TDS2024B_Interface_State.read_trigger_pres_ch2
    (st : List String × TDS2024B_Interface_State × Option String) (resp : String → String) :
    ((TDS2024B_Interface_State.read_trigger st resp).2.1).ch2 = (st.2.1).ch2 := by
  exact stepSeq_pres st _ (fun s => s.ch2) (fun s => rfl)

theorem TDS2024B_Interface_State.read_horizontal_main_pres_ch2
    (st : List String × TDS2024B_Interface_State × Option String) (resp : String → String) :
    ((TDS2024B_Interface_State.read_horizontal_main st resp).2.1).ch2 = (st.2.1).ch2 := by
  exact stepSeq_pres st _ (fun s => s.ch2) (fun s => rfl)

theorem TDS2024B_Interface_State.read_horizontal_delay_pres_ch2
    (st : List String × TDS2024B_Interface_State × Option String) (resp : String → String) :
    ((TDS2024B_Interface_State.read_horizontal_delay st resp).2.1).ch2 = (st.2.1).ch2 := by
  exact stepSeq_pres st _ (fun s => s.ch2) (fun s => rfl)

theorem TDS2024B_Interface_State.read_ch1_pres_ch2
    (st : List String × TDS2024B_Interface_State × Option String) (resp : String → String) :
    ((TDS2024B_Interface_State.read_ch1 st resp).2.1).ch2 = (st.2.1).ch2 := by
  exact stepSeq_pres st _ (fun s => s.ch2) (fun s => rfl)

theorem TDS2024B_Interface_State.read_trigger_pres_ch3
    (st : List String × TDS2024B_Interface_State × Option String) (resp : String → String) :
    ((TDS2024B_Interface_State.read_trigger st resp).2.1).ch3 = (st.2.1).ch3 := by
  exact stepSeq_pres st _ (fun s => s.ch3) (fun s => rfl)

theorem TDS2024B_Interface_State.read_horizontal_main_pres_ch3
    (st : List String × TDS2024B_Interface_State × Option String) (resp : String → String) :
    ((TDS2024B_Interface_State.read_horizontal_main st resp).2.1).ch3 = (st.2.1).ch3 := by
  exact stepSeq_pres st _ (fun s => s.ch3) (fun s => rfl)

theorem TDS2024B_Interface_State.read_horizontal_delay_pres_ch3
    (st : List String × TDS2024B_Interface_State × Option String) (resp : String → String) :
    ((TDS2024B_Interface_State.read_horizontal_delay st resp).2.1).ch3 = (st.2.1).ch3 := by
  exact stepSeq_pres st _ (fun s => s.ch3) (fun s => rfl)

theorem TDS2024B_Interface_State.read_ch1_pres_ch3
    (st : List String × TDS2024B_Interface_State × Option String) (resp : String → String) :
    ((TDS2024B_Interface_State.read_ch1 st resp).2.1).ch3 = (st.2.1).ch3 := by
  exact stepSeq_pres st _ (fun s => s.ch3) (fun s => rfl)

theorem TDS2024B_Interface_State.read_ch2_pres_ch3
    (st : List String × TDS2024B_Interface_State × Option String) (resp : String → String) :
    ((TDS2024B_Interface_State.read_ch2 st resp).2.1).ch3 = (st.2.1).ch3 := by
  exact stepSeq_pres st _ (fun s => s.ch3) (fun s => rfl)

theorem TDS2024B_Interface_State.read_trigger_pres_ch4
    (st : List String × TDS2024B_Interface_State × Option String) (resp : String → String) :
    ((TDS2024B_Interface_State.read_trigger st resp).2.1).ch4 = (st.2.1).ch4 := by
  exact stepSeq_pres st _ (fun s => s.ch4) (fun s => rfl)

theorem TDS2024B_Interface_State.read_horizontal_main_pres_ch4
    (st : List String × TDS2024B_Interface_State × Option String) (resp : String → String) :
    ((TDS2024B_Interface_State.read_horizontal_main st resp).2.1).ch4 = (st.2.1).ch4 := by
  exact stepSeq_pres st _ (fun s => s.ch4) (fun s => rfl)

theorem TDS2024B_Interface_State.read_horizontal_delay_pres_ch4
    (st : List String × TDS2024B_Interface_State × Option String) (resp : String → String) :
    ((TDS2024B_Interface_State.read_horizontal_delay st resp).2.1).ch4 = (st.2.1).ch4 := by
  exact stepSeq_pres st _ (fun s => s.ch4) (fun s => rfl)

theorem TDS2024B_Interface_State.read_ch1_pres_ch4
    (st : List String × TDS2024B_Interface_State × Option String) (resp : String → String) :
    ((TDS2024B_Interface_State.read_ch1 st resp).2.1).ch4 = (st.2.1).ch4 := by
  exact stepSeq_pres st _ (fun s => s.ch4) (fun s => rfl)

theorem TDS2024B_Interface_State.read_ch2_pres_ch4
    (st : List String × TDS2024B_Interface_State × Option String) (resp : String → String) :
    ((TDS2024B_Interface_State.read_ch2 st resp).2.1).ch4 = (st.2.1).ch4 := by
  exact stepSeq_pres st _ (fun s => s.ch4) (fun s => rfl)

theorem TDS2024B_Interface_State.read_ch3_pres_ch4
    (st : List String × TDS2024B_Interface_State × Option String) (resp : String → String) :
    ((TDS2024B_Interface_State.read_ch3 st resp).2.1).ch4 = (st.2.1).ch4 := by
  exact stepSeq_pres st _ (fun s => s.ch4) (fun s => rfl)

theorem TDS2024B_Interface_State.read_trigger_pres_mes1
    (st : List String × TDS2024B_Interface_State × Option String) (resp : String → String) :
    ((TDS2024B_Interface_State.read_trigger st resp).2.1).mes1 = (st.2.1).mes1 := by
  exact stepSeq_pres st _ (fun s => s.mes1) (fun s => rfl)

theorem TDS2024B_Interface_State.read_horizontal_main_pres_mes1
    (st : List String × TDS2024B_Interface_State × Option String) (resp : String → String) :
    ((TDS2024B_Interface_State.read_horizontal_main st resp).2.1).mes1 = (st.2.1).mes1 := by
  exact stepSeq_pres st _ (fun s => s.mes1) (fun s => rfl)

theorem TDS2024B_Interface_State.read_horizontal_delay_pres_mes1
    (st : List String × TDS2024B_Interface_State × Option String) (resp : String → String) :
    ((TDS2024B_Interface_State.read_horizontal_delay st resp).2.1).mes1 = (st.2.1).mes1 := by
  exact stepSeq_pres st _ (fun s => s.mes1) (fun s => rfl)

theorem TDS2024B_Interface_State.read_ch1_pres_mes1
    (st : List String × TDS2024B_Interface_State × Option String) (resp : String → String) :
    ((TDS2024B_Interface_State.read_ch1 st resp).2.1).mes1 = (st.2.1).mes1 := by
  exact stepSeq_pres st _ (fun s => s.mes1) (fun s => rfl)

theorem TDS2024B_Interface_State.read_ch2_pres_mes1
    (st : List String × TDS2024B_Interface_State × Option String) (resp : String → String) :
    ((TDS2024B_Interface_State.read_ch2 st resp).2.1).mes1 = (st.2.1).mes1 := by
  exact stepSeq_pres st _ (fun s => s.mes1) (fun s => rfl)

theorem TDS2024B_Interface_State.read_ch3_pres_mes1
    (st : List String × TDS2024B_Interface_State × Option String) (resp : String → String) :
    ((TDS2024B_Interface_State.read_ch3 st resp).2.1).mes1 = (st.2.1).mes1 := by
  exact stepSeq_pres st _ (fun s => s.mes1) (fun s => rfl)

theorem TDS2024B_Interface_State.read_ch4_pres_mes1
    (st : List String × TDS2024B_Interface_State × Option String) (resp : String → String) :
    ((TDS2024B_Interface_State.read_ch4 st resp).2.1).mes1 = (st.2.1).mes1 := by
  exact stepSeq_pres st _ (fun s => s.mes1) (fun s => rfl)

theorem TDS2024B_Interface_State.read_trigger_pres_mes2
    (st : List String × TDS2024B_Interface_State × Option String) (resp : String → String) :
    ((TDS2024B_Interface_State.read_trigger st resp).2.1).mes2 = (st.2.1).mes2 := by
  exact stepSeq_pres st _ (fun s => s.mes2) (fun s => rfl)

theorem TDS2024B_Interface_State.read_horizontal_main_pres_mes2
    (st : List String × TDS2024B_Interface_State × Option String) (resp : String → String) :
    ((TDS2024B_Interface_State.read_horizontal_main st resp).2.1).mes2 = (st.2.1).mes2 := by
  exact stepSeq_pres st _ (fun s => s.mes2) (fun s => rfl)

theorem TDS2024B_Interface_State.read_horizontal_delay_pres_mes2
    (st : List String × TDS2024B_Interface_State × Option String) (resp : String → String) :
    ((TDS2024B_Interface_State.read_horizontal_delay st resp).2.1).mes2 = (st.2.1).mes2 := by
  exact stepSeq_pres st _ (fun s => s.mes2) (fun s => rfl)

theorem TDS2024B_Interface_State.read_ch1_pres_mes2
    (st : List String × TDS2024B_Interface_State × Option String) (resp : String → String) :
    ((TDS2024B_Interface_State.read_ch1 st resp).2.1).mes2 = (st.2.1).mes2 := by
  exact stepSeq_pres st _ (fun s => s.mes2) (fun s => rfl)

theorem TDS2024B_Interface_State.read_ch2_pres_mes2
    (st : List String × TDS2024B_Interface_State × Option String) (resp : String → String) :
    ((TDS2024B_Interface_State.read_ch2 st resp).2.1).mes2 = (st.2.1).mes2 := by
  exact stepSeq_pres st _ (fun s => s.mes2) (fun s => rfl)

theorem TDS2024B_Interface_State.read_ch3_pres_mes2
    (st : List String × TDS2024B_Interface_State × Option String) (resp : String → String) :
    ((TDS2024B_Interface_State.read_ch3 st resp).2.1).mes2 = (st.2.1).mes2 := by
  exact stepSeq_pres st _ (fun s => s.mes2) (fun s => rfl)

theorem TDS2024B_Interface_State.read_ch4_pres_mes2
    (st : List String × TDS2024B_Interface_State × Option String) (resp : String → String) :
    ((TDS2024B_Interface_State.read_ch4 st resp).2.1).mes2 = (st.2.1).mes2 := by
  exact stepSeq_pres st _ (fun s => s.mes2) (fun s => rfl)

theorem TDS2024B_Interface_State.read_mes1_pres_mes2
    (st : List String × TDS2024B_Interface_State × Option String) (resp : String → String) :
    ((TDS2024B_Interface_State.read_mes1 st resp).2.1).mes2 = (st.2.1).mes2 := by
  exact stepSeq_pres st _ (fun s => s.mes2) (fun s => rfl)

theorem TDS2024B_Interface_State.read_trigger_pres_mes3
    (st : List String × TDS2024B_Interface_State × Option String) (resp : String → String) :
    ((TDS2024B_Interface_State.read_trigger st resp).2.1).mes3 = (st.2.1).mes3 := by
  exact stepSeq_pres st _ (fun s => s.mes3) (fun s => rfl)

theorem TDS2024B_Interface_State.read_horizontal_main_pres_mes3
    (st : List String × TDS2024B_Interface_State × Option String) (resp : String → String) :
    ((TDS2024B_Interface_State.read_horizontal_main st resp).2.1).mes3 = (st.2.1).mes3 := by
  exact stepSeq_pres st _ (fun s => s.mes3) (fun s => rfl)

theorem TDS2024B_Interface_State.read_horizontal_delay_pres_mes3
    (st : List String × TDS2024B_Interface_State × Option String) (resp : String → String) :
    ((TDS2024B_Interface_State.read_horizontal_delay st resp).2.1).mes3 = (st.2.1).mes3 := by
  exact stepSeq_pres st _ (fun s => s.mes3) (fun s => rfl)

theorem TDS2024B_Interface_State.read_ch1_pres_mes3
    (st : List String × TDS2024B_Interface_State × Option String) (resp : String → String) :
    ((TDS2024B_Interface_State.read_ch1 st resp).2.1).mes3 = (st.2.1).mes3 := by
  exact stepSeq_pres st _ (fun s => s.mes3) (fun s => rfl)

theorem TDS2024B_Interface_State.read_ch2_pres_mes3
    (st : List String × TDS2024B_Interface_State × Option String) (resp : String → String) :
    ((TDS2024B_Interface_State.read_ch2 st resp).2.1).mes3 = (st.2.1).mes3 := by
  exact stepSeq_pres st _ (fun s => s.mes3) (fun s => rfl)

theorem TDS2024B_Interface_State.read_ch3_pres_mes3
    (st : List String × TDS2024B_Interface_State × Option String) (resp : String → String) :
    ((TDS2024B_Interface_State.read_ch3 st resp).2.1).mes3 = (st.2.1).mes3 := by
  exact stepSeq_pres st _ (fun s => s.mes3) (fun s => rfl)

theorem TDS2024B_Interface_State.read_ch4_pres_mes3
    (st : List String × TDS2024B_Interface_State × Option String) (resp : String → String) :
    ((TDS2024B_Interface_State.read_ch4 st resp).2.1).mes3 = (st.2.1).mes3 := by
  exact stepSeq_pres st _ (fun s => s.mes3) (fun s => rfl)

theorem TDS2024B_Interface_State.read_mes1_pres_mes3
    (st : List String × TDS2024B_Interface_State × Option String) (resp : String → String) :
    ((TDS2024B_Interface_State.read_mes1 st resp).2.1).mes3 = (st.2.1).mes3 := by
  exact stepSeq_pres st _ (fun s => s.mes3) (fun s => rfl)

theorem TDS2024B_Interface_State.read_mes2_pres_mes3
    (st : List String × TDS2024B_Interface_State × Option String) (resp : String → String) :
    ((TDS2024B_Interface_State.read_mes2 st resp).2.1).mes3 = (st.2.1).mes3 := by
  exact stepSeq_pres st _ (fun s => s.mes3) (fun s => rfl)

theorem TDS2024B_Interface_State.read_trigger_pres_mes4
    (st : List String × TDS2024B_Interface_State × Option String) (resp : String → String) :
    ((TDS2024B_Interface_State.read_trigger st resp).2.1).mes4 = (st.2.1).mes4 := by
  exact stepSeq_pres st _ (fun s => s.mes4) (fun s => rfl)

theorem TDS2024B_Interface_State.read_horizontal_main_pres_mes4
    (st : List String × TDS2024B_Interface_State × Option String) (resp : String → String) :
    ((TDS2024B_Interface_State.read_horizontal_main st resp).2.1).mes4 = (st.2.1).mes4 := by
  exact stepSeq_pres st _ (fun s => s.mes4) (fun s => rfl)

theorem TDS2024B_Interface_State.read_horizontal_delay_pres_mes4
    (st : List String × TDS2024B_Interface_State × Option String) (resp : String → String) :
    ((TDS2024B_Interface_State.read_horizontal_delay st resp).2.1).mes4 = (st.2.1).mes4 := by
  exact stepSeq_pres st _ (fun s => s.mes4) (fun s => rfl)

theorem TDS2024B_Interface_State.read_ch1_pres_mes4
    (st : List String × TDS2024B_Interface_State × Option String) (resp : String → String) :
    ((TDS2024B_Interface_State.read_ch1 st resp).2.1).mes4 = (st.2.1).mes4 := by
  exact stepSeq_pres st _ (fun s => s.mes4) (fun s => rfl)

theorem TDS2024B_Interface_State.read_ch2_pres_mes4
    (st : List String × TDS2024B_Interface_State × Option String) (resp : String → String) :
    ((TDS2024B_Interface_State.read_ch2 st resp).2.1).mes4 = (st.2.1).mes4 := by
  exact stepSeq_pres st _ (fun s => s.mes4) (fun s => rfl)

theorem TDS2024B_Interface_State.read_ch3_pres_mes4
    (st : List String × TDS2024B_Interface_State × Option String) (resp : String → String) :
    ((TDS2024B_Interface_State.read_ch3 st resp).2.1).mes4 = (st.2.1).mes4 := by
  exact stepSeq_pres st _ (fun s => s.mes4) (fun s => rfl)

theorem TDS2024B_Interface_State.read_ch4_pres_mes4
    (st : List String × TDS2024B_Interface_State × Option String) (resp : String → String) :
    ((TDS2024B_Interface_State.read_ch4 st resp).2.1).mes4 = (st.2.1).mes4 := by
  exact stepSeq_pres st _ (fun s => s.mes4) (fun s => rfl)

theorem TDS2024B_Interface_State.read_mes1_pres_mes4
    (st : List String × TDS2024B_Interface_State × Option String) (resp : String → String) :
    ((TDS2024B_Interface_State.read_mes1 st resp).2.1).mes4 = (st.2.1).mes4 := by
  exact stepSeq_pres st _ (fun s => s.mes4) (fun s => rfl)

theorem TDS2024B_Interface_State.read_mes2_pres_mes4
    (st : List String × TDS2024B_Interface_State × Option String) (resp : String → String) :
    ((TDS2024B_Interface_State.read_mes2 st resp).2.1).mes4 = (st.2.1).mes4 := by
  exact stepSeq_pres st _ (fun s => s.mes4) (fun s => rfl)

theorem TDS2024B_Interface_State.read_mes3_pres_mes4
    (st : List String × TDS2024B_Interface_State × Option String) (resp : String → String) :
    ((TDS2024B_Interface_State.read_mes3 st resp).2.1).mes4 = (st.2.1).mes4 := by
  exact stepSeq_pres st _ (fun s => s.mes4) (fun s => rfl)

theorem TDS2024B_Interface_State.read_trigger_pres_mes_imm
    (st : List String × TDS2024B_Interface_State × Option String) (resp : String → String) :
    ((TDS2024B_Interface_State.read_trigger st resp).2.1).mes_imm = (st.2.1).mes_imm := by
  exact stepSeq_pres st _ (fun s => s.mes_imm) (fun s => rfl)

theorem TDS2024B_Interface_State.read_horizontal_main_pres_mes_imm
    (st : List String × TDS2024B_Interface_State × Option String) (resp : String → String) :
    ((TDS2024B_Interface_State.read_horizontal_main st resp).2.1).mes_imm = (st.2.1).mes_imm := by
  exact stepSeq_pres st _ (fun s => s.mes_imm) (fun s => rfl)

theorem TDS2024B_Interface_State.read_horizontal_delay_pres_mes_imm
    (st : List String × TDS2024B_Interface_State × Option String) (resp : String → String) :
    ((TDS2024B_Interface_State.read_horizontal_delay st resp).2.1).mes_imm = (st.2.1).mes_imm := by
  exact stepSeq_pres st _ (fun s => s.mes_imm) (fun s => rfl)

theorem TDS2024B_Interface_State.read_ch1_pres_mes_imm
    (st : List String × TDS2024B_Interface_State × Option String) (resp : String → String) :
    ((TDS2024B_Interface_State.read_ch1 st resp).2.1).mes_imm = (st.2.1).mes_imm := by
  exact stepSeq_pres st _ (fun s => s.mes_imm) (fun s => rfl)

theorem TDS2024B_Interface_State.read_ch2_pres_mes_imm
    (st : List String × TDS2024B_Interface_State × Option String) (resp : String → String) :
    ((TDS2024B_Interface_State.read_ch2 st resp).2.1).mes_imm = (st.2.1).mes_imm := by
  exact stepSeq_pres st _ (fun s => s.mes_imm) (fun s => rfl)

theorem TDS2024B_Interface_State.read_ch3_pres_mes_imm
    (st : List String × TDS2024B_Interface_State × Option String) (resp : String → String) :
    ((TDS2024B_Interface_State.read_ch3 st resp).2.1).mes_imm = (st.2.1).mes_imm := by
  exact stepSeq_pres st _ (fun s => s.mes_imm) (fun s => rfl)

theorem TDS2024B_Interface_State.read_ch4_pres_mes_imm
    (st : List String × TDS2024B_Interface_State × Option String) (resp : String → String) :
    ((TDS2024B_Interface_State.read_ch4 st resp).2.1).mes_imm = (st.2.1).mes_imm := by
  exact stepSeq_pres st _ (fun s => s.mes_imm) (fun s => rfl)

theorem TDS2024B_Interface_State.read_mes1_pres_mes_imm
    (st : List String × TDS2024B_Interface_State × Option String) (resp : String → String) :
    ((TDS2024B_Interface_State.read_mes1 st resp).2.1).mes_imm = (st.2.1).mes_imm := by
  exact stepSeq_pres st _ (fun s => s.mes_imm) (fun s => rfl)

theorem TDS2024B_Interface_State.read_mes2_pres_mes_imm
    (st : List String × TDS2024B_Interface_State × Option String) (resp : String → String) :
    ((TDS2024B_Interface_State.read_mes2 st resp).2.1).mes_imm = (st.2.1).mes_imm := by
  exact stepSeq_pres st _ (fun s => s.mes_imm) (fun s => rfl)

theorem TDS2024B_Interface_State.read_mes3_pres_mes_imm
    (st : List String × TDS2024B_Interface_State × Option String) (resp : String → String) :
    ((TDS2024B_Interface_State.read_mes3 st resp).2.1).mes_imm = (st.2.1).mes_imm := by
  exact stepSeq_pres st _ (fun s => s.mes_imm) (fun s => rfl)

theorem TDS2024B_Interface_State.read_mes4_pres_mes_imm
    (st : List String × TDS2024B_Interface_State × Option String) (resp : String → String) :
    ((TDS2024B_Interface_State.read_mes4 st resp).2.1).mes_imm = (st.2.1).mes_imm := by
  exact stepSeq_pres st _ (fun s => s.mes_imm) (fun s => rfl)

/-! ## Claim theorems -/

/-- C1 (counterexample): the measurement-type codec does not map the two
firmware-alias wire strings to one logical value: `"MAXI"` and `"MAXIMUM"`
(likewise `"MINI"` and `"MINIMUM"`) decode to two distinct enumerated
members, so `decode(w1) = decode(w2)` fails for the alias pairs. -/
theorem C1_counterexample :
    TDS2024B_Measurement_Type.ofWire "MAXI" = some TDS2024B_Measurement_Type.Maxi ∧
    TDS2024B_Measurement_Type.ofWire "MAXIMUM" = some TDS2024B_Measurement_Type.Maximum ∧
    TDS2024B_Measurement_Type.ofWire "MAXI" ≠ TDS2024B_Measurement_Type.ofWire "MAXIMUM" ∧
    TDS2024B_Measurement_Type.ofWire "MINI" ≠ TDS2024B_Measurement_Type.ofWire "MINIMUM" := by
  refine ⟨rfl, rfl, ?_, ?_⟩ <;> decide

/-- C1 (amended): each firmware-alias wire string decodes successfully, but
to its own distinct enumerated member; encode is one-to-one, each member
encoding back to its own single fixed wire string. -/
theorem C1_amended_theorem :
    TDS2024B_Measurement_Type.ofWire "MAXI" = some TDS2024B_Measurement_Type.Maxi ∧
    TDS2024B_Measurement_Type.ofWire "MAXIMUM" = some TDS2024B_Measurement_Type.Maximum ∧
    TDS2024B_Measurement_Type.ofWire "MINI" = some TDS2024B_Measurement_Type.Mini ∧
    TDS2024B_Measurement_Type.ofWire "MINIMUM" = some TDS2024B_Measurement_Type.Minimum ∧
    TDS2024B_Measurement_Type.Maxi ≠ TDS2024B_Measurement_Type.Maximum ∧
    TDS2024B_Measurement_Type.Mini ≠ TDS2024B_Measurement_Type.Minimum ∧
    TDS2024B_Measurement_Type.Maxi.value = "MAXI" ∧
    TDS2024B_Measurement_Type.Maximum.value = "MAXIMUM" ∧
    TDS2024B_Measurement_Type.Mini.value = "MINI" ∧
    TDS2024B_Measurement_Type.Minimum.value = "MINIMUM" := by
  refine ⟨rfl, rfl, rfl, rfl, by decide, by decide, rfl, rfl, rfl, rfl⟩

/-- Length of one guarded set-command emission. -/
theorem writeField_length {α : Type} (cmds : List String) (v : Option α) (mk : α → String) :
    (writeField cmds v mk).length = cmds.length + optCount v := by
  cases v <;> simp [writeField, optCount]

def mC2 : TDS2024B_Measurement :=
  { id := "MEAS1", source := some TDS2024B_Measurement_Source.CH1, type := Option.none }

/-- C2 (counterexample): a measurement entity with `source` set and `type`
unset: its `settings_write` raises (`AttributeError`) because of the unset
field instead of skipping it silently, contradicting the claim that the
call never fails because a field is unset. -/
theorem C2_counterexample :
    (mC2.settings_write).2 = some "AttributeError: NoneType has no attribute value" ∧
    (mC2.settings_write).1 = ["MEASU:MEAS1:SOURCE CH1"] := by
  exact ⟨rfl, rfl⟩

/-- C2 (amended): channel, horizontal and trigger entities send exactly one
set command per non-unset field, none for unset fields, and never fail; a
measurement entity instead writes both of its fields unconditionally — it
succeeds (with exactly one command per field) only when both fields are
set, and raises when a field is unset, after sending the commands of the
fields already processed. -/
theorem C2_amended_theorem (c : TDS2024B_Channel_Parameters)
    (hz : TDS2024B_Horizontal_Parameters) (t : TDS2024B_Trigger_Parameters)
    (m : TDS2024B_Measurement) :
    ((c.settings_write).2 = Option.none ∧
      (c.settings_write).1.length =
        optCount c.bw_filter + optCount c.coupling + optCount c.invert +
        optCount c.position + optCount c.attenuation + optCount c.scale +
        optCount c.«on») ∧
    ((hz.settings_write).2 = Option.none ∧
      (hz.settings_write).1.length = optCount hz.pos + optCount hz.scale) ∧
    ((t.settings_write).2 = Option.none ∧
      (t.settings_write).1.length =
        optCount t.type + optCount t.mode + optCount t.level +
        optCount t.edge_coupling + optCount t.edge_slope + optCount t.edge_source) ∧
    (((m.settings_write).2 = Option.none ↔ m.source.isSome ∧ m.type.isSome) ∧
      (m.settings_write).1.length =
        (if m.source.isSome then (if m.type.isSome then 2 else 1) else 0)) := by
  refine ⟨⟨rfl, ?_⟩, ⟨rfl, ?_⟩, ⟨rfl, ?_⟩, ?_⟩
  · simp only [TDS2024B_Channel_Parameters.settings_write, writeField_length,
      List.length_nil]
    omega
  · simp only [TDS2024B_Horizontal_Parameters.settings_write, writeField_length,
      List.length_nil]
    omega
  · simp only [TDS2024B_Trigger_Parameters.settings_write, writeField_length,
      List.length_nil]
    omega
  · rcases m with ⟨mid, msrc, mty⟩
    cases msrc <;> cases mty <;>
      simp [TDS2024B_Measurement.settings_write]

def cW : TDS2024B_Channel_Parameters :=
  { chan := 1, bw_filter := some true, coupling := some TDS2024B_Channel_Coupling.DC,
    invert := Option.none, position := Option.none, attenuation := Option.none,
    scale := some 1, «on» := Option.none }

def mW : TDS2024B_Measurement :=
  { id := "MEAS2", source := some TDS2024B_Measurement_Source.CH2,
    type := some TDS2024B_Measurement_Type.Maxi }

/-- C2 (witness): concrete instances of the amended statement — a channel
with three set fields sends three commands, an all-unset trigger sends
none, and a fully-set measurement succeeds. -/
theorem C2_witness :
    (cW.settings_write).1.length = 3 ∧
    ((TDS2024B_Trigger_Parameters.construct "MAIN").settings_write).1.length = 0 ∧
    (mW.settings_write).2 = Option.none := by
  obtain ⟨⟨_, hc⟩, _, ⟨_, ht⟩, ⟨hmiff, _⟩⟩ :=
    C2_amended_theorem cW (TDS2024B_Horizontal_Parameters.construct "MAIN")
      (TDS2024B_Trigger_Parameters.construct "MAIN") mW
  refine ⟨?_, ?_, ?_⟩
  · rw [hc]; rfl
  · rw [ht]; rfl
  · exact hmiff.mpr (by constructor <;> rfl)

/-- C9: AFG3000 `freq_set` and `output_enable` raise a `ValueError` for a
channel outside `1..2` with no command sent on the error path, and send
exactly one command for a channel inside `1..2`. -/
theorem C9_theorem (channel : ℤ) (freq : ℚ) (state : Bool) :
    ((AFG3000_freq_set channel freq).1.length =
      if channel < 1 ∨ channel > 2 then 0 else 1) ∧
    ((AFG3000_freq_set channel freq).2 ≠ Option.none ↔ (channel < 1 ∨ channel > 2)) ∧
    ((AFG3000_output_enable channel state).1.length =
      if channel < 1 ∨ channel > 2 then 0 else 1) ∧
    ((AFG3000_output_enable channel state).2 ≠ Option.none ↔
      (channel < 1 ∨ channel > 2)) := by
  by_cases hc : channel < 1 ∨ channel > 2 <;>
    simp [AFG3000_freq_set, AFG3000_output_enable, AFG3000_channel_check, hc]

/-- C9 (witness): channel 0 is rejected with no command, channel 3 is
rejected with no command, channel 1 sends exactly one command. -/
theorem C9_witness :
    (AFG3000_freq_set 0 1000).1.length = 0 ∧
    (AFG3000_output_enable 3 true).1.length = 0 ∧
    (AFG3000_freq_set 1 1000).1.length = 1 := by
  refine ⟨?_, ?_, ?_⟩
  · rw [(C9_theorem 0 1000 true).1]; rfl
  · rw [(C9_theorem 3 1000 true).2.2.1]; rfl
  · rw [(C9_theorem 1 1000 true).1]; rfl

theorem QL335P_voltage_get_queries (resp : String → String) :
    (QL335P_voltage_get resp).1 = ["V1?"] := rfl

/-- C8: `voltage_set(v)` sends exactly `"V1 "` followed by `v` formatted with
three digits after the decimal point; with verification enabled (the
default) it then re-queries `V1?` and completes without error exactly when
the readback parses to a value exactly equal to `v`; the set command has
already been sent either way (no rollback). -/
theorem C8_theorem (v : ℚ) (resp : String → String) :
    (QL335P_voltage_set_default v resp).1 = ["V1 " ++ format3 v, "V1?"] ∧
    format3 5 = "5.000" ∧
    ((QL335P_voltage_set_default v resp).2 = Option.none ↔
      (QL335P_voltage_get resp).2 = some v) := by
  refine ⟨?_, rfl, ?_⟩
  · rcases hg : (QL335P_voltage_get resp).2 with _ | vv <;>
      simp [QL335P_voltage_set_default, QL335P_voltage_set, QL335P_voltage_get_queries, hg]
  · rcases hg : (QL335P_voltage_get resp).2 with _ | vv
    · simp [QL335P_voltage_set_default, QL335P_voltage_set, hg]
    · by_cases hv : vv = v <;>
        simp [QL335P_voltage_set_default, QL335P_voltage_set, hg, hv]

def qlResp (q : String) : String :=
  if q = "V1?" then "V1 5.000" else ""

/-- C8 (witness): `voltage_set(5.000)` against a mock supply reading back
`5.000` sends `V1 5.000`, re-queries `V1?`, and completes without error. -/
theorem C8_witness :
    (QL335P_voltage_set_default 5 qlResp).1 = ["V1 5.000", "V1?"] ∧
    (QL335P_voltage_set_default 5 qlResp).2 = Option.none := by
  obtain ⟨h1, h2, h3⟩ := C8_theorem 5 qlResp
  constructor
  · rw [h1]; rfl
  · exact h3.mpr (by rfl)

/-- C10: during a channel `settings_read`, `bw_filter` is always assigned
`response == "ON"` (the bandwidth query is the first of the read, its decode
is total, and later stages leave the field alone); `invert` is likewise
assigned `response == "ON"` whenever the coupling response decodes (the only
stage between them that can fail); an unrecognized boolean response is
silently coerced to `false` and never raises. -/
theorem C10_theorem (c : TDS2024B_Channel_Parameters) (resp : String → String) :
    ((c.settings_read resp).2.1).bw_filter =
      some (resp ("CH" ++ toString c.chan ++ ":BANDWIDTH?") == "ON") ∧
    ((TDS2024B_Channel_Coupling.ofWire
        (resp ("CH" ++ toString c.chan ++ ":COUPLING?"))).isSome →
      ((c.settings_read resp).2.1).invert =
        some (resp ("CH" ++ toString c.chan ++ ":INVERT?") == "ON")) := by
  constructor
  · simp only [TDS2024B_Channel_Parameters.settings_read,
      TDS2024B_Channel_Parameters.read_on_pres_bw_filter,
      TDS2024B_Channel_Parameters.read_scale_pres_bw_filter,
      TDS2024B_Channel_Parameters.read_attenuation_pres_bw_filter,
      TDS2024B_Channel_Parameters.read_position_pres_bw_filter,
      TDS2024B_Channel_Parameters.read_invert_pres_bw_filter,
      TDS2024B_Channel_Parameters.read_coupling_pres_bw_filter]
    simp [TDS2024B_Channel_Parameters.read_bw_filter, readField]
  · intro hc
    obtain ⟨vc, hvc⟩ := Option.isSome_iff_exists.mp hc
    simp only [TDS2024B_Channel_Parameters.settings_read,
      TDS2024B_Channel_Parameters.read_on_pres_invert,
      TDS2024B_Channel_Parameters.read_scale_pres_invert,
      TDS2024B_Channel_Parameters.read_attenuation_pres_invert,
      TDS2024B_Channel_Parameters.read_position_pres_invert]
    simp [TDS2024B_Channel_Parameters.read_invert,
      TDS2024B_Channel_Parameters.read_coupling,
      TDS2024B_Channel_Parameters.read_bw_filter, readField, hvc]

def c10resp (q : String) : String :=
  if q = "CH1:COUPLING?" then "DC" else "BOGUS"

/-- C10 (witness): with every boolean query answered `"BOGUS"`, the channel
read still assigns `bw_filter = false` and `invert = false` without any
decode failure for those fields. -/
theorem C10_witness :
    (((TDS2024B_Channel_Parameters.construct 1).settings_read c10resp).2.1).bw_filter =
      some false ∧
    (((TDS2024B_Channel_Parameters.construct 1).settings_read c10resp).2.1).invert =
      some false := by
  obtain ⟨h1, h2⟩ := C10_theorem (TDS2024B_Channel_Parameters.construct 1) c10resp
  constructor
  · rw [h1]; rfl
  · rw [h2 (by rfl)]; rfl

/-! ## Decode fail-closed lemmas for every enumerated setting -/

theorem ofWire_mem_msrc (s : String) :
    (TDS2024B_Measurement_Source.ofWire s).isSome ↔ s ∈ (["CH1", "CH2", "CH3", "CH4", "MATH"] : List String) := by
  by_cases h1 : s = "CH1"
  · subst h1; decide
  by_cases h2 : s = "CH2"
  · subst h2; decide
  by_cases h3 : s = "CH3"
  · subst h3; decide
  by_cases h4 : s = "CH4"
  · subst h4; decide
  by_cases h5 : s = "MATH"
  · subst h5; decide
  simp [TDS2024B_Measurement_Source.ofWire, h1, h2, h3, h4, h5]

theorem ofWire_mem_mtyp (s : String) :
    (TDS2024B_Measurement_Type.ofWire s).isSome ↔ s ∈ (["NONE", "CRMS", "FALL", "RISE", "MAXI", "MINI", "MAXIMUM", "MINIMUM", "PERIOD", "FREQUENCY", "MEAN", "NWIDTH", "PWIDTH", "PK2PK"] : List String) := by
  by_cases h1 : s = "NONE"
  · subst h1; decide
  by_cases h2 : s = "CRMS"
  · subst h2; decide
  by_cases h3 : s = "FALL"
  · subst h3; decide
  by_cases h4 : s = "RISE"
  · subst h4; decide
  by_cases h5 : s = "MAXI"
  · subst h5; decide
  by_cases h6 : s = "MINI"
  · subst h6; decide
  by_cases h7 : s = "MAXIMUM"
  · subst h7; decide
  by_cases h8 : s = "MINIMUM"
  · subst h8; decide
  by_cases h9 : s = "PERIOD"
  · subst h9; decide
  by_cases h10 : s = "FREQUENCY"
  · subst h10; decide
  by_cases h11 : s = "MEAN"
  · subst h11; decide
  by_cases h12 : s = "NWIDTH"
  · subst h12; decide
  by_cases h13 : s = "PWIDTH"
  · subst h13; decide
  by_cases h14 : s = "PK2PK"
  · subst h14; decide
  simp [TDS2024B_Measurement_Type.ofWire, h1, h2, h3, h4, h5, h6, h7, h8, h9, h10, h11, h12, h13, h14]

theorem ofWire_mem_ccpl (s : String) :
    (TDS2024B_Channel_Coupling.ofWire s).isSome ↔ s ∈ (["AC", "DC", "GND"] : List String) := by
  by_cases h1 : s = "AC"
  · subst h1; decide
  by_cases h2 : s = "DC"
  · subst h2; decide
  by_cases h3 : s = "GND"
  · subst h3; decide
  simp [TDS2024B_Channel_Coupling.ofWire, h1, h2, h3]

theorem ofWire_mem_ttyp (s : String) :
    (TDS2024B_Trigger_Type.ofWire s).isSome ↔ s ∈ (["EDGE", "VID", "PUL"] : List String) := by
  by_cases h1 : s = "EDGE"
  · subst h1; decide
  by_cases h2 : s = "VID"
  · subst h2; decide
  by_cases h3 : s = "PUL"
  · subst h3; decide
  simp [TDS2024B_Trigger_Type.ofWire, h1, h2, h3]

theorem ofWire_mem_tmod (s : String) :
    (TDS2024B_Trigger_Mode.ofWire s).isSome ↔ s ∈ (["AUTO", "NORMAL"] : List String) := by
  by_cases h1 : s = "AUTO"
  · subst h1; decide
  by_cases h2 : s = "NORMAL"
  · subst h2; decide
  simp [TDS2024B_Trigger_Mode.ofWire, h1, h2]

theorem ofWire_mem_tecp (s : String) :
    (TDS2024B_Trigger_Edge_Coupling.ofWire s).isSome ↔ s ∈ (["AC", "DC", "HFREJ", "LFREJ", "NOISEREJ"] : List String) := by
  by_cases h1 : s = "AC"
  · subst h1; decide
  by_cases h2 : s = "DC"
  · subst h2; decide
  by_cases h3 : s = "HFREJ"
  · subst h3; decide
  by_cases h4 : s = "LFREJ"
  · subst h4; decide
  by_cases h5 : s = "NOISEREJ"
  · subst h5; decide
  simp [TDS2024B_Trigger_Edge_Coupling.ofWire, h1, h2, h3, h4, h5]

theorem ofWire_mem_tesl (s : String) :
    (TDS2024B_Trigger_Edge_Slope.ofWire s).isSome ↔ s ∈ (["FALL", "RISE"] : List String) := by
  by_cases h1 : s = "FALL"
  · subst h1; decide
  by_cases h2 : s = "RISE"
  · subst h2; decide
  simp [TDS2024B_Trigger_Edge_Slope.ofWire, h1, h2]

theorem ofWire_mem_tesr (s : String) :
    (TDS2024B_Trigger_Edge_Source.ofWire s).isSome ↔ s ∈ (["CH1", "CH2", "CH3", "CH4", "EXT", "EXT5", "EXT10", "LINE"] : List String) := by
  by_cases h1 : s = "CH1"
  · subst h1; decide
  by_cases h2 : s = "CH2"
  · subst h2; decide
  by_cases h3 : s = "CH3"
  · subst h3; decide
  by_cases h4 : s = "CH4"
  · subst h4; decide
  by_cases h5 : s = "EXT"
  · subst h5; decide
  by_cases h6 : s = "EXT5"
  · subst h6; decide
  by_cases h7 : s = "EXT10"
  · subst h7; decide
  by_cases h8 : s = "LINE"
  · subst h8; decide
  simp [TDS2024B_Trigger_Edge_Source.ofWire, h1, h2, h3, h4, h5, h6, h7, h8]

theorem read_fail_meas_source (m : TDS2024B_Measurement) (resp : String → String)
    (hd : TDS2024B_Measurement_Source.ofWire
        (resp ("MEASU:" ++ m.id ++ ":SOURCE?")) = Option.none) :
    (m.settings_read resp).2.2 ≠ Option.none ∧ (m.settings_read resp).2.1 = m := by
  constructor <;> simp [TDS2024B_Measurement.settings_read, readField, hd]

theorem read_fail_meas_type (m : TDS2024B_Measurement) (resp : String → String)
    (hd : TDS2024B_Measurement_Type.ofWire
        (resp ("MEASU:" ++ m.id ++ ":TYPE?")) = Option.none) :
    (m.settings_read resp).2.2 ≠ Option.none ∧
      (m.settings_read resp).2.1.type = m.type := by
  rcases h1 : TDS2024B_Measurement_Source.ofWire (resp ("MEASU:" ++ m.id ++ ":SOURCE?"))
      with _ | v1 <;>
    constructor <;> simp [TDS2024B_Measurement.settings_read, readField, h1, hd]

theorem read_fail_chan_coupling (c : TDS2024B_Channel_Parameters) (resp : String → String)
    (hd : TDS2024B_Channel_Coupling.ofWire
        (resp ("CH" ++ toString c.chan ++ ":COUPLING?")) = Option.none) :
    (c.settings_read resp).2.2 ≠ Option.none ∧
      (c.settings_read resp).2.1.coupling = c.coupling := by
  constructor <;>
    simp [TDS2024B_Channel_Parameters.settings_read, TDS2024B_Channel_Parameters.read_bw_filter, TDS2024B_Channel_Parameters.read_coupling, TDS2024B_Channel_Parameters.read_invert, TDS2024B_Channel_Parameters.read_position, TDS2024B_Channel_Parameters.read_attenuation, TDS2024B_Channel_Parameters.read_scale, TDS2024B_Channel_Parameters.read_on, readField, hd]

theorem read_fail_trig_type (t : TDS2024B_Trigger_Parameters) (resp : String → String)
    (hd : TDS2024B_Trigger_Type.ofWire (resp ("TRIG:" ++ t.id ++ ":TYPE?")) = Option.none) :
    (t.settings_read resp).2.2 ≠ Option.none ∧
      (t.settings_read resp).2.1.type = t.type := by
  constructor <;> simp [TDS2024B_Trigger_Parameters.settings_read, readField, hd]

theorem read_fail_trig_mode (t : TDS2024B_Trigger_Parameters) (resp : String → String)
    (hd : TDS2024B_Trigger_Mode.ofWire (resp ("TRIG:" ++ t.id ++ ":MODE?")) = Option.none) :
    (t.settings_read resp).2.2 ≠ Option.none ∧
      (t.settings_read resp).2.1.mode = t.mode := by
  simp only [TDS2024B_Trigger_Parameters.settings_read, readField]
  rcases h1 : TDS2024B_Trigger_Type.ofWire (resp ("TRIG:" ++ t.id ++ ":TYPE?")) with _ | v1 <;>
    simp only [h1]
  · simp
  simp [hd]

theorem read_fail_trig_edge_coupling (t : TDS2024B_Trigger_Parameters) (resp : String → String)
    (hd : TDS2024B_Trigger_Edge_Coupling.ofWire (resp ("TRIG:" ++ t.id ++ ":EDGE:COUPLING?")) = Option.none) :
    (t.settings_read resp).2.2 ≠ Option.none ∧
      (t.settings_read resp).2.1.edge_coupling = t.edge_coupling := by
  simp only [TDS2024B_Trigger_Parameters.settings_read, readField]
  rcases h1 : TDS2024B_Trigger_Type.ofWire (resp ("TRIG:" ++ t.id ++ ":TYPE?")) with _ | v1 <;>
    simp only [h1]
  · simp
  rcases h2 : TDS2024B_Trigger_Mode.ofWire (resp ("TRIG:" ++ t.id ++ ":MODE?")) with _ | v2 <;>
    simp only [h2]
  · simp
  rcases h3 : parseFloat? (resp ("TRIG:" ++ t.id ++ ":LEVEL?")) with _ | v3 <;>
    simp only [h3]
  · simp
  simp [hd]

theorem read_fail_trig_edge_slope (t : TDS2024B_Trigger_Parameters) (resp : String → String)
    (hd : TDS2024B_Trigger_Edge_Slope.ofWire (resp ("TRIG:" ++ t.id ++ ":EDGE:SLOPE?")) = Option.none) :
    (t.settings_read resp).2.2 ≠ Option.none ∧
      (t.settings_read resp).2.1.edge_slope = t.edge_slope := by
  simp only [TDS2024B_Trigger_Parameters.settings_read, readField]
  rcases h1 : TDS2024B_Trigger_Type.ofWire (resp ("TRIG:" ++ t.id ++ ":TYPE?")) with _ | v1 <;>
    simp only [h1]
  · simp
  rcases h2 : TDS2024B_Trigger_Mode.ofWire (resp ("TRIG:" ++ t.id ++ ":MODE?")) with _ | v2 <;>
    simp only [h2]
  · simp
  rcases h3 : parseFloat? (resp ("TRIG:" ++ t.id ++ ":LEVEL?")) with _ | v3 <;>
    simp only [h3]
  · simp
  rcases h4 : TDS2024B_Trigger_Edge_Coupling.ofWire (resp ("TRIG:" ++ t.id ++ ":EDGE:COUPLING?")) with _ | v4 <;>
    simp only [h4]
  · simp
  simp [hd]

theorem read_fail_trig_edge_source (t : TDS2024B_Trigger_Parameters) (resp : String → String)
    (hd : TDS2024B_Trigger_Edge_Source.ofWire (resp ("TRIG:" ++ t.id ++ ":EDGE:SOURCE?")) = Option.none) :
    (t.settings_read resp).2.2 ≠ Option.none ∧
      (t.settings_read resp).2.1.edge_source = t.edge_source := by
  simp only [TDS2024B_Trigger_Parameters.settings_read, readField]
  rcases h1 : TDS2024B_Trigger_Type.ofWire (resp ("TRIG:" ++ t.id ++ ":TYPE?")) with _ | v1 <;>
    simp only [h1]
  · simp
  rcases h2 : TDS2024B_Trigger_Mode.ofWire (resp ("TRIG:" ++ t.id ++ ":MODE?")) with _ | v2 <;>
    simp only [h2]
  · simp
  rcases h3 : parseFloat? (resp ("TRIG:" ++ t.id ++ ":LEVEL?")) with _ | v3 <;>
    simp only [h3]
  · simp
  rcases h4 : TDS2024B_Trigger_Edge_Coupling.ofWire (resp ("TRIG:" ++ t.id ++ ":EDGE:COUPLING?")) with _ | v4 <;>
    simp only [h4]
  · simp
  rcases h5 : TDS2024B_Trigger_Edge_Slope.ofWire (resp ("TRIG:" ++ t.id ++ ":EDGE:SLOPE?")) with _ | v5 <;>
    simp only [h5]
  · simp
  simp [hd]

theorem load_fail_meas_source (m : TDS2024B_Measurement) (data : ConfigMapping) (s : String)
    (hl : data.lookup "source" = some (PrimVal.str s))
    (hd : TDS2024B_Measurement_Source.ofWire s = Option.none) :
    (m.settings_load data).2 ≠ Option.none ∧
      ((m.settings_load data).1).source = m.source := by
  have hty : lookupNonNull data "source" = some (PrimVal.str s) := by
    unfold lookupNonNull
    rw [hl]
  constructor <;>
    simp [TDS2024B_Measurement.settings_load, TDS2024B_Measurement.load_source, TDS2024B_Measurement.load_type,
      loadField, hty, decodeVia, hd]

theorem load_fail_meas_type (m : TDS2024B_Measurement) (data : ConfigMapping) (s : String)
    (hl : data.lookup "type" = some (PrimVal.str s))
    (hd : TDS2024B_Measurement_Type.ofWire s = Option.none) :
    (m.settings_load data).2 ≠ Option.none ∧
      ((m.settings_load data).1).type = m.type := by
  have hty : lookupNonNull data "type" = some (PrimVal.str s) := by
    unfold lookupNonNull
    rw [hl]
  rcases hls : TDS2024B_Measurement.load_source (m, Option.none) data with ⟨m1, e1⟩
  have htype : m1.type = m.type := by
    have hp := TDS2024B_Measurement.load_source_pres_type (m, Option.none) data
    rw [hls] at hp
    exact hp
  cases e1
  · constructor <;>
      simp [TDS2024B_Measurement.settings_load, TDS2024B_Measurement.load_type, loadField, hls, hty, decodeVia, hd, htype]
  · constructor <;>
      simp [TDS2024B_Measurement.settings_load, TDS2024B_Measurement.load_type, loadField, hls, htype]

theorem load_fail_chan_coupling (c : TDS2024B_Channel_Parameters) (data : ConfigMapping) (s : String)
    (hl : data.lookup "coupling" = some (PrimVal.str s))
    (hd : TDS2024B_Channel_Coupling.ofWire s = Option.none) :
    (c.settings_load data).2 ≠ Option.none ∧
      ((c.settings_load data).1).coupling = c.coupling := by
  have hty : lookupNonNull data "coupling" = some (PrimVal.str s) := by
    unfold lookupNonNull
    rw [hl]
  rcases hb : lookupNonNull data "bw_filter" with _ | vb <;>
    constructor <;>
      simp [TDS2024B_Channel_Parameters.settings_load, TDS2024B_Channel_Parameters.load_bw_filter, TDS2024B_Channel_Parameters.load_coupling, TDS2024B_Channel_Parameters.load_invert, TDS2024B_Channel_Parameters.load_position, TDS2024B_Channel_Parameters.load_attenuation, TDS2024B_Channel_Parameters.load_scale, TDS2024B_Channel_Parameters.load_on,
        loadField, hb, hty, decodeVia, hd]

theorem load_fail_trig_type (t : TDS2024B_Trigger_Parameters) (data : ConfigMapping) (s : String)
    (hl : data.lookup "type" = some (PrimVal.str s))
    (hd : TDS2024B_Trigger_Type.ofWire s = Option.none) :
    (t.settings_load data).2 ≠ Option.none ∧
      ((t.settings_load data).1).type = t.type := by
  have hty : lookupNonNull data "type" = some (PrimVal.str s) := by
    unfold lookupNonNull
    rw [hl]
  constructor <;>
    simp [TDS2024B_Trigger_Parameters.settings_load, TDS2024B_Trigger_Parameters.load_type, TDS2024B_Trigger_Parameters.load_mode, TDS2024B_Trigger_Parameters.load_level, TDS2024B_Trigger_Parameters.load_edge_coupling, TDS2024B_Trigger_Parameters.load_edge_slope, TDS2024B_Trigger_Parameters.load_edge_source, loadField, hty, decodeVia, hd]

theorem load_fail_trig_mode (t : TDS2024B_Trigger_Parameters) (data : ConfigMapping) (s : String)
    (hl : data.lookup "mode" = some (PrimVal.str s))
    (hd : TDS2024B_Trigger_Mode.ofWire s = Option.none) :
    (t.settings_load data).2 ≠ Option.none ∧
      ((t.settings_load data).1).mode = t.mode := by
  have hty : lookupNonNull data "mode" = some (PrimVal.str s) := by
    unfold lookupNonNull
    rw [hl]
  rcases hls : (TDS2024B_Trigger_Parameters.load_type (t, Option.none) data) with ⟨t1, e1⟩
  have hp : t1.mode = t.mode := by
    have h0 : (((TDS2024B_Trigger_Parameters.load_type (t, Option.none) data)).1).mode = t.mode := by
      simp only [TDS2024B_Trigger_Parameters.load_type_pres_mode]
    rw [hls] at h0
    exact h0
  cases e1
  · constructor <;>
      simp [TDS2024B_Trigger_Parameters.settings_load, TDS2024B_Trigger_Parameters.load_mode, TDS2024B_Trigger_Parameters.load_level, TDS2024B_Trigger_Parameters.load_edge_coupling, TDS2024B_Trigger_Parameters.load_edge_slope, TDS2024B_Trigger_Parameters.load_edge_source, loadField, hls, hty, decodeVia, hd, hp]
  · constructor <;>
      simp [TDS2024B_Trigger_Parameters.settings_load, TDS2024B_Trigger_Parameters.load_mode, TDS2024B_Trigger_Parameters.load_level, TDS2024B_Trigger_Parameters.load_edge_coupling, TDS2024B_Trigger_Parameters.load_edge_slope, TDS2024B_Trigger_Parameters.load_edge_source, loadField, hls, hp]

theorem load_fail_trig_edge_coupling (t : TDS2024B_Trigger_Parameters) (data : ConfigMapping) (s : String)
    (hl : data.lookup "edge_coupling" = some (PrimVal.str s))
    (hd : TDS2024B_Trigger_Edge_Coupling.ofWire s = Option.none) :
    (t.settings_load data).2 ≠ Option.none ∧
      ((t.settings_load data).1).edge_coupling = t.edge_coupling := by
  have hty : lookupNonNull data "edge_coupling" = some (PrimVal.str s) := by
    unfold lookupNonNull
    rw [hl]
  rcases hls : (TDS2024B_Trigger_Parameters.load_level (TDS2024B_Trigger_Parameters.load_mode (TDS2024B_Trigger_Parameters.load_type (t, Option.none) data) data) data) with ⟨t1, e1⟩
  have hp : t1.edge_coupling = t.edge_coupling := by
    have h0 : (((TDS2024B_Trigger_Parameters.load_level (TDS2024B_Trigger_Parameters.load_mode (TDS2024B_Trigger_Parameters.load_type (t, Option.none) data) data) data)).1).edge_coupling = t.edge_coupling := by
      simp only [TDS2024B_Trigger_Parameters.load_type_pres_edge_coupling,
        TDS2024B_Trigger_Parameters.load_mode_pres_edge_coupling,
        TDS2024B_Trigger_Parameters.load_level_pres_edge_coupling]
    rw [hls] at h0
    exact h0
  cases e1
  · constructor <;>
      simp [TDS2024B_Trigger_Parameters.settings_load, TDS2024B_Trigger_Parameters.load_edge_coupling, TDS2024B_Trigger_Parameters.load_edge_slope, TDS2024B_Trigger_Parameters.load_edge_source, loadField, hls, hty, decodeVia, hd, hp]
  · constructor <;>
      simp [TDS2024B_Trigger_Parameters.settings_load, TDS2024B_Trigger_Parameters.load_edge_coupling, TDS2024B_Trigger_Parameters.load_edge_slope, TDS2024B_Trigger_Parameters.load_edge_source, loadField, hls, hp]

theorem load_fail_trig_edge_slope (t : TDS2024B_Trigger_Parameters) (data : ConfigMapping) (s : String)
    (hl : data.lookup "edge_slope" = some (PrimVal.str s))
    (hd : TDS2024B_Trigger_Edge_Slope.ofWire s = Option.none) :
    (t.settings_load data).2 ≠ Option.none ∧
      ((t.settings_load data).1).edge_slope = t.edge_slope := by
  have hty : lookupNonNull data "edge_slope" = some (PrimVal.str s) := by
    unfold lookupNonNull
    rw [hl]
  rcases hls : (TDS2024B_Trigger_Parameters.load_edge_coupling (TDS2024B_Trigger_Parameters.load_level (TDS2024B_Trigger_Parameters.load_mode (TDS2024B_Trigger_Parameters.load_type (t, Option.none) data) data) data) data) with ⟨t1, e1⟩
  have hp : t1.edge_slope = t.edge_slope := by
    have h0 : (((TDS2024B_Trigger_Parameters.load_edge_coupling (TDS2024B_Trigger_Parameters.load_level (TDS2024B_Trigger_Parameters.load_mode (TDS2024B_Trigger_Parameters.load_type (t, Option.none) data) data) data) data)).1).edge_slope = t.edge_slope := by
      simp only [TDS2024B_Trigger_Parameters.load_type_pres_edge_slope,
        TDS2024B_Trigger_Parameters.load_mode_pres_edge_slope,
        TDS2024B_Trigger_Parameters.load_level_pres_edge_slope,
        TDS2024B_Trigger_Parameters.load_edge_coupling_pres_edge_slope]
    rw [hls] at h0
    exact h0
  cases e1
  · constructor <;>
      simp [TDS2024B_Trigger_Parameters.settings_load, TDS2024B_Trigger_Parameters.load_edge_slope, TDS2024B_Trigger_Parameters.load_edge_source, loadField, hls, hty, decodeVia, hd, hp]
  · constructor <;>
      simp [TDS2024B_Trigger_Parameters.settings_load, TDS2024B_Trigger_Parameters.load_edge_slope, TDS2024B_Trigger_Parameters.load_edge_source, loadField, hls, hp]

theorem load_fail_trig_edge_source (t : TDS2024B_Trigger_Parameters) (data : ConfigMapping) (s : String)
    (hl : data.lookup "edge_source" = some (PrimVal.str s))
    (hd : TDS2024B_Trigger_Edge_Source.ofWire s = Option.none) :
    (t.settings_load data).2 ≠ Option.none ∧
      ((t.settings_load data).1).edge_source = t.edge_source := by
  have hty : lookupNonNull data "edge_source" = some (PrimVal.str s) := by
    unfold lookupNonNull
    rw [hl]
  rcases hls : (TDS2024B_Trigger_Parameters.load_edge_slope (TDS2024B_Trigger_Parameters.load_edge_coupling (TDS2024B_Trigger_Parameters.load_level (TDS2024B_Trigger_Parameters.load_mode (TDS2024B_Trigger_Parameters.load_type (t, Option.none) data) data) data) data) data) with ⟨t1, e1⟩
  have hp : t1.edge_source = t.edge_source := by
    have h0 : (((TDS2024B_Trigger_Parameters.load_edge_slope (TDS2024B_Trigger_Parameters.load_edge_coupling (TDS2024B_Trigger_Parameters.load_level (TDS2024B_Trigger_Parameters.load_mode (TDS2024B_Trigger_Parameters.load_type (t, Option.none) data) data) data) data) data)).1).edge_source = t.edge_source := by
      simp only [TDS2024B_Trigger_Parameters.load_type_pres_edge_source,
        TDS2024B_Trigger_Parameters.load_mode_pres_edge_source,
        TDS2024B_Trigger_Parameters.load_level_pres_edge_source,
        TDS2024B_Trigger_Parameters.load_edge_coupling_pres_edge_source,
        TDS2024B_Trigger_Parameters.load_edge_slope_pres_edge_source]
    rw [hls] at h0
    exact h0
  cases e1
  · constructor <;>
      simp [TDS2024B_Trigger_Parameters.settings_load, TDS2024B_Trigger_Parameters.load_edge_source, loadField, hls, hty, decodeVia, hd, hp]
  · constructor <;>
      simp [TDS2024B_Trigger_Parameters.settings_load, TDS2024B_Trigger_Parameters.load_edge_source, loadField, hls, hp]

/-- C7: for every enumerated setting of the TDS2024B driver — measurement
source and type, channel coupling, trigger type, mode, edge coupling, edge
slope and edge source — decoding succeeds exactly on that enumeration's
closed set of known wire strings, so every valid wire string resolves to
exactly one named member and everything else is rejected; and for every
enum-decoded field, an unrecognized device response during `settings_read`,
or an unrecognized string under the field's key during `settings_load`, is
a hard failure (an error is raised) that leaves the field untouched — it is
never silently assigned a default value. -/
theorem C7_theorem :
    (∀ s : String, (TDS2024B_Measurement_Source.ofWire s).isSome ↔
      s ∈ (["CH1", "CH2", "CH3", "CH4", "MATH"] : List String)) ∧
    (∀ s : String, (TDS2024B_Measurement_Type.ofWire s).isSome ↔
      s ∈ (["NONE", "CRMS", "FALL", "RISE", "MAXI", "MINI", "MAXIMUM", "MINIMUM", "PERIOD", "FREQUENCY", "MEAN", "NWIDTH", "PWIDTH", "PK2PK"] : List String)) ∧
    (∀ s : String, (TDS2024B_Channel_Coupling.ofWire s).isSome ↔
      s ∈ (["AC", "DC", "GND"] : List String)) ∧
    (∀ s : String, (TDS2024B_Trigger_Type.ofWire s).isSome ↔
      s ∈ (["EDGE", "VID", "PUL"] : List String)) ∧
    (∀ s : String, (TDS2024B_Trigger_Mode.ofWire s).isSome ↔
      s ∈ (["AUTO", "NORMAL"] : List String)) ∧
    (∀ s : String, (TDS2024B_Trigger_Edge_Coupling.ofWire s).isSome ↔
      s ∈ (["AC", "DC", "HFREJ", "LFREJ", "NOISEREJ"] : List String)) ∧
    (∀ s : String, (TDS2024B_Trigger_Edge_Slope.ofWire s).isSome ↔
      s ∈ (["FALL", "RISE"] : List String)) ∧
    (∀ s : String, (TDS2024B_Trigger_Edge_Source.ofWire s).isSome ↔
      s ∈ (["CH1", "CH2", "CH3", "CH4", "EXT", "EXT5", "EXT10", "LINE"] : List String)) ∧
    (∀ (m : TDS2024B_Measurement) (resp : String → String),
      TDS2024B_Measurement_Source.ofWire
          (resp ("MEASU:" ++ m.id ++ ":SOURCE?")) = Option.none →
        (m.settings_read resp).2.2 ≠ Option.none ∧ (m.settings_read resp).2.1 = m) ∧
    (∀ (m : TDS2024B_Measurement) (resp : String → String),
      TDS2024B_Measurement_Type.ofWire
          (resp ("MEASU:" ++ m.id ++ ":TYPE?")) = Option.none →
        (m.settings_read resp).2.2 ≠ Option.none ∧
          (m.settings_read resp).2.1.type = m.type) ∧
    (∀ (c : TDS2024B_Channel_Parameters) (resp : String → String),
      TDS2024B_Channel_Coupling.ofWire
          (resp ("CH" ++ toString c.chan ++ ":COUPLING?")) = Option.none →
        (c.settings_read resp).2.2 ≠ Option.none ∧
          (c.settings_read resp).2.1.coupling = c.coupling) ∧
    (∀ (t : TDS2024B_Trigger_Parameters) (resp : String → String),
      TDS2024B_Trigger_Type.ofWire (resp ("TRIG:" ++ t.id ++ ":TYPE?")) = Option.none →
        (t.settings_read resp).2.2 ≠ Option.none ∧
          (t.settings_read resp).2.1.type = t.type) ∧
    (∀ (t : TDS2024B_Trigger_Parameters) (resp : String → String),
      TDS2024B_Trigger_Mode.ofWire (resp ("TRIG:" ++ t.id ++ ":MODE?")) = Option.none →
        (t.settings_read resp).2.2 ≠ Option.none ∧
          (t.settings_read resp).2.1.mode = t.mode) ∧
    (∀ (t : TDS2024B_Trigger_Parameters) (resp : String → String),
      TDS2024B_Trigger_Edge_Coupling.ofWire (resp ("TRIG:" ++ t.id ++ ":EDGE:COUPLING?")) = Option.none →
        (t.settings_read resp).2.2 ≠ Option.none ∧
          (t.settings_read resp).2.1.edge_coupling = t.edge_coupling) ∧
    (∀ (t : TDS2024B_Trigger_Parameters) (resp : String → String),
      TDS2024B_Trigger_Edge_Slope.ofWire (resp ("TRIG:" ++ t.id ++ ":EDGE:SLOPE?")) = Option.none →
        (t.settings_read resp).2.2 ≠ Option.none ∧
          (t.settings_read resp).2.1.edge_slope = t.edge_slope) ∧
    (∀ (t : TDS2024B_Trigger_Parameters) (resp : String → String),
      TDS2024B_Trigger_Edge_Source.ofWire (resp ("TRIG:" ++ t.id ++ ":EDGE:SOURCE?")) = Option.none →
        (t.settings_read resp).2.2 ≠ Option.none ∧
          (t.settings_read resp).2.1.edge_source = t.edge_source) ∧
    (∀ (m : TDS2024B_Measurement) (data : ConfigMapping) (s : String),
      data.lookup "source" = some (PrimVal.str s) →
      TDS2024B_Measurement_Source.ofWire s = Option.none →
        (m.settings_load data).2 ≠ Option.none ∧
          ((m.settings_load data).1).source = m.source) ∧
    (∀ (m : TDS2024B_Measurement) (data : ConfigMapping) (s : String),
      data.lookup "type" = some (PrimVal.str s) →
      TDS2024B_Measurement_Type.ofWire s = Option.none →
        (m.settings_load data).2 ≠ Option.none ∧
          ((m.settings_load data).1).type = m.type) ∧
    (∀ (c : TDS2024B_Channel_Parameters) (data : ConfigMapping) (s : String),
      data.lookup "coupling" = some (PrimVal.str s) →
      TDS2024B_Channel_Coupling.ofWire s = Option.none →
        (c.settings_load data).2 ≠ Option.none ∧
          ((c.settings_load data).1).coupling = c.coupling) ∧
    (∀ (t : TDS2024B_Trigger_Parameters) (data : ConfigMapping) (s : String),
      data.lookup "type" = some (PrimVal.str s) →
      TDS2024B_Trigger_Type.ofWire s = Option.none →
        (t.settings_load data).2 ≠ Option.none ∧
          ((t.settings_load data).1).type = t.type) ∧
    (∀ (t : TDS2024B_Trigger_Parameters) (data : ConfigMapping) (s : String),
      data.lookup "mode" = some (PrimVal.str s) →
      TDS2024B_Trigger_Mode.ofWire s = Option.none →
        (t.settings_load data).2 ≠ Option.none ∧
          ((t.settings_load data).1).mode = t.mode) ∧
    (∀ (t : TDS2024B_Trigger_Parameters) (data : ConfigMapping) (s : String),
      data.lookup "edge_coupling" = some (PrimVal.str s) →
      TDS2024B_Trigger_Edge_Coupling.ofWire s = Option.none →
        (t.settings_load data).2 ≠ Option.none ∧
          ((t.settings_load data).1).edge_coupling = t.edge_coupling) ∧
    (∀ (t : TDS2024B_Trigger_Parameters) (data : ConfigMapping) (s : String),
      data.lookup "edge_slope" = some (PrimVal.str s) →
      TDS2024B_Trigger_Edge_Slope.ofWire s = Option.none →
        (t.settings_load data).2 ≠ Option.none ∧
          ((t.settings_load data).1).edge_slope = t.edge_slope) ∧
    (∀ (t : TDS2024B_Trigger_Parameters) (data : ConfigMapping) (s : String),
      data.lookup "edge_source" = some (PrimVal.str s) →
      TDS2024B_Trigger_Edge_Source.ofWire s = Option.none →
        (t.settings_load data).2 ≠ Option.none ∧
          ((t.settings_load data).1).edge_source = t.edge_source) := by
  exact ⟨ofWire_mem_msrc, ofWire_mem_mtyp, ofWire_mem_ccpl, ofWire_mem_ttyp, ofWire_mem_tmod, ofWire_mem_tecp, ofWire_mem_tesl, ofWire_mem_tesr, read_fail_meas_source, read_fail_meas_type, read_fail_chan_coupling, read_fail_trig_type, read_fail_trig_mode, read_fail_trig_edge_coupling, read_fail_trig_edge_slope, read_fail_trig_edge_source, load_fail_meas_source, load_fail_meas_type, load_fail_chan_coupling, load_fail_trig_type, load_fail_trig_mode, load_fail_trig_edge_coupling, load_fail_trig_edge_slope, load_fail_trig_edge_source⟩

/-- C7 (witness): gibberish responses make the measurement, channel and
trigger reads fail hard with the enum fields untouched, and loading unknown
enum strings fails hard with the fields left unset. -/
theorem C7_witness :
    ((TDS2024B_Measurement.construct "MEAS1").settings_read
        (fun _ => "GIBBERISH")).2.2 ≠ Option.none ∧
    ((TDS2024B_Measurement.construct "MEAS1").settings_load
        [("type", PrimVal.str "XYZ")]).2 ≠ Option.none ∧
    (((TDS2024B_Measurement.construct "MEAS1").settings_load
        [("type", PrimVal.str "XYZ")]).1).type = Option.none ∧
    ((TDS2024B_Channel_Parameters.construct 2).settings_read (fun _ => "NOPE")).2.2 ≠ Option.none ∧
    (((TDS2024B_Channel_Parameters.construct 2).settings_read (fun _ => "NOPE")).2.1).coupling = Option.none ∧
    ((TDS2024B_Trigger_Parameters.construct "MAIN").settings_read (fun _ => "NOPE")).2.2 ≠ Option.none ∧
    ((TDS2024B_Trigger_Parameters.construct "MAIN").settings_load
        [("edge_slope", PrimVal.str "WEIRD")]).2 ≠ Option.none ∧
    (((TDS2024B_Trigger_Parameters.construct "MAIN").settings_load
        [("edge_slope", PrimVal.str "WEIRD")]).1).edge_slope = Option.none := by
  obtain ⟨m1, m2, m3, m4, m5, m6, m7, m8, r1, r2, r3, r4, r5, r6, r7, r8,
    l1, l2, l3, l4, l5, l6, l7, l8⟩ := C7_theorem
  refine ⟨(r1 _ _ (by rfl)).1, (l2 _ _ "XYZ" (by rfl) (by rfl)).1, ?_,
    (r3 _ _ (by rfl)).1, ?_, (r4 _ _ (by rfl)).1,
    (l7 _ _ "WEIRD" (by rfl) (by rfl)).1, ?_⟩
  · exact (l2 _ _ "XYZ" (by rfl) (by rfl)).2
  · exact (r3 _ _ (by rfl)).2
  · exact (l7 _ _ "WEIRD" (by rfl) (by rfl)).2

theorem loadEnt_absent {σ : Type} (st : σ × Option String)
    (f : σ → ConfigMapping → σ × Option String) :
    loadEnt st Option.none f = st := by
  unfold loadEnt
  split <;> rfl

theorem TDS2024B_Interface_State.load_horizontal_main_pres_trigger
    (st : TDS2024B_Interface_State × Option String) (data : List (String × ConfigMapping)) :
    ((TDS2024B_Interface_State.load_horizontal_main st data).1).trigger = (st.1).trigger := by
  exact loadEnt_pres st _ _ (fun s => s.trigger) (fun s d => rfl)

theorem TDS2024B_Interface_State.load_horizontal_delay_pres_trigger
    (st : TDS2024B_Interface_State × Option String) (data : List (String × ConfigMapping)) :
    ((TDS2024B_Interface_State.load_horizontal_delay st data).1).trigger = (st.1).trigger := by
  exact loadEnt_pres st _ _ (fun s => s.trigger) (fun s d => rfl)

theorem TDS2024B_Interface_State.load_ch1_pres_trigger
    (st : TDS2024B_Interface_State × Option String) (data : List (String × ConfigMapping)) :
    ((TDS2024B_Interface_State.load_ch1 st data).1).trigger = (st.1).trigger := by
  exact loadEnt_pres st _ _ (fun s => s.trigger) (fun s d => rfl)

theorem TDS2024B_Interface_State.load_mes1_pres_trigger
    (st : TDS2024B_Interface_State × Option String) (data : List (String × ConfigMapping)) :
    ((TDS2024B_Interface_State.load_mes1 st data).1).trigger = (st.1).trigger := by
  exact loadEnt_pres st _ _ (fun s => s.trigger) (fun s d => rfl)

theorem TDS2024B_Interface_State.load_ch2_pres_trigger
    (st : TDS2024B_Interface_State × Option String) (data : List (String × ConfigMapping)) :
    ((TDS2024B_Interface_State.load_ch2 st data).1).trigger = (st.1).trigger := by
  exact loadEnt_pres st _ _ (fun s => s.trigger) (fun s d => rfl)

theorem TDS2024B_Interface_State.load_mes2_pres_trigger
    (st : TDS2024B_Interface_State × Option String) (data : List (String × ConfigMapping)) :
    ((TDS2024B_Interface_State.load_mes2 st data).1).trigger = (st.1).trigger := by
  exact loadEnt_pres st _ _ (fun s => s.trigger) (fun s d => rfl)

theorem TDS2024B_Interface_State.load_ch3_pres_trigger
    (st : TDS2024B_Interface_State × Option String) (data : List (String × ConfigMapping)) :
    ((TDS2024B_Interface_State.load_ch3 st data).1).trigger = (st.1).trigger := by
  exact loadEnt_pres st _ _ (fun s => s.trigger) (fun s d => rfl)

theorem TDS2024B_Interface_State.load_mes3_pres_trigger
    (st : TDS2024B_Interface_State × Option String) (data : List (String × ConfigMapping)) :
    ((TDS2024B_Interface_State.load_mes3 st data).1).trigger = (st.1).trigger := by
  exact loadEnt_pres st _ _ (fun s => s.trigger) (fun s d => rfl)

theorem TDS2024B_Interface_State.load_ch4_pres_trigger
    (st : TDS2024B_Interface_State × Option String) (data : List (String × ConfigMapping)) :
    ((TDS2024B_Interface_State.load_ch4 st data).1).trigger = (st.1).trigger := by
  exact loadEnt_pres st _ _ (fun s => s.trigger) (fun s d => rfl)

theorem TDS2024B_Interface_State.load_mes4_pres_trigger
    (st : TDS2024B_Interface_State × Option String) (data : List (String × ConfigMapping)) :
    ((TDS2024B_Interface_State.load_mes4 st data).1).trigger = (st.1).trigger := by
  exact loadEnt_pres st _ _ (fun s => s.trigger) (fun s d => rfl)

theorem TDS2024B_Interface_State.load_mes_imm_pres_trigger
    (st : TDS2024B_Interface_State × Option String) (data : List (String × ConfigMapping)) :
    ((TDS2024B_Interface_State.load_mes_imm st data).1).trigger = (st.1).trigger := by
  exact loadEnt_pres st _ _ (fun s => s.trigger) (fun s d => rfl)

/-- C6: for every Settings Entity kind and every configuration mapping, a
field whose key is absent from the mapping or mapped to null is left
untouched by `settings_load` (merge semantics); loading the empty mapping is
the identity for every entity and for the whole interface, and the
group-level load leaves an entity alone when its entity key is absent. -/
theorem C6_theorem :
    (∀ (t : TDS2024B_Trigger_Parameters) (data : ConfigMapping),
      lookupNonNull data "type" = Option.none →
        ((t.settings_load data).1).type = t.type) ∧
    (∀ (t : TDS2024B_Trigger_Parameters) (data : ConfigMapping),
      lookupNonNull data "mode" = Option.none →
        ((t.settings_load data).1).mode = t.mode) ∧
    (∀ (t : TDS2024B_Trigger_Parameters) (data : ConfigMapping),
      lookupNonNull data "level" = Option.none →
        ((t.settings_load data).1).level = t.level) ∧
    (∀ (t : TDS2024B_Trigger_Parameters) (data : ConfigMapping),
      lookupNonNull data "edge_coupling" = Option.none →
        ((t.settings_load data).1).edge_coupling = t.edge_coupling) ∧
    (∀ (t : TDS2024B_Trigger_Parameters) (data : ConfigMapping),
      lookupNonNull data "edge_slope" = Option.none →
        ((t.settings_load data).1).edge_slope = t.edge_slope) ∧
    (∀ (t : TDS2024B_Trigger_Parameters) (data : ConfigMapping),
      lookupNonNull data "edge_source" = Option.none →
        ((t.settings_load data).1).edge_source = t.edge_source) ∧
    (∀ (c : TDS2024B_Channel_Parameters) (data : ConfigMapping),
      lookupNonNull data "bw_filter" = Option.none →
        ((c.settings_load data).1).bw_filter = c.bw_filter) ∧
    (∀ (c : TDS2024B_Channel_Parameters) (data : ConfigMapping),
      lookupNonNull data "coupling" = Option.none →
        ((c.settings_load data).1).coupling = c.coupling) ∧
    (∀ (c : TDS2024B_Channel_Parameters) (data : ConfigMapping),
      lookupNonNull data "invert" = Option.none →
        ((c.settings_load data).1).invert = c.invert) ∧
    (∀ (c : TDS2024B_Channel_Parameters) (data : ConfigMapping),
      lookupNonNull data "position" = Option.none →
        ((c.settings_load data).1).position = c.position) ∧
    (∀ (c : TDS2024B_Channel_Parameters) (data : ConfigMapping),
      lookupNonNull data "attenuation" = Option.none →
        ((c.settings_load data).1).attenuation = c.attenuation) ∧
    (∀ (c : TDS2024B_Channel_Parameters) (data : ConfigMapping),
      lookupNonNull data "scale" = Option.none →
        ((c.settings_load data).1).scale = c.scale) ∧
    (∀ (c : TDS2024B_Channel_Parameters) (data : ConfigMapping),
      lookupNonNull data "on" = Option.none →
        ((c.settings_load data).1).«on» = c.«on») ∧
    (∀ (hz : TDS2024B_Horizontal_Parameters) (data : ConfigMapping),
      lookupNonNull data "pos" = Option.none →
        ((hz.settings_load data).1).pos = hz.pos) ∧
    (∀ (hz : TDS2024B_Horizontal_Parameters) (data : ConfigMapping),
      lookupNonNull data "scale" = Option.none →
        ((hz.settings_load data).1).scale = hz.scale) ∧
    (∀ (m : TDS2024B_Measurement) (data : ConfigMapping),
      lookupNonNull data "source" = Option.none →
        ((m.settings_load data).1).source = m.source) ∧
    (∀ (m : TDS2024B_Measurement) (data : ConfigMapping),
      lookupNonNull data "type" = Option.none →
        ((m.settings_load data).1).type = m.type) ∧
    (∀ t : TDS2024B_Trigger_Parameters, t.settings_load [] = (t, Option.none)) ∧
    (∀ c : TDS2024B_Channel_Parameters, c.settings_load [] = (c, Option.none)) ∧
    (∀ hz : TDS2024B_Horizontal_Parameters, hz.settings_load [] = (hz, Option.none)) ∧
    (∀ m : TDS2024B_Measurement, m.settings_load [] = (m, Option.none)) ∧
    (∀ st : TDS2024B_Interface_State,
      st.settings_load [] = (st, Option.none)) ∧
    (∀ (st : TDS2024B_Interface_State) (data : List (String × ConfigMapping)),
      data.lookup "trigger" = Option.none →
        ((st.settings_load data).1).trigger = st.trigger) := by
  refine ⟨TDS2024B_Trigger_Parameters.settings_load_absent_type_trig,
    TDS2024B_Trigger_Parameters.settings_load_absent_mode,
    TDS2024B_Trigger_Parameters.settings_load_absent_level,
    TDS2024B_Trigger_Parameters.settings_load_absent_edge_coupling,
    TDS2024B_Trigger_Parameters.settings_load_absent_edge_slope,
    TDS2024B_Trigger_Parameters.settings_load_absent_edge_source,
    TDS2024B_Channel_Parameters.settings_load_absent_bw_filter,
    TDS2024B_Channel_Parameters.settings_load_absent_coupling,
    TDS2024B_Channel_Parameters.settings_load_absent_invert,
    TDS2024B_Channel_Parameters.settings_load_absent_position,
    TDS2024B_Channel_Parameters.settings_load_absent_attenuation,
    TDS2024B_Channel_Parameters.settings_load_absent_scale_chan,
    TDS2024B_Channel_Parameters.settings_load_absent_on,
    TDS2024B_Horizontal_Parameters.settings_load_absent_pos,
    TDS2024B_Horizontal_Parameters.settings_load_absent_scale_hor,
    TDS2024B_Measurement.settings_load_absent_source,
    TDS2024B_Measurement.settings_load_absent_type_mes,
    fun t => rfl, fun c => rfl, fun hz => rfl, fun m => rfl, fun st => rfl, ?_⟩
  intro st data h
  simp only [TDS2024B_Interface_State.settings_load,
    TDS2024B_Interface_State.load_mes_imm_pres_trigger,
    TDS2024B_Interface_State.load_mes4_pres_trigger,
    TDS2024B_Interface_State.load_ch4_pres_trigger,
    TDS2024B_Interface_State.load_mes3_pres_trigger,
    TDS2024B_Interface_State.load_ch3_pres_trigger,
    TDS2024B_Interface_State.load_mes2_pres_trigger,
    TDS2024B_Interface_State.load_ch2_pres_trigger,
    TDS2024B_Interface_State.load_mes1_pres_trigger,
    TDS2024B_Interface_State.load_ch1_pres_trigger,
    TDS2024B_Interface_State.load_horizontal_delay_pres_trigger,
    TDS2024B_Interface_State.load_horizontal_main_pres_trigger]
  unfold TDS2024B_Interface_State.load_trigger
  rw [h, loadEnt_absent]

def tC6 : TDS2024B_Trigger_Parameters :=
  { id := "MAIN", type := Option.none, mode := Option.none, level := some 5,
    edge_coupling := Option.none, edge_slope := Option.none, edge_source := Option.none }

/-- C6 (witness): an entity with `level = 5` keeps `level = 5` after loading
the empty mapping. -/
theorem C6_witness : ((tC6.settings_load []).1).level = some 5 := by
  obtain ⟨_, _, hlevel, _⟩ := C6_theorem
  exact (hlevel tC6 [] (by rfl)).trans rfl

set_option maxHeartbeats 2000000 in
/-- C3: the `synchronized` flag starts false at interface construction;
a group `settings_read` or `settings_write` sets it true exactly when the
whole pass completes without error, leaves it unchanged (hence false) when
any entity fails mid-sequence — with the entities processed before the
failure already refreshed (shown here for the trigger, the first entity)
— and the group `settings_load` never touches the flag. -/
theorem C3_theorem :
    TDS2024B_Interface.construct.synchronized = false ∧
    (∀ (st : TDS2024B_Interface_State) (resp : String → String),
      (st.settings_read resp).2.2 = Option.none →
        (st.settings_read resp).2.1.synchronized = true) ∧
    (∀ (st : TDS2024B_Interface_State) (resp : String → String) (e : String),
      (st.settings_read resp).2.2 = some e →
        (st.settings_read resp).2.1.synchronized = st.synchronized) ∧
    (∀ st : TDS2024B_Interface_State,
      (st.settings_write).2.2 = Option.none →
        (st.settings_write).2.1.synchronized = true) ∧
    (∀ (st : TDS2024B_Interface_State) (e : String),
      (st.settings_write).2.2 = some e →
        (st.settings_write).2.1.synchronized = st.synchronized) ∧
    (∀ (st : TDS2024B_Interface_State) (data : List (String × ConfigMapping)),
      ((st.settings_load data).1).synchronized = st.synchronized) ∧
    (∀ (st : TDS2024B_Interface_State) (resp : String → String)
        (q : List String) (t : TDS2024B_Trigger_Parameters),
      st.trigger.settings_read resp = (q, t, Option.none) →
        (st.settings_read resp).2.1.trigger = t) := by
  refine ⟨rfl, ?_, ?_, ?_, ?_, ?_, ?_⟩
  · intro st resp h
    unfold TDS2024B_Interface_State.settings_read at h ⊢
    exact finishSync_sync_of_none _ h
  · intro st resp e h
    unfold TDS2024B_Interface_State.settings_read at h ⊢
    rw [finishSync_state_of_some _ e h]
    simp only [TDS2024B_Interface_State.read_mes_imm_pres_sync,
      TDS2024B_Interface_State.read_mes4_pres_sync,
      TDS2024B_Interface_State.read_mes3_pres_sync,
      TDS2024B_Interface_State.read_mes2_pres_sync,
      TDS2024B_Interface_State.read_mes1_pres_sync,
      TDS2024B_Interface_State.read_ch4_pres_sync,
      TDS2024B_Interface_State.read_ch3_pres_sync,
      TDS2024B_Interface_State.read_ch2_pres_sync,
      TDS2024B_Interface_State.read_ch1_pres_sync,
      TDS2024B_Interface_State.read_horizontal_delay_pres_sync,
      TDS2024B_Interface_State.read_horizontal_main_pres_sync,
      TDS2024B_Interface_State.read_trigger_pres_sync]
  · intro st h
    unfold TDS2024B_Interface_State.settings_write at h ⊢
    exact finishSync_sync_of_none _ h
  · intro st e h
    unfold TDS2024B_Interface_State.settings_write at h ⊢
    rw [finishSync_state_of_some _ e h]
    simp only [TDS2024B_Interface_State.write_mes_imm_pres_sync,
      TDS2024B_Interface_State.write_mes4_pres_sync,
      TDS2024B_Interface_State.write_mes3_pres_sync,
      TDS2024B_Interface_State.write_mes2_pres_sync,
      TDS2024B_Interface_State.write_mes1_pres_sync,
      TDS2024B_Interface_State.write_ch4_pres_sync,
      TDS2024B_Interface_State.write_ch3_pres_sync,
      TDS2024B_Interface_State.write_ch2_pres_sync,
      TDS2024B_Interface_State.write_ch1_pres_sync,
      TDS2024B_Interface_State.write_horizontal_delay_pres_sync,
      TDS2024B_Interface_State.write_horizontal_main_pres_sync,
      TDS2024B_Interface_State.write_trigger_pres_sync]
  · intro st data
    simp only [TDS2024B_Interface_State.settings_load,
      TDS2024B_Interface_State.load_mes_imm_pres_sync,
      TDS2024B_Interface_State.load_mes4_pres_sync,
      TDS2024B_Interface_State.load_ch4_pres_sync,
      TDS2024B_Interface_State.load_mes3_pres_sync,
      TDS2024B_Interface_State.load_ch3_pres_sync,
      TDS2024B_Interface_State.load_mes2_pres_sync,
      TDS2024B_Interface_State.load_ch2_pres_sync,
      TDS2024B_Interface_State.load_mes1_pres_sync,
      TDS2024B_Interface_State.load_ch1_pres_sync,
      TDS2024B_Interface_State.load_horizontal_delay_pres_sync,
      TDS2024B_Interface_State.load_horizontal_main_pres_sync,
      TDS2024B_Interface_State.load_trigger_pres_sync]
  · intro st resp q t h
    unfold TDS2024B_Interface_State.settings_read
    rw [finishSync_trigger]
    simp only [TDS2024B_Interface_State.read_mes_imm_pres_trigger,
      TDS2024B_Interface_State.read_mes4_pres_trigger,
      TDS2024B_Interface_State.read_mes3_pres_trigger,
      TDS2024B_Interface_State.read_mes2_pres_trigger,
      TDS2024B_Interface_State.read_mes1_pres_trigger,
      TDS2024B_Interface_State.read_ch4_pres_trigger,
      TDS2024B_Interface_State.read_ch3_pres_trigger,
      TDS2024B_Interface_State.read_ch2_pres_trigger,
      TDS2024B_Interface_State.read_ch1_pres_trigger,
      TDS2024B_Interface_State.read_horizontal_delay_pres_trigger,
      TDS2024B_Interface_State.read_horizontal_main_pres_trigger]
    simp [TDS2024B_Interface_State.read_trigger, stepSeq, h]

/-- C3 (witness): against a fully-decodable mock device the full read sets
`synchronized`; against a device whose main horizontal position reply is
garbage, the read fails, `synchronized` stays false (its initial value), and
the trigger — read before the failing entity — is already refreshed. -/
theorem C3_witness :
    TDS2024B_Interface.construct.synchronized = false ∧
    (TDS2024B_Interface.construct.settings_read goodResp).2.1.synchronized = true ∧
    (TDS2024B_Interface.construct.settings_read badResp).2.1.synchronized = false ∧
    (TDS2024B_Interface.construct.settings_read badResp).2.1.trigger =
      { id := "MAIN", type := some TDS2024B_Trigger_Type.Edge,
        mode := some TDS2024B_Trigger_Mode.Auto, level := some (3/2 : ℚ),
        edge_coupling := some TDS2024B_Trigger_Edge_Coupling.DC,
        edge_slope := some TDS2024B_Trigger_Edge_Slope.Rise,
        edge_source := some TDS2024B_Trigger_Edge_Source.CH1 } := by
  obtain ⟨h1, h2, h3, _, _, _, h7⟩ := C3_theorem
  refine ⟨h1, h2 _ goodResp (by rfl), ?_, ?_⟩
  · exact (h3 _ badResp "DecodeError at HOR:MAIN:POS?" (by rfl)).trans h1
  · exact h7 _ badResp _ _ (by rfl)

def cC4 : TDS2024B_Channel_Parameters :=
  { chan := 1, bw_filter := Option.none, coupling := Option.none,
    invert := Option.none, position := Option.none, attenuation := some (21/2 : ℚ),
    scale := Option.none, «on» := Option.none }

/-- C4 (counterexample): a channel whose `attenuation` holds the
non-integral value `10.5` (reachable, e.g., read back from the device by
`settings_read`, which stores `float(...)` into this field) does not
round-trip: `asdict` dumps `10.5` but `settings_load` coerces it through
`int(...)`, so the reloaded entity holds `10` instead. -/
theorem C4_counterexample :
    cC4.attenuation = some (21/2 : ℚ) ∧
    ((TDS2024B_Channel_Parameters.settings_load
        (TDS2024B_Channel_Parameters.construct 1) cC4.asdict).1).attenuation =
      some (10 : ℚ) ∧
    (21/2 : ℚ) ≠ (10 : ℚ) := by
  refine ⟨rfl, by decide, by decide⟩

set_option maxHeartbeats 2000000 in
/-- C4 (amended): dumping any Settings Entity with `asdict` and loading the
mapping into a freshly constructed entity of the same kind reproduces every
field exactly — set fields keep their values, unset fields stay unset — for
measurement, horizontal and trigger entities unconditionally, and for
channel entities up to truncation of `attenuation` toward zero by the
`int(...)` coercion of `settings_load` (exact whenever `attenuation` is
unset or holds an integral value, as its declared type prescribes). -/
theorem C4_amended_theorem (m : TDS2024B_Measurement)
    (hz : TDS2024B_Horizontal_Parameters) (t : TDS2024B_Trigger_Parameters)
    (c : TDS2024B_Channel_Parameters) :
    TDS2024B_Measurement.settings_load
      (TDS2024B_Measurement.construct m.id) m.asdict = (m, Option.none) ∧
    TDS2024B_Horizontal_Parameters.settings_load
      (TDS2024B_Horizontal_Parameters.construct hz.id) hz.asdict = (hz, Option.none) ∧
    TDS2024B_Trigger_Parameters.settings_load
      (TDS2024B_Trigger_Parameters.construct t.id) t.asdict = (t, Option.none) ∧
    TDS2024B_Channel_Parameters.settings_load
      (TDS2024B_Channel_Parameters.construct c.chan) c.asdict =
      ({ c with attenuation := c.attenuation.map (fun q => ((ratTrunc q : ℚ))) },
        Option.none) := by
  refine ⟨?_, ?_, ?_, ?_⟩
  · rcases m with ⟨mid, src, ty⟩
    cases src <;> cases ty <;>
      simp [TDS2024B_Measurement.settings_load, TDS2024B_Measurement.construct,
        TDS2024B_Measurement.load_source, TDS2024B_Measurement.load_type,
        TDS2024B_Measurement.asdict, loadField, lookupNonNull, List.lookup,
        decodeVia, optPrim]
  · rcases hz with ⟨hid, po, sc⟩
    cases po <;> cases sc <;>
      simp [TDS2024B_Horizontal_Parameters.settings_load,
        TDS2024B_Horizontal_Parameters.construct,
        TDS2024B_Horizontal_Parameters.load_pos,
        TDS2024B_Horizontal_Parameters.load_scale,
        TDS2024B_Horizontal_Parameters.asdict, loadField, lookupNonNull, List.lookup,
        optPrim, PrimVal.toFloat?]
  · rcases t with ⟨tid, ty, mo, le, ec, es, eso⟩
    cases ty <;> cases mo <;> cases le <;> cases ec <;> cases es <;> cases eso <;>
      simp [TDS2024B_Trigger_Parameters.settings_load, TDS2024B_Trigger_Parameters.construct,
        TDS2024B_Trigger_Parameters.load_type, TDS2024B_Trigger_Parameters.load_mode,
        TDS2024B_Trigger_Parameters.load_level, TDS2024B_Trigger_Parameters.load_edge_coupling,
        TDS2024B_Trigger_Parameters.load_edge_slope, TDS2024B_Trigger_Parameters.load_edge_source,
        TDS2024B_Trigger_Parameters.asdict, loadField, lookupNonNull, List.lookup,
        decodeVia, optPrim, PrimVal.toFloat?]
  · rcases c with ⟨cch, bw, cp, iv, po, att, sc, onf⟩
    cases bw <;> cases cp <;> cases iv <;> cases po <;> cases att <;> cases sc <;>
        cases onf <;>
      simp [TDS2024B_Channel_Parameters.settings_load, TDS2024B_Channel_Parameters.construct,
        TDS2024B_Channel_Parameters.load_bw_filter, TDS2024B_Channel_Parameters.load_coupling,
        TDS2024B_Channel_Parameters.load_invert, TDS2024B_Channel_Parameters.load_position,
        TDS2024B_Channel_Parameters.load_attenuation, TDS2024B_Channel_Parameters.load_scale,
        TDS2024B_Channel_Parameters.load_on, TDS2024B_Channel_Parameters.asdict,
        loadField, lookupNonNull, List.lookup, decodeVia, optPrim,
        PrimVal.toFloat?, PrimVal.toInt?, PrimVal.toBool]

/-- C5 (counterexample): on a fully-decodable mock device, the first queries
of the group read are the trigger's, followed by the horizontal ones — the
trigger entity is read before the horizontal entities, not after them as the
claim states. -/
theorem C5_counterexample :
    ((TDS2024B_Interface.construct.settings_read goodResp).1).take 8 =
      ["TRIG:MAIN:TYPE?", "TRIG:MAIN:MODE?", "TRIG:MAIN:LEVEL?",
       "TRIG:MAIN:EDGE:COUPLING?", "TRIG:MAIN:EDGE:SLOPE?", "TRIG:MAIN:EDGE:SOURCE?",
       "HOR:MAIN:POS?", "HOR:MAIN:SCALE?"] ∧
    ((TDS2024B_Interface.construct.settings_read goodResp).1).head? =
      some "TRIG:MAIN:TYPE?" ∧
    "TRIG:MAIN:TYPE?" ≠ "HOR:MAIN:POS?" := by
  refine ⟨rfl, rfl, by decide⟩


/-! ## Named stages of the full read of a fresh interface (for the
order-of-reads analysis) -/

/-- State of the fresh-interface full read after stage 1 (`trigger`). -/
def readStage1 (resp : String → String) :
    List String × TDS2024B_Interface_State × Option String :=
  TDS2024B_Interface_State.read_trigger ([], TDS2024B_Interface.construct, Option.none) resp

/-- State of the fresh-interface full read after stage 2 (`horizontal_main`). -/
def readStage2 (resp : String → String) :
    List String × TDS2024B_Interface_State × Option String :=
  TDS2024B_Interface_State.read_horizontal_main (readStage1 resp) resp

/-- State of the fresh-interface full read after stage 3 (`horizontal_delay`). -/
def readStage3 (resp : String → String) :
    List String × TDS2024B_Interface_State × Option String :=
  TDS2024B_Interface_State.read_horizontal_delay (readStage2 resp) resp

/-- State of the fresh-interface full read after stage 4 (`ch1`). -/
def readStage4 (resp : String → String) :
    List String × TDS2024B_Interface_State × Option String :=
  TDS2024B_Interface_State.read_ch1 (readStage3 resp) resp

/-- State of the fresh-interface full read after stage 5 (`ch2`). -/
def readStage5 (resp : String → String) :
    List String × TDS2024B_Interface_State × Option String :=
  TDS2024B_Interface_State.read_ch2 (readStage4 resp) resp

/-- State of the fresh-interface full read after stage 6 (`ch3`). -/
def readStage6 (resp : String → String) :
    List String × TDS2024B_Interface_State × Option String :=
  TDS2024B_Interface_State.read_ch3 (readStage5 resp) resp

/-- State of the fresh-interface full read after stage 7 (`ch4`). -/
def readStage7 (resp : String → String) :
    List String × TDS2024B_Interface_State × Option String :=
  TDS2024B_Interface_State.read_ch4 (readStage6 resp) resp

/-- State of the fresh-interface full read after stage 8 (`mes1`). -/
def readStage8 (resp : String → String) :
    List String × TDS2024B_Interface_State × Option String :=
  TDS2024B_Interface_State.read_mes1 (readStage7 resp) resp

/-- State of the fresh-interface full read after stage 9 (`mes2`). -/
def readStage9 (resp : String → String) :
    List String × TDS2024B_Interface_State × Option String :=
  TDS2024B_Interface_State.read_mes2 (readStage8 resp) resp

/-- State of the fresh-interface full read after stage 10 (`mes3`). -/
def readStage10 (resp : String → String) :
    List String × TDS2024B_Interface_State × Option String :=
  TDS2024B_Interface_State.read_mes3 (readStage9 resp) resp

/-- State of the fresh-interface full read after stage 11 (`mes4`). -/
def readStage11 (resp : String → String) :
    List String × TDS2024B_Interface_State × Option String :=
  TDS2024B_Interface_State.read_mes4 (readStage10 resp) resp

/-- State of the fresh-interface full read after stage 12 (`mes_imm`). -/
def readStage12 (resp : String → String) :
    List String × TDS2024B_Interface_State × Option String :=
  TDS2024B_Interface_State.read_mes_imm (readStage11 resp) resp

theorem readStage1_horizontal_main (resp : String → String) :
    ((readStage1 resp).2.1).horizontal_main = TDS2024B_Interface.construct.horizontal_main := by
  unfold readStage1
  simp only [TDS2024B_Interface_State.read_trigger_pres_horizontal_main]

theorem readStage2_horizontal_delay (resp : String → String) :
    ((readStage2 resp).2.1).horizontal_delay = TDS2024B_Interface.construct.horizontal_delay := by
  unfold readStage2 readStage1
  simp only [TDS2024B_Interface_State.read_trigger_pres_horizontal_delay, TDS2024B_Interface_State.read_horizontal_main_pres_horizontal_delay]

theorem readStage3_ch1 (resp : String → String) :
    ((readStage3 resp).2.1).ch1 = TDS2024B_Interface.construct.ch1 := by
  unfold readStage3 readStage2 readStage1
  simp only [TDS2024B_Interface_State.read_trigger_pres_ch1, TDS2024B_Interface_State.read_horizontal_main_pres_ch1, TDS2024B_Interface_State.read_horizontal_delay_pres_ch1]

theorem readStage4_ch2 (resp : String → String) :
    ((readStage4 resp).2.1).ch2 = TDS2024B_Interface.construct.ch2 := by
  unfold readStage4 readStage3 readStage2 readStage1
  simp only [TDS2024B_Interface_State.read_trigger_pres_ch2, TDS2024B_Interface_State.read_horizontal_main_pres_ch2, TDS2024B_Interface_State.read_horizontal_delay_pres_ch2, TDS2024B_Interface_State.read_ch1_pres_ch2]

theorem readStage5_ch3 (resp : String → String) :
    ((readStage5 resp).2.1).ch3 = TDS2024B_Interface.construct.ch3 := by
  unfold readStage5 readStage4 readStage3 readStage2 readStage1
  simp only [TDS2024B_Interface_State.read_trigger_pres_ch3, TDS2024B_Interface_State.read_horizontal_main_pres_ch3, TDS2024B_Interface_State.read_horizontal_delay_pres_ch3, TDS2024B_Interface_State.read_ch1_pres_ch3, TDS2024B_Interface_State.read_ch2_pres_ch3]

theorem readStage6_ch4 (resp : String → String) :
    ((readStage6 resp).2.1).ch4 = TDS2024B_Interface.construct.ch4 := by
  unfold readStage6 readStage5 readStage4 readStage3 readStage2 readStage1
  simp only [TDS2024B_Interface_State.read_trigger_pres_ch4, TDS2024B_Interface_State.read_horizontal_main_pres_ch4, TDS2024B_Interface_State.read_horizontal_delay_pres_ch4, TDS2024B_Interface_State.read_ch1_pres_ch4, TDS2024B_Interface_State.read_ch2_pres_ch4, TDS2024B_Interface_State.read_ch3_pres_ch4]

theorem readStage7_mes1 (resp : String → String) :
    ((readStage7 resp).2.1).mes1 = TDS2024B_Interface.construct.mes1 := by
  unfold readStage7 readStage6 readStage5 readStage4 readStage3 readStage2 readStage1
  simp only [TDS2024B_Interface_State.read_trigger_pres_mes1, TDS2024B_Interface_State.read_horizontal_main_pres_mes1, TDS2024B_Interface_State.read_horizontal_delay_pres_mes1, TDS2024B_Interface_State.read_ch1_pres_mes1, TDS2024B_Interface_State.read_ch2_pres_mes1, TDS2024B_Interface_State.read_ch3_pres_mes1, TDS2024B_Interface_State.read_ch4_pres_mes1]

theorem readStage8_mes2 (resp : String → String) :
    ((readStage8 resp).2.1).mes2 = TDS2024B_Interface.construct.mes2 := by
  unfold readStage8 readStage7 readStage6 readStage5 readStage4 readStage3 readStage2 readStage1
  simp only [TDS2024B_Interface_State.read_trigger_pres_mes2, TDS2024B_Interface_State.read_horizontal_main_pres_mes2, TDS2024B_Interface_State.read_horizontal_delay_pres_mes2, TDS2024B_Interface_State.read_ch1_pres_mes2, TDS2024B_Interface_State.read_ch2_pres_mes2, TDS2024B_Interface_State.read_ch3_pres_mes2, TDS2024B_Interface_State.read_ch4_pres_mes2, TDS2024B_Interface_State.read_mes1_pres_mes2]

theorem readStage9_mes3 (resp : String → String) :
    ((readStage9 resp).2.1).mes3 = TDS2024B_Interface.construct.mes3 := by
  unfold readStage9 readStage8 readStage7 readStage6 readStage5 readStage4 readStage3 readStage2 readStage1
  simp only [TDS2024B_Interface_State.read_trigger_pres_mes3, TDS2024B_Interface_State.read_horizontal_main_pres_mes3, TDS2024B_Interface_State.read_horizontal_delay_pres_mes3, TDS2024B_Interface_State.read_ch1_pres_mes3, TDS2024B_Interface_State.read_ch2_pres_mes3, TDS2024B_Interface_State.read_ch3_pres_mes3, TDS2024B_Interface_State.read_ch4_pres_mes3, TDS2024B_Interface_State.read_mes1_pres_mes3, TDS2024B_Interface_State.read_mes2_pres_mes3]

theorem readStage10_mes4 (resp : String → String) :
    ((readStage10 resp).2.1).mes4 = TDS2024B_Interface.construct.mes4 := by
  unfold readStage10 readStage9 readStage8 readStage7 readStage6 readStage5 readStage4 readStage3 readStage2 readStage1
  simp only [TDS2024B_Interface_State.read_trigger_pres_mes4, TDS2024B_Interface_State.read_horizontal_main_pres_mes4, TDS2024B_Interface_State.read_horizontal_delay_pres_mes4, TDS2024B_Interface_State.read_ch1_pres_mes4, TDS2024B_Interface_State.read_ch2_pres_mes4, TDS2024B_Interface_State.read_ch3_pres_mes4, TDS2024B_Interface_State.read_ch4_pres_mes4, TDS2024B_Interface_State.read_mes1_pres_mes4, TDS2024B_Interface_State.read_mes2_pres_mes4, TDS2024B_Interface_State.read_mes3_pres_mes4]

theorem readStage11_mes_imm (resp : String → String) :
    ((readStage11 resp).2.1).mes_imm = TDS2024B_Interface.construct.mes_imm := by
  unfold readStage11 readStage10 readStage9 readStage8 readStage7 readStage6 readStage5 readStage4 readStage3 readStage2 readStage1
  simp only [TDS2024B_Interface_State.read_trigger_pres_mes_imm, TDS2024B_Interface_State.read_horizontal_main_pres_mes_imm, TDS2024B_Interface_State.read_horizontal_delay_pres_mes_imm, TDS2024B_Interface_State.read_ch1_pres_mes_imm, TDS2024B_Interface_State.read_ch2_pres_mes_imm, TDS2024B_Interface_State.read_ch3_pres_mes_imm, TDS2024B_Interface_State.read_ch4_pres_mes_imm, TDS2024B_Interface_State.read_mes1_pres_mes_imm, TDS2024B_Interface_State.read_mes2_pres_mes_imm, TDS2024B_Interface_State.read_mes3_pres_mes_imm, TDS2024B_Interface_State.read_mes4_pres_mes_imm]

theorem readStage1_eq (resp : String → String) :
    readStage1 resp = TDS2024B_Interface_State.read_trigger ([], TDS2024B_Interface.construct, Option.none) resp := rfl

theorem readStage2_eq (resp : String → String) :
    readStage2 resp = TDS2024B_Interface_State.read_horizontal_main (readStage1 resp) resp := rfl

theorem readStage3_eq (resp : String → String) :
    readStage3 resp = TDS2024B_Interface_State.read_horizontal_delay (readStage2 resp) resp := rfl

theorem readStage4_eq (resp : String → String) :
    readStage4 resp = TDS2024B_Interface_State.read_ch1 (readStage3 resp) resp := rfl

theorem readStage5_eq (resp : String → String) :
    readStage5 resp = TDS2024B_Interface_State.read_ch2 (readStage4 resp) resp := rfl

theorem readStage6_eq (resp : String → String) :
    readStage6 resp = TDS2024B_Interface_State.read_ch3 (readStage5 resp) resp := rfl

theorem readStage7_eq (resp : String → String) :
    readStage7 resp = TDS2024B_Interface_State.read_ch4 (readStage6 resp) resp := rfl

theorem readStage8_eq (resp : String → String) :
    readStage8 resp = TDS2024B_Interface_State.read_mes1 (readStage7 resp) resp := rfl

theorem readStage9_eq (resp : String → String) :
    readStage9 resp = TDS2024B_Interface_State.read_mes2 (readStage8 resp) resp := rfl

theorem readStage10_eq (resp : String → String) :
    readStage10 resp = TDS2024B_Interface_State.read_mes3 (readStage9 resp) resp := rfl

theorem readStage11_eq (resp : String → String) :
    readStage11 resp = TDS2024B_Interface_State.read_mes4 (readStage10 resp) resp := rfl

theorem readStage12_eq (resp : String → String) :
    readStage12 resp = TDS2024B_Interface_State.read_mes_imm (readStage11 resp) resp := rfl

set_option maxHeartbeats 1000000 in
/-- C5 (amended): the group read is deterministic with the fixed declared
order trigger, horizontal main, horizontal delay, channels 1-4,
measurements 1-4, immediate measurement: every fully successful
`settings_read` of a freshly constructed interface issues exactly the 48
queries of `fullReadQueries`, in that order, whatever the device replies. -/
theorem C5_amended_theorem (resp : String → String)
    (h : (TDS2024B_Interface.construct.settings_read resp).2.2 = Option.none) :
    (TDS2024B_Interface.construct.settings_read resp).1 = fullReadQueries := by
  unfold TDS2024B_Interface_State.settings_read at h ⊢
  rw [← readStage1_eq resp, ← readStage2_eq resp, ← readStage3_eq resp, ← readStage4_eq resp, ← readStage5_eq resp, ← readStage6_eq resp, ← readStage7_eq resp, ← readStage8_eq resp, ← readStage9_eq resp, ← readStage10_eq resp, ← readStage11_eq resp, ← readStage12_eq resp] at h ⊢
  rw [finishSync_queries]
  rw [finishSync_err] at h
  obtain ⟨h11, hs12, ht12⟩ := TDS2024B_Interface_State.read_mes_imm_split (readStage11 resp) resp
    (by rw [← readStage12_eq resp]; exact h)
  obtain ⟨h10, hs11, ht11⟩ := TDS2024B_Interface_State.read_mes4_split (readStage10 resp) resp
    (by rw [← readStage11_eq resp]; exact h11)
  obtain ⟨h9, hs10, ht10⟩ := TDS2024B_Interface_State.read_mes3_split (readStage9 resp) resp
    (by rw [← readStage10_eq resp]; exact h10)
  obtain ⟨h8, hs9, ht9⟩ := TDS2024B_Interface_State.read_mes2_split (readStage8 resp) resp
    (by rw [← readStage9_eq resp]; exact h9)
  obtain ⟨h7, hs8, ht8⟩ := TDS2024B_Interface_State.read_mes1_split (readStage7 resp) resp
    (by rw [← readStage8_eq resp]; exact h8)
  obtain ⟨h6, hs7, ht7⟩ := TDS2024B_Interface_State.read_ch4_split (readStage6 resp) resp
    (by rw [← readStage7_eq resp]; exact h7)
  obtain ⟨h5, hs6, ht6⟩ := TDS2024B_Interface_State.read_ch3_split (readStage5 resp) resp
    (by rw [← readStage6_eq resp]; exact h6)
  obtain ⟨h4, hs5, ht5⟩ := TDS2024B_Interface_State.read_ch2_split (readStage4 resp) resp
    (by rw [← readStage5_eq resp]; exact h5)
  obtain ⟨h3, hs4, ht4⟩ := TDS2024B_Interface_State.read_ch1_split (readStage3 resp) resp
    (by rw [← readStage4_eq resp]; exact h4)
  obtain ⟨h2, hs3, ht3⟩ := TDS2024B_Interface_State.read_horizontal_delay_split (readStage2 resp) resp
    (by rw [← readStage3_eq resp]; exact h3)
  obtain ⟨h1, hs2, ht2⟩ := TDS2024B_Interface_State.read_horizontal_main_split (readStage1 resp) resp
    (by rw [← readStage2_eq resp]; exact h2)
  obtain ⟨h0, hs1, ht1⟩ := TDS2024B_Interface_State.read_trigger_split ([], TDS2024B_Interface.construct, Option.none) resp
    (by rw [← readStage1_eq resp]; exact h1)
  rw [readStage12_eq resp]
  rw [ht12]
  rw [readStage11_mes_imm resp] at hs12
  rw [readStage11_mes_imm resp]
  rw [TDS2024B_Measurement.settings_read_queries_mes _ resp hs12]
  rw [readStage11_eq resp]
  rw [ht11]
  rw [readStage10_mes4 resp] at hs11
  rw [readStage10_mes4 resp]
  rw [TDS2024B_Measurement.settings_read_queries_mes _ resp hs11]
  rw [readStage10_eq resp]
  rw [ht10]
  rw [readStage9_mes3 resp] at hs10
  rw [readStage9_mes3 resp]
  rw [TDS2024B_Measurement.settings_read_queries_mes _ resp hs10]
  rw [readStage9_eq resp]
  rw [ht9]
  rw [readStage8_mes2 resp] at hs9
  rw [readStage8_mes2 resp]
  rw [TDS2024B_Measurement.settings_read_queries_mes _ resp hs9]
  rw [readStage8_eq resp]
  rw [ht8]
  rw [readStage7_mes1 resp] at hs8
  rw [readStage7_mes1 resp]
  rw [TDS2024B_Measurement.settings_read_queries_mes _ resp hs8]
  rw [readStage7_eq resp]
  rw [ht7]
  rw [readStage6_ch4 resp] at hs7
  rw [readStage6_ch4 resp]
  rw [TDS2024B_Channel_Parameters.settings_read_queries_chan _ resp hs7]
  rw [readStage6_eq resp]
  rw [ht6]
  rw [readStage5_ch3 resp] at hs6
  rw [readStage5_ch3 resp]
  rw [TDS2024B_Channel_Parameters.settings_read_queries_chan _ resp hs6]
  rw [readStage5_eq resp]
  rw [ht5]
  rw [readStage4_ch2 resp] at hs5
  rw [readStage4_ch2 resp]
  rw [TDS2024B_Channel_Parameters.settings_read_queries_chan _ resp hs5]
  rw [readStage4_eq resp]
  rw [ht4]
  rw [readStage3_ch1 resp] at hs4
  rw [readStage3_ch1 resp]
  rw [TDS2024B_Channel_Parameters.settings_read_queries_chan _ resp hs4]
  rw [readStage3_eq resp]
  rw [ht3]
  rw [readStage2_horizontal_delay resp] at hs3
  rw [readStage2_horizontal_delay resp]
  rw [TDS2024B_Horizontal_Parameters.settings_read_queries_hor _ resp hs3]
  rw [readStage2_eq resp]
  rw [ht2]
  rw [readStage1_horizontal_main resp] at hs2
  rw [readStage1_horizontal_main resp]
  rw [TDS2024B_Horizontal_Parameters.settings_read_queries_hor _ resp hs2]
  rw [readStage1_eq resp]
  rw [ht1]
  rw [TDS2024B_Trigger_Parameters.settings_read_queries_trig _ resp hs1]
  rfl

/-- C5 (witness): the fully-decodable mock device run succeeds and issues
exactly the 48 declared queries in order. -/
theorem C5_witness :
    (TDS2024B_Interface.construct.settings_read goodResp).1 = fullReadQueries := by
  exact C5_amended_theorem goodResp (by rfl)
